import Mathlib

/-! # terraform-provider-netbox: reconciliation core

A shallow embedding of the resource lifecycle functions and of the paginated
JSON data sources of the provider (`src/netbox/*.go`), followed by the
properties established about them.

Conventions.

* Go `string` is `String`; Go `int` and `int64` are `Int` (the 64-bit range
  is stated explicitly where it matters, namely in `strconv.ParseInt`).
* A Go function receiving `d *schema.ResourceData` and returning `error`
  becomes a function from the resource data to an `Outcome`: the returned
  error (if any) together with the mutated resource data, or a run-time panic.
* Remote calls are represented by their responses, passed in as arguments.
-/

namespace Netbox

/-! ## Errors -/

/-- Go `error` values that the provider can return. -/
inductive Error
  /-- An error handed back by the API client (transport, HTTP status, decoding). -/
  | api (msg : String)
  /-- The field writer rejecting a key absent from the schema. -/
  | invalidAddress (key : String)
  /-- The field writer failing to decode a value into the type of a field. -/
  | decode (key : String)
  /-- An error of `url.Parse`. -/
  | url (msg : String)
  /-- An error of `strconv.ParseInt` on the given input. -/
  | strconv (input : String)
  /-- The value of `fmt.Errorf("Unable to convert ID into int64")`. -/
  | convertID
  deriving DecidableEq, Repr

/-! ## strconv -/

/-- One pass of the digit loop behind `strconv.FormatInt(_, 10)`: the least
significant decimal digit of `u` is pushed in front of `acc` and the loop goes
on with `u / 10` until nothing is left.  `fuel` bounds the number of digits. -/
def formatBits : Nat → Nat → List Char → List Char
  | 0, _, acc => acc
  | fuel + 1, u, acc =>
    if u / 10 = 0 then Char.ofNat (48 + u % 10) :: acc
    else formatBits fuel (u / 10) (Char.ofNat (48 + u % 10) :: acc)

/-- Decimal digits of an unsigned value. -/
def formatUint (u : Nat) : List Char := formatBits (u + 1) u []

/-- Go `strconv.FormatInt(i, 10)`: a minus sign for negative values, then the
decimal digits of the magnitude. -/
def FormatInt (i : Int) : String :=
  if i < 0 then String.mk ('-' :: formatUint i.natAbs) else String.mk (formatUint i.toNat)

/-- Digit loop of `strconv.ParseUint(_, 10, 64)`: every byte has to be one of
`0`..`9`.  The value is accumulated without a bound; the 64-bit range is
checked by `ParseInt`. -/
def parseDigits : List Char → Nat → Option Nat
  | [], n => some n
  | c :: cs, n =>
    if 48 ≤ c.toNat ∧ c.toNat ≤ 57 then parseDigits cs (n * 10 + (c.toNat - 48)) else none

/-- Go `strconv.ParseUint(s, 10, 64)` before the range check: the empty input
is a syntax error. -/
def ParseUint (s : List Char) : Option Nat :=
  match s with
  | [] => none
  | c :: cs => parseDigits (c :: cs) 0

/-- Go `strconv.ParseInt(s, 10, 64)`; `none` stands for a non-nil error
(syntax or range).  An optional leading sign is picked off, the rest is read
as an unsigned number, and the result has to fit a signed 64-bit integer:
magnitudes from `2^63` on are rejected for non-negative input, magnitudes
above `2^63` for negative input. -/
def ParseInt (s : String) : Option Int :=
  match s.data with
  | [] => none
  | c :: cs =>
    if c = '+' then
      match ParseUint cs with
      | none => none
      | some un => if 2 ^ 63 ≤ un then none else some (Int.ofNat un)
    else if c = '-' then
      match ParseUint cs with
      | none => none
      | some un => if 2 ^ 63 < un then none else some (-(Int.ofNat un))
    else
      match ParseUint (c :: cs) with
      | none => none
      | some un => if 2 ^ 63 ≤ un then none else some (Int.ofNat un)

/-! ## The declared-state store (`schema.ResourceData`)

The store belongs to the plugin SDK.  It is modelled by what the provider
relies on: typed reads (`Get`), validated writes (`Set`), the persisted
identity (`Id`, `SetId`) and the dirty predicate (`HasChange`). -/

/-- An element of the `tag` set of an interface: a map with the keys `name`
and `slug`. -/
structure Tag where
  name : String
  slug : String
  deriving DecidableEq, Repr

/-- A VLAN as the API lists it among the tagged VLANs of an interface
(`models.NestedVLAN`). -/
structure NestedVLAN where
  ID : Int
  deriving DecidableEq, Repr

/-- A Go value travelling through `interface{}` between the provider and the
store. -/
inductive Value
  /-- The nil interface, or a nil pointer. -/
  | null
  | str (s : String)
  /-- A Go `int`, the representation the store uses for `TypeInt`. -/
  | int (n : Int)
  /-- A Go `int64`, the representation the API models use. -/
  | int64 (n : Int)
  | bool (b : Bool)
  /-- A collection of integers (the members of a set, or a slice). -/
  | ints (xs : List Int)
  /-- A collection of tag objects. -/
  | tags (xs : List Tag)
  /-- A slice of pointers to VLAN objects of the API (`[]*models.NestedVLAN`). -/
  | vlans (xs : List NestedVLAN)
  deriving DecidableEq, Repr

/-- The field types used by the schemas of the provider; the two set types
are `TypeSet` with `Elem` a `TypeInt` schema, respectively a resource with the
fields `name` and `slug`. -/
inductive ValueType
  | TypeBool
  | TypeInt
  | TypeString
  | TypeSetOfInt
  | TypeSetOfTag
  deriving DecidableEq, Repr

/-- The field contract of one attribute (`schema.Schema`).  Defaults and
validation functions belong to the validation layer and are left out. -/
structure Schema where
  ty : ValueType
  Required : Bool := false
  Optional : Bool := false
  ForceNew : Bool := false
  Computed : Bool := false
  deriving DecidableEq, Repr

/-- Zero value of a field type: what `Get` returns for an attribute that was
never set or was removed. -/
def zeroValue : ValueType → Value
  | .TypeBool => .bool false
  | .TypeInt => .int 0
  | .TypeString => .str ""
  | .TypeSetOfInt => .ints []
  | .TypeSetOfTag => .tags []

/-- Whether a stored value has the Go representation of a field type. -/
def Value.hasType : Value → ValueType → Bool
  | .bool _, .TypeBool => true
  | .int _, .TypeInt => true
  | .str _, .TypeString => true
  | .ints _, .TypeSetOfInt => true
  | .tags _, .TypeSetOfTag => true
  | _, _ => false

/-- What the field writer stores for a value handed to `Set`, `none` when the
value cannot be decoded into the field type.  A nil value removes the
attribute; integers of either width are accepted by an integer field;
strings and booleans are only accepted by fields of their own type; a slice
written to a set field is turned into a set, member by member: the members of
a slice of VLAN objects are structures, none of which decodes into the integer
member of a set, so that only the empty slice is accepted. -/
def decodeValue : ValueType → Value → Option Value
  | ty, .null => some (zeroValue ty)
  | .TypeBool, .bool b => some (.bool b)
  | .TypeInt, .int n => some (.int n)
  | .TypeInt, .int64 n => some (.int n)
  | .TypeString, .str s => some (.str s)
  | .TypeSetOfInt, .ints xs => some (.ints xs.dedup)
  | .TypeSetOfInt, .vlans [] => some (.ints [])
  | .TypeSetOfTag, .tags xs => some (.tags xs.dedup)
  | _, _ => none

/-- The resource data handed to every lifecycle function: the schema of the
resource kind, the persisted identity, the current attribute values (latest
write first) and the keys that differ from the last synchronized state. -/
structure ResourceData where
  schema : List (String × Schema)
  id : String
  attrs : List (String × Value)
  changed : List String
  deriving DecidableEq, Repr

namespace ResourceData

/-- Go `d.Id()`. -/
def Id (d : ResourceData) : String := d.id

/-- Go `d.SetId(v)`. -/
def SetId (d : ResourceData) (v : String) : ResourceData := { d with id := v }

/-- Go `d.Get(key)`: the current value of a schema attribute, always of the
Go type of the field (its zero value when unset); nil for a key that the
schema does not declare. -/
def Get (d : ResourceData) (key : String) : Value :=
  match d.schema.lookup key with
  | none => .null
  | some s =>
    match d.attrs.lookup key with
    | none => zeroValue s.ty
    | some v => if v.hasType s.ty then v else zeroValue s.ty

/-- Go `d.Set(key, value)`: fails for a key outside the schema and for a value
that does not decode into the field type; otherwise records the value. -/
def Set (d : ResourceData) (key : String) (value : Value) : Except Error ResourceData :=
  match d.schema.lookup key with
  | none => .error (.invalidAddress key)
  | some s =>
    match decodeValue s.ty value with
    | none => .error (.decode key)
    | some w => .ok { d with attrs := (key, w) :: d.attrs }

/-- Go `d.HasChange(key)`: the dirty predicate supplied by the store. -/
def HasChange (d : ResourceData) (key : String) : Bool := d.changed.contains key

end ResourceData

/-- Type assertion `v.(string)`; `none` is the run-time panic of a failed
assertion. -/
def Value.assertString : Value → Option String
  | .str s => some s
  | _ => none

/-- Type assertion `v.(int)`. -/
def Value.assertInt : Value → Option Int
  | .int n => some n
  | _ => none

/-- Type assertion `v.(int64)`. -/
def Value.assertInt64 : Value → Option Int
  | .int64 n => some n
  | _ => none

/-- Type assertion `v.(bool)`. -/
def Value.assertBool : Value → Option Bool
  | .bool b => some b
  | _ => none

/-- Go `v.(*schema.Set).List()` on a set of integers. -/
def Value.assertIntSet : Value → Option (List Int)
  | .ints xs => some xs
  | _ => none

/-- Go `v.(*schema.Set).List()` on a set of tag objects. -/
def Value.assertTagSet : Value → Option (List Tag)
  | .tags xs => some xs
  | _ => none

/-- A pointer to a string handed to `Set` (nil removes the attribute). -/
def Value.ofStringPtr : Option String → Value
  | none => .null
  | some s => .str s

/-- A pointer to an `int64` handed to `Set`. -/
def Value.ofInt64Ptr : Option Int → Value
  | none => .null
  | some n => .int64 n

/-- A pointer to a `bool` handed to `Set`. -/
def Value.ofBoolPtr : Option Bool → Value
  | none => .null
  | some b => .bool b

/-- How a lifecycle function ends: it returns (with or without an error),
leaving the resource data as mutated so far, or it panics. -/
inductive Outcome
  | returned (err : Option Error) (d : ResourceData)
  | panicked
  deriving DecidableEq, Repr

/-! ## API models and responses -/

/-- The `next` pointer of a list response, represented by what `url.Parse`
and `URL.Query()` make of it: a parse error, or the query parameters (each key
with its values in order of appearance). -/
inductive NextURL
  | malformed (e : Error)
  | parsed (query : List (String × List String))
  deriving DecidableEq, Repr

/-- The payload of a list response: the records of one page and the pointer
to the next page. -/
structure Page (α : Type) where
  Results : List α
  Next : Option NextURL := none
  deriving DecidableEq, Repr

/-- A nested reference stub such as `NestedTenant` or `NestedSite`. -/
structure Nested where
  ID : Int
  deriving DecidableEq, Repr

/-- A choice wrapper with a string value (`{value, label}`). -/
structure Choice where
  Value : Option String
  Label : Option String := none
  deriving DecidableEq, Repr

/-- A choice wrapper with a boolean value (interface connection status). -/
structure BoolChoice where
  Value : Option Bool
  Label : Option String := none
  deriving DecidableEq, Repr

/-- Sequencing of two steps of which the first may panic (`none`): the second
step runs on the result of the first, and a panic ends the whole sequence. -/
@[noinline]
def andThen {α β : Type} (x : Option α) (f : α → Option β) : Option β :=
  match x with
  | none => none
  | some a => f a

/-! ## Shared control flow of the lifecycle functions -/

/-- The body executed by Read for the matching record: a chain of
`if err = d.Set(key, value); err != nil { return err }` closed by
`return nil`.  Every entry is one `Set` in source order; an entry without a
value stands for an argument whose evaluation dereferences a nil pointer. -/
def setEach : List (String × Option Value) → ResourceData → Outcome
  | [], d => .returned none d
  | (_, none) :: _, _ => .panicked
  | (key, some value) :: rest, d =>
    match d.Set key value with
    | .error e => .returned (some e) d
    | .ok d1 => setEach rest d1

/-- The scan of Read over `resources.Payload.Results`: the body runs for the
first record whose formatted ID equals `d.Id()` and Read returns from inside
the loop; when the loop falls through, the identity is cleared. -/
def readScan {α : Type} (ID : α → Int) (body : α → List (String × Option Value))
    (d : ResourceData) : List α → Outcome
  | [] => .returned none (d.SetId "")
  | resource :: rest =>
    if FormatInt (ID resource) = d.Id then setEach (body resource) d
    else readScan ID body d rest

/-- The scan of Exists: `resourceExist` is raised for every record whose
formatted ID equals `d.Id()`; the loop never leaves early. -/
def existsScan {α : Type} (ID : α → Int) (d : ResourceData) : List α → Bool → Bool
  | [], resourceExist => resourceExist
  | resource :: rest, resourceExist =>
    existsScan ID d rest (if FormatInt (ID resource) = d.Id then true else resourceExist)

/-- What Exists hands back: the pair `(b, e)` and the resource data as the
call leaves it. -/
structure ExistsResult where
  b : Bool
  e : Option Error
  d : ResourceData
  deriving DecidableEq, Repr

/-- Read, shared shape: the list request filtered by the identity, an early
return on a failed request, then the scan. -/
def readWith {α : Type} (ID : α → Int) (body : α → List (String × Option Value))
    (list : String → Except Error (Page α)) (d : ResourceData) : Outcome :=
  match list d.Id with
  | .error err => .returned (some err) d
  | .ok resources => readScan ID body d resources.Results

/-- Exists, shared shape. -/
def existsWith {α : Type} (ID : α → Int)
    (list : String → Except Error (Page α)) (d : ResourceData) : ExistsResult :=
  match list d.Id with
  | .error err => { b := false, e := some err, d := d }
  | .ok resources => { b := existsScan ID d resources.Results false, e := none, d := d }

/-- Specification vocabulary: `resource` is the first record of `results`, in
list order, whose ID rendered in base 10 equals the identity `s`. -/
def FirstMatch {α : Type} (ID : α → Int) (s : String) (results : List α) (resource : α) :
    Prop :=
  ∃ pre post, results = pre ++ resource :: post ∧
    (∀ x ∈ pre, FormatInt (ID x) ≠ s) ∧ FormatInt (ID resource) = s

/-- Specification vocabulary: no record of `results` has an ID whose base 10
rendering equals the identity `s`. -/
def NoMatch {α : Type} (ID : α → Int) (s : String) (results : List α) : Prop :=
  ∀ x ∈ results, FormatInt (ID x) ≠ s

/-! ## `resource_netbox_dcim_site.go` -/

/-- Schema of `netbox_dcim_site`. -/
def resourceNetboxDcimSite : List (String × Schema) :=
  [("name", { ty := .TypeString, Required := true }),
   ("slug", { ty := .TypeString, Required := true }),
   ("status", { ty := .TypeString, Optional := true }),
   ("tenant_id", { ty := .TypeInt, Optional := true })]

/-- The fields of `models.Site` that the provider reads. -/
structure Site where
  ID : Int
  Name : Option String
  Slug : Option String
  Status : Option Choice
  Tenant : Option Nested
  deriving DecidableEq, Repr

/-- The fields of `models.WritableSite` that the provider writes. -/
structure WritableSite where
  Name : Option String := none
  Slug : Option String := none
  Status : String := ""
  Tenant : Option Int := none
  deriving DecidableEq, Repr

/-- Body of the loop of `resourceNetboxDcimSiteRead`. -/
def resourceNetboxDcimSiteReadBody (resource : Site) : List (String × Option Value) :=
  [("name", some (.ofStringPtr resource.Name)),
   ("slug", some (.ofStringPtr resource.Slug)),
   ("status", some (match resource.Status with
      | none => .str ""
      | some status => .ofStringPtr status.Value)),
   ("tenant_id", some (match resource.Tenant with
      | none => .int 0
      | some tenant => .int64 tenant.ID))]

/-- Go `resourceNetboxDcimSiteRead`. -/
def resourceNetboxDcimSiteRead (DcimSitesList : String → Except Error (Page Site))
    (d : ResourceData) : Outcome :=
  readWith Site.ID resourceNetboxDcimSiteReadBody DcimSitesList d

/-- Go `resourceNetboxDcimSiteExists`. -/
def resourceNetboxDcimSiteExists (DcimSitesList : String → Except Error (Page Site))
    (d : ResourceData) : ExistsResult :=
  existsWith Site.ID DcimSitesList d

/-- Payload built by `resourceNetboxDcimSiteCreate`: the declared values are read in source
order (a failed type assertion panics, `none`), the required fields are set in
the literal and every optional field is assigned under its own guard. -/
def resourceNetboxDcimSiteCreateData (d : ResourceData) : Option WritableSite :=
  andThen (d.Get "name").assertString fun siteName =>
  andThen (d.Get "slug").assertString fun siteSlug =>
  andThen (d.Get "status").assertString fun siteStatus =>
  andThen (d.Get "tenant_id").assertInt fun siteTenantID =>
  some
    { Name := some siteName,
      Slug := some siteSlug,
      Status := if siteStatus ≠ "" then siteStatus else "",
      Tenant := if siteTenantID ≠ 0 then some siteTenantID else none }

/-- Payload built by `resourceNetboxDcimSiteUpdate`; `none` is a panic raised while the
payload is put together.  Every field of `params` is assigned at most once, by
the statement shown for it, in source order. -/
def resourceNetboxDcimSiteUpdateData (d : ResourceData) : Option WritableSite :=
  andThen (d.Get "name").assertString fun name =>
  andThen (d.Get "slug").assertString fun slug =>
  andThen (if d.HasChange "status" then
      andThen (d.Get "status").assertString fun status =>
      some status
    else some "") fun Status =>
  andThen (if d.HasChange "tenant_id" then
      andThen (d.Get "tenant_id").assertInt64 fun tenantID =>
      some (some tenantID)
    else some none) fun Tenant =>
  some
    { Name := some name,
      Slug := some slug,
      Status := Status,
      Tenant := Tenant }

/-! ## `resource_netbox_dcim_cable.go` -/

/-- Schema of `netbox_dcim_cable`. -/
def resourceNetboxDcimCable : List (String × Schema) :=
  [("status", { ty := .TypeString, Optional := true }),
   ("termination_a_id", { ty := .TypeInt, Required := true, ForceNew := true }),
   ("termination_a_type", { ty := .TypeString, Required := true }),
   ("termination_b_id", { ty := .TypeInt, Required := true, ForceNew := true }),
   ("termination_b_type", { ty := .TypeString, Required := true })]

/-- The fields of `models.Cable` that the provider reads. -/
structure Cable where
  ID : Int
  Status : Option Choice
  TerminationaID : Option Int
  TerminationaType : Option String
  TerminationbID : Option Int
  TerminationbType : Option String
  deriving DecidableEq, Repr

/-- The fields of `models.WritableCable` that the provider writes. -/
structure WritableCable where
  TerminationaID : Option Int := none
  TerminationaType : Option String := none
  TerminationbID : Option Int := none
  TerminationbType : Option String := none
  Status : String := ""
  deriving DecidableEq, Repr

/-- Body of the loop of `resourceNetboxDcimCableRead`. -/
def resourceNetboxDcimCableReadBody (resource : Cable) : List (String × Option Value) :=
  [("status", some (match resource.Status with
      | none => .str ""
      | some status => .ofStringPtr status.Value)),
   ("termination_a_id", some (.ofInt64Ptr resource.TerminationaID)),
   ("termination_a_type", some (.ofStringPtr resource.TerminationaType)),
   ("termination_b_id", some (.ofInt64Ptr resource.TerminationbID)),
   ("termination_b_type", some (.ofStringPtr resource.TerminationbType))]

/-- Go `resourceNetboxDcimCableRead`. -/
def resourceNetboxDcimCableRead (DcimCablesList : String → Except Error (Page Cable))
    (d : ResourceData) : Outcome :=
  readWith Cable.ID resourceNetboxDcimCableReadBody DcimCablesList d

/-- Go `resourceNetboxDcimCableExists`. -/
def resourceNetboxDcimCableExists (DcimCablesList : String → Except Error (Page Cable))
    (d : ResourceData) : ExistsResult :=
  existsWith Cable.ID DcimCablesList d

/-- Payload built by `resourceNetboxDcimCableCreate`: the declared values are read in source
order (a failed type assertion panics, `none`), the required fields are set in
the literal and every optional field is assigned under its own guard. -/
def resourceNetboxDcimCableCreateData (d : ResourceData) : Option WritableCable :=
  andThen (d.Get "status").assertString fun cableStatus =>
  andThen (d.Get "termination_a_id").assertInt fun cableTerminationAId =>
  andThen (d.Get "termination_a_type").assertString fun cableTerminationAType =>
  andThen (d.Get "termination_b_id").assertInt fun cableTerminationBId =>
  andThen (d.Get "termination_b_type").assertString fun cableTerminationBType =>
  some
    { TerminationaID := some cableTerminationAId,
      TerminationaType := some cableTerminationAType,
      TerminationbID := some cableTerminationBId,
      TerminationbType := some cableTerminationBType,
      Status := if cableStatus ≠ "" then cableStatus else "" }

/-- Payload built by `resourceNetboxDcimCableUpdate`; `none` is a panic raised while the
payload is put together.  Every field of `params` is assigned at most once, by
the statement shown for it, in source order. -/
def resourceNetboxDcimCableUpdateData (d : ResourceData) : Option WritableCable :=
  andThen (d.Get "termination_a_id").assertInt fun terminationAId =>
  andThen (d.Get "termination_a_type").assertString fun terminationAType =>
  andThen (d.Get "termination_b_id").assertInt fun terminationBId =>
  andThen (d.Get "termination_b_type").assertString fun terminationBType =>
  andThen (if d.HasChange "status" then
      andThen (d.Get "status").assertString fun status =>
      some status
    else some "") fun Status =>
  some
    { TerminationaID := some terminationAId,
      TerminationaType := some terminationAType,
      TerminationbID := some terminationBId,
      TerminationbType := some terminationBType,
      Status := Status }

/-! ## `resource_netbox_virtualization_cluster.go` -/

/-- Schema of `netbox_virtualization_cluster`. -/
def resourceNetboxVirtualizationCluster : List (String × Schema) :=
  [("name", { ty := .TypeString, Required := true }),
   ("type_id", { ty := .TypeInt, Required := true }),
   ("site_id", { ty := .TypeInt, Optional := true }),
   ("tenant_id", { ty := .TypeInt, Optional := true })]

/-- The fields of `models.Cluster` that the provider reads. -/
structure Cluster where
  ID : Int
  Name : Option String
  Type_ : Option Nested
  Site : Option Nested
  Tenant : Option Nested
  deriving DecidableEq, Repr

/-- The fields of `models.WritableCluster` that the provider writes. -/
structure WritableCluster where
  Name : Option String := none
  Type_ : Option Int := none
  Site : Option Int := none
  Tenant : Option Int := none
  deriving DecidableEq, Repr

/-- Body of the loop of `resourceNetboxVirtualizationClusterRead`. -/
def resourceNetboxVirtualizationClusterReadBody (resource : Cluster) :
    List (String × Option Value) :=
  [("name", some (.ofStringPtr resource.Name)),
   ("type_id", some (match resource.Type_ with
      | none => .int 0
      | some clusterType => .int64 clusterType.ID)),
   ("site_id", some (match resource.Site with
      | none => .int 0
      | some site => .int64 site.ID)),
   ("tenant_id", some (match resource.Tenant with
      | none => .int 0
      | some tenant => .int64 tenant.ID))]

/-- Go `resourceNetboxVirtualizationClusterRead`. -/
def resourceNetboxVirtualizationClusterRead
    (VirtualizationClustersList : String → Except Error (Page Cluster))
    (d : ResourceData) : Outcome :=
  readWith Cluster.ID resourceNetboxVirtualizationClusterReadBody VirtualizationClustersList d

/-- Go `resourceNetboxVirtualizationClusterExists`. -/
def resourceNetboxVirtualizationClusterExists
    (VirtualizationClustersList : String → Except Error (Page Cluster))
    (d : ResourceData) : ExistsResult :=
  existsWith Cluster.ID VirtualizationClustersList d

/-- Payload built by `resourceNetboxVirtualizationClusterCreate`: the declared
values are read in source order (a failed type assertion panics, `none`), the
required fields are set in the literal and every optional field is assigned
under its own guard. -/
def resourceNetboxVirtualizationClusterCreateData (d : ResourceData) :
    Option WritableCluster :=
  andThen (d.Get "name").assertString fun clusterName =>
  andThen (d.Get "type_id").assertInt fun clusterTypeID =>
  andThen (d.Get "site_id").assertInt fun clusterSiteID =>
  andThen (d.Get "tenant_id").assertInt fun clusterTenantID =>
  some
    { Name := some clusterName,
      Type_ := some clusterTypeID,
      Tenant := if clusterTenantID ≠ 0 then some clusterTenantID else none,
      Site := if clusterSiteID ≠ 0 then some clusterSiteID else none }

/-- Payload built by `resourceNetboxVirtualizationClusterUpdate`; `none` is a panic raised while the
payload is put together.  Every field of `params` is assigned at most once, by
the statement shown for it, in source order. -/
def resourceNetboxVirtualizationClusterUpdateData (d : ResourceData) :
    Option WritableCluster :=
  andThen (d.Get "name").assertString fun name =>
  andThen (d.Get "type_id").assertInt fun typeID =>
  andThen (if d.HasChange "site_id" then
      andThen (d.Get "site_id").assertInt fun siteID =>
      some (some siteID)
    else some none) fun Site =>
  andThen (if d.HasChange "tenant_id" then
      andThen (d.Get "tenant_id").assertInt fun tenantID =>
      some (some tenantID)
    else some none) fun Tenant =>
  some
    { Name := some name,
      Type_ := some typeID,
      Site := Site,
      Tenant := Tenant }

/-! ## `resource_netbox_dcim_rack.go` -/

/-- Schema of `netbox_dcim_rack`. -/
def resourceNetboxDcimRack : List (String × Schema) :=
  [("asset_tag", { ty := .TypeString, Optional := true }),
   ("desc_units", { ty := .TypeBool, Optional := true }),
   ("facility_id", { ty := .TypeString, Optional := true }),
   ("group_id", { ty := .TypeInt, Optional := true }),
   ("name", { ty := .TypeString, Required := true }),
   ("role_id", { ty := .TypeInt, Optional := true }),
   ("serial", { ty := .TypeString, Optional := true }),
   ("site_id", { ty := .TypeInt, Required := true }),
   ("status", { ty := .TypeString, Optional := true }),
   ("tenant_id", { ty := .TypeInt, Optional := true }),
   ("u_height", { ty := .TypeInt, Optional := true })]

/-- The fields of `models.Rack` that the provider reads. -/
structure Rack where
  ID : Int
  Name : Option String
  AssetTag : Option String
  FacilityID : Option String
  Serial : String
  UHeight : Int
  DescUnits : Bool
  Group : Option Nested
  Role : Option Nested
  Status : Option Choice
  Site : Option Nested
  Tenant : Option Nested
  deriving DecidableEq, Repr

/-- The fields of `models.WritableRack` that the provider writes. -/
structure WritableRack where
  Name : Option String := none
  Site : Option Int := none
  AssetTag : Option String := none
  DescUnits : Bool := false
  FacilityID : Option String := none
  Group : Option Int := none
  Role : Option Int := none
  Serial : String := ""
  Status : String := ""
  Tenant : Option Int := none
  UHeight : Int := 0
  deriving DecidableEq, Repr

/-- Body of the loop of `resourceNetboxDcimRackRead`. -/
def resourceNetboxDcimRackReadBody (resource : Rack) : List (String × Option Value) :=
  [("name", some (.ofStringPtr resource.Name)),
   ("asset_tag", some (.ofStringPtr resource.AssetTag)),
   ("facility_id", some (.ofStringPtr resource.FacilityID)),
   ("serial", some (.str resource.Serial)),
   ("u_height", some (.int64 resource.UHeight)),
   ("desc_units", some (.bool resource.DescUnits)),
   ("group_id", some (match resource.Group with
      | none => .int 0
      | some group => .int64 group.ID)),
   ("role_id", some (match resource.Role with
      | none => .int 0
      | some role => .int64 role.ID)),
   ("status", some (match resource.Status with
      | none => .str ""
      | some status => .ofStringPtr status.Value)),
   ("site_id", some (match resource.Site with
      | none => .int 0
      | some site => .int64 site.ID)),
   ("tenant_id", some (match resource.Tenant with
      | none => .int 0
      | some tenant => .int64 tenant.ID))]

/-- Go `resourceNetboxDcimRackRead`. -/
def resourceNetboxDcimRackRead (DcimRacksList : String → Except Error (Page Rack))
    (d : ResourceData) : Outcome :=
  readWith Rack.ID resourceNetboxDcimRackReadBody DcimRacksList d

/-- Go `resourceNetboxDcimRackExists`. -/
def resourceNetboxDcimRackExists (DcimRacksList : String → Except Error (Page Rack))
    (d : ResourceData) : ExistsResult :=
  existsWith Rack.ID DcimRacksList d

/-- Payload built by `resourceNetboxDcimRackCreate`: the declared values are read in source
order (a failed type assertion panics, `none`), the required fields are set in
the literal and every optional field is assigned under its own guard. -/
def resourceNetboxDcimRackCreateData (d : ResourceData) : Option WritableRack :=
  andThen (d.Get "name").assertString fun rackName =>
  andThen (d.Get "site_id").assertInt fun rackSiteID =>
  andThen (d.Get "status").assertString fun rackStatus =>
  andThen (d.Get "tenant_id").assertInt fun rackTenantID =>
  andThen (d.Get "asset_tag").assertString fun rackAssetTag =>
  andThen (d.Get "facility_id").assertString fun rackFacilityID =>
  andThen (d.Get "group_id").assertInt fun rackGroupID =>
  andThen (d.Get "role_id").assertInt fun rackRoleID =>
  andThen (d.Get "serial").assertString fun rackSerial =>
  andThen (d.Get "desc_units").assertBool fun rackDescUnits =>
  andThen (d.Get "u_height").assertInt fun rackUHeight =>
  some
    { Name := some rackName,
      Site := some rackSiteID,
      AssetTag := if rackAssetTag ≠ "" then some rackAssetTag else none,
      DescUnits := if rackDescUnits ≠ false then rackDescUnits else false,
      FacilityID := if rackFacilityID ≠ "" then some rackFacilityID else none,
      Group := if rackGroupID ≠ 0 then some rackGroupID else none,
      Role := if rackRoleID ≠ 0 then some rackRoleID else none,
      Serial := if rackSerial ≠ "" then rackSerial else "",
      Status := if rackStatus ≠ "" then rackStatus else "",
      Tenant := if rackTenantID ≠ 0 then some rackTenantID else none,
      UHeight := if rackUHeight ≠ 0 then rackUHeight else 0 }

/-- Payload built by `resourceNetboxDcimRackUpdate`; `none` is a panic raised while the
payload is put together.  Every field of `params` is assigned at most once, by
the statement shown for it, in source order. -/
def resourceNetboxDcimRackUpdateData (d : ResourceData) : Option WritableRack :=
  andThen (d.Get "name").assertString fun name =>
  andThen (d.Get "site_id").assertInt fun siteID =>
  andThen (if d.HasChange "asset_tag" then
      andThen (d.Get "asset_tag").assertString fun assetTag =>
      some (some assetTag)
    else some none) fun AssetTag =>
  andThen (if d.HasChange "facility_id" then
      andThen (d.Get "facility_id").assertString fun facilityID =>
      some (some facilityID)
    else some none) fun FacilityID =>
  andThen (if d.HasChange "group_id" then
      andThen (d.Get "group_id").assertInt fun groupID =>
      some (if groupID ≠ 0 then some groupID else none)
    else some none) fun Group =>
  andThen (if d.HasChange "role_id" then
      andThen (d.Get "role_id").assertInt fun roleID =>
      some (if roleID ≠ 0 then some roleID else none)
    else some none) fun Role =>
  andThen (if d.HasChange "serial" then
      andThen (d.Get "serial").assertString fun serial =>
      some serial
    else some "") fun Serial =>
  andThen (if d.HasChange "status" then
      andThen (d.Get "status").assertString fun status =>
      some status
    else some "") fun Status =>
  andThen (if d.HasChange "tenant_id" then
      andThen (d.Get "tenant_id").assertInt fun tenantID =>
      some (some tenantID)
    else some none) fun Tenant =>
  andThen (if d.HasChange "u_height" then
      andThen (d.Get "u_height").assertInt fun uHeight =>
      some uHeight
    else some 0) fun UHeight =>
  andThen (if d.HasChange "desc_units" then
      andThen (d.Get "u_height").assertBool fun descUnits =>
      some descUnits
    else some false) fun DescUnits =>
  some
    { Name := some name,
      Site := some siteID,
      AssetTag := AssetTag,
      FacilityID := FacilityID,
      Group := Group,
      Role := Role,
      Serial := Serial,
      Status := Status,
      Tenant := Tenant,
      UHeight := UHeight,
      DescUnits := DescUnits }

/-! ## `resource_netbox_dcim_device.go` -/

/-- Schema of `netbox_dcim_device`. -/
def resourceNetboxDcimDevice : List (String × Schema) :=
  [("asset_tag", { ty := .TypeString, Optional := true }),
   ("cluster_id", { ty := .TypeInt, Optional := true }),
   ("device_role_id", { ty := .TypeInt, Required := true }),
   ("device_type_id", { ty := .TypeInt, Required := true }),
   ("face", { ty := .TypeString, Optional := true }),
   ("name", { ty := .TypeString, Required := true }),
   ("parent_device_id", { ty := .TypeInt, Optional := true }),
   ("position", { ty := .TypeInt, Optional := true }),
   ("platform_id", { ty := .TypeInt, Optional := true }),
   ("primary_ip4_id", { ty := .TypeInt, Optional := true }),
   ("primary_ip6_id", { ty := .TypeInt, Optional := true }),
   ("rack_id", { ty := .TypeInt, Optional := true }),
   ("serial", { ty := .TypeString, Optional := true }),
   ("site_id", { ty := .TypeInt, Required := true }),
   ("status", { ty := .TypeString, Optional := true }),
   ("tenant_id", { ty := .TypeInt, Optional := true }),
   ("virtual_chassis_id", { ty := .TypeInt, Optional := true })]

/-- The fields of `models.DeviceWithConfigContext` that concern the provider. -/
structure Device where
  ID : Int
  AssetTag : Option String
  Cluster : Option Nested
  Name : Option String
  Position : Option Int
  Platform : Option Nested
  PrimaryIp4 : Option Nested
  PrimaryIp6 : Option Nested
  Rack : Option Nested
  VirtualChassis : Option Nested
  DeviceRole : Option Nested
  DeviceType : Option Nested
  Face : Option Choice
  ParentDevice : Option Nested
  Tenant : Option Nested
  Site : Option Nested
  Status : Option Choice
  Serial : String
  deriving DecidableEq, Repr

/-- The fields of `models.WritableDeviceWithConfigContext` that the provider
writes. -/
structure WritableDeviceWithConfigContext where
  DeviceRole : Option Int := none
  DeviceType : Option Int := none
  Name : Option String := none
  Site : Option Int := none
  AssetTag : Option String := none
  Cluster : Option Int := none
  Face : String := ""
  ParentDevice : Option Nested := none
  Position : Option Int := none
  Platform : Option Int := none
  PrimaryIp4 : Option Int := none
  PrimaryIp6 : Option Int := none
  Rack : Option Int := none
  Serial : String := ""
  Status : String := ""
  Tenant : Option Int := none
  VirtualChassis : Option Int := none
  deriving DecidableEq, Repr

/-- Body of the loop of `resourceNetboxDcimDeviceRead`. -/
def resourceNetboxDcimDeviceReadBody (resource : Device) : List (String × Option Value) :=
  [("asset_tag", some (.ofStringPtr resource.AssetTag)),
   ("cluster_id", some (match resource.Cluster with
      | none => .int 0
      | some cluster => .int64 cluster.ID)),
   ("name", some (.ofStringPtr resource.Name)),
   ("position", some (.ofInt64Ptr resource.Position)),
   ("platform_id", some (match resource.Platform with
      | none => .int 0
      | some platform => .int64 platform.ID)),
   ("primary_ip4_id", some (match resource.PrimaryIp4 with
      | none => .int 0
      | some primaryIp4 => .int64 primaryIp4.ID)),
   ("primary_ip6_id", some (match resource.PrimaryIp6 with
      | none => .int 0
      | some primaryIp6 => .int64 primaryIp6.ID)),
   ("rack_id", some (match resource.Rack with
      | none => .int 0
      | some rack => .int64 rack.ID)),
   ("virtual_chassis_id", some (match resource.VirtualChassis with
      | none => .int 0
      | some virtualChassis => .int64 virtualChassis.ID)),
   ("device_role_id", some (match resource.DeviceRole with
      | none => .int 0
      | some deviceRole => .int64 deviceRole.ID)),
   ("device_type_id", some (match resource.DeviceType with
      | none => .int 0
      | some deviceType => .int64 deviceType.ID)),
   ("face", some (match resource.Face with
      | none => .str ""
      | some face => .ofStringPtr face.Value)),
   ("parent_device_id", some (match resource.ParentDevice with
      | none => .int 0
      | some parentDevice => .int64 parentDevice.ID)),
   ("tenant_id", some (match resource.Tenant with
      | none => .int 0
      | some tenant => .int64 tenant.ID)),
   ("site_id", some (match resource.Site with
      | none => .str ""
      | some site => .int64 site.ID)),
   ("status", some (match resource.Status with
      | none => .str ""
      | some status => .ofStringPtr status.Value))]

/-- Go `resourceNetboxDcimDeviceRead`. -/
def resourceNetboxDcimDeviceRead (DcimDevicesList : String → Except Error (Page Device))
    (d : ResourceData) : Outcome :=
  readWith Device.ID resourceNetboxDcimDeviceReadBody DcimDevicesList d

/-- Go `resourceNetboxDcimDeviceExists`. -/
def resourceNetboxDcimDeviceExists (DcimDevicesList : String → Except Error (Page Device))
    (d : ResourceData) : ExistsResult :=
  existsWith Device.ID DcimDevicesList d

/-- Payload built by `resourceNetboxDcimDeviceCreate`: the declared values are read in source
order (a failed type assertion panics, `none`), the required fields are set in
the literal and every optional field is assigned under its own guard. -/
def resourceNetboxDcimDeviceCreateData (d : ResourceData) :
    Option WritableDeviceWithConfigContext :=
  andThen (d.Get "asset_tag").assertString fun deviceAssetTag =>
  andThen (d.Get "cluster_id").assertInt fun deviceClusterID =>
  andThen (d.Get "device_role_id").assertInt fun deviceDeviceRoleID =>
  andThen (d.Get "device_type_id").assertInt fun deviceDeviceTypeID =>
  andThen (d.Get "face").assertString fun deviceFace =>
  andThen (d.Get "name").assertString fun deviceName =>
  andThen (d.Get "parent_device_id").assertInt fun deviceParentDeviceID =>
  andThen (d.Get "position").assertInt fun devicePosition =>
  andThen (d.Get "platform_id").assertInt fun devicePlatformID =>
  andThen (d.Get "primary_ip4_id").assertInt fun devicePrimaryIP4ID =>
  andThen (d.Get "primary_ip6_id").assertInt fun devicePrimaryIP6ID =>
  andThen (d.Get "rack_id").assertInt fun deviceRackID =>
  andThen (d.Get "serial").assertString fun deviceSerial =>
  andThen (d.Get "site_id").assertInt fun deviceSiteID =>
  andThen (d.Get "status").assertString fun deviceStatus =>
  andThen (d.Get "tenant_id").assertInt fun deviceTenantID =>
  andThen (d.Get "virtual_chassis_id").assertInt fun deviceVirtualChassisID =>
  some
    { DeviceRole := some deviceDeviceRoleID,
      DeviceType := some deviceDeviceTypeID,
      Name := some deviceName,
      Site := some deviceSiteID,
      AssetTag := if deviceAssetTag ≠ "" then some deviceAssetTag else none,
      Cluster := if deviceClusterID ≠ 0 then some deviceClusterID else none,
      Face := if deviceFace ≠ "" then deviceFace else "",
      ParentDevice := if deviceParentDeviceID ≠ 0 then some { ID := deviceParentDeviceID } else
          none,
      Position := if devicePosition ≠ 0 then some devicePosition else none,
      Platform := if devicePlatformID ≠ 0 then some devicePlatformID else none,
      PrimaryIp4 := if devicePrimaryIP4ID ≠ 0 then some devicePrimaryIP4ID else none,
      PrimaryIp6 := if devicePrimaryIP6ID ≠ 0 then some devicePrimaryIP6ID else none,
      Rack := if deviceRackID ≠ 0 then some deviceRackID else none,
      Serial := if deviceSerial ≠ "" then deviceSerial else "",
      Status := if deviceStatus ≠ "" then deviceStatus else "",
      Tenant := if deviceTenantID ≠ 0 then some deviceTenantID else none,
      VirtualChassis := if deviceVirtualChassisID ≠ 0 then some deviceVirtualChassisID else none }

/-- Payload built by `resourceNetboxDcimDeviceUpdate`; `none` is a panic raised while the
payload is put together.  Every field of `params` is assigned at most once, by
the statement shown for it, in source order. -/
def resourceNetboxDcimDeviceUpdateData (d : ResourceData) :
    Option WritableDeviceWithConfigContext :=
  andThen (d.Get "device_role_id").assertInt fun deviceRoleID =>
  andThen (d.Get "device_type_id").assertInt fun deviceTypeID =>
  andThen (d.Get "site_id").assertInt fun siteID =>
  andThen (d.Get "name").assertString fun name =>
  andThen (if d.HasChange "asset_tag" then
      andThen (d.Get "asset_tag").assertString fun assetTag =>
      some (if assetTag ≠ "" then some assetTag else none)
    else some none) fun AssetTag =>
  andThen (if d.HasChange "cluster_id" then
      andThen (d.Get "cluster_id").assertInt fun clusterID =>
      some (if clusterID ≠ 0 then some clusterID else none)
    else some none) fun Cluster =>
  andThen (if d.HasChange "face" then
      andThen (d.Get "face").assertString fun face =>
      some (if face ≠ "" then face else "")
    else some "") fun Face =>
  andThen (if d.HasChange "parent_device_id" then
      andThen (d.Get "parent_device_id").assertInt fun parentDeviceID =>
      some (if parentDeviceID ≠ 0 then some { ID := parentDeviceID } else none)
    else some none) fun ParentDevice =>
  andThen (if d.HasChange "position" then
      andThen (d.Get "position").assertInt fun position =>
      some (if position ≠ 0 then some position else none)
    else some none) fun Position =>
  andThen (if d.HasChange "platform_id" then
      andThen (d.Get "platform_id").assertInt fun platformID =>
      some (if platformID ≠ 0 then some platformID else none)
    else some none) fun Platform =>
  andThen (if d.HasChange "primary_ip4_id" then
      andThen (d.Get "primary_ip4_id").assertInt fun primaryIP4 =>
      some (if primaryIP4 ≠ 0 then some primaryIP4 else none)
    else some none) fun PrimaryIp4 =>
  andThen (if d.HasChange "primary_ip6_id" then
      andThen (d.Get "primary_ip6_id").assertInt fun primaryIP6 =>
      some (if primaryIP6 ≠ 0 then some primaryIP6 else none)
    else some none) fun PrimaryIp6 =>
  andThen (if d.HasChange "rack_id" then
      andThen (d.Get "rack_id").assertInt fun rackID =>
      some (if rackID ≠ 0 then some rackID else none)
    else some none) fun Rack =>
  andThen (if d.HasChange "serial" then
      andThen (d.Get "serial").assertString fun serial =>
      some (if serial ≠ "" then serial else "")
    else some "") fun Serial =>
  andThen (if d.HasChange "status" then
      andThen (d.Get "status").assertString fun status =>
      some (if status ≠ "" then status else "")
    else some "") fun Status =>
  andThen (if d.HasChange "tenant_id" then
      andThen (d.Get "tenant_id").assertInt fun tenantID =>
      some (if tenantID ≠ 0 then some tenantID else none)
    else some none) fun Tenant =>
  andThen (if d.HasChange "virtual_chassis_id" then
      andThen (d.Get "virtual_chassis_id").assertInt fun virtualChassisID =>
      some (if virtualChassisID ≠ 0 then some virtualChassisID else none)
    else some none) fun VirtualChassis =>
  some
    { DeviceRole := some deviceRoleID,
      DeviceType := some deviceTypeID,
      Site := some siteID,
      Name := some name,
      AssetTag := AssetTag,
      Cluster := Cluster,
      Face := Face,
      ParentDevice := ParentDevice,
      Position := Position,
      Platform := Platform,
      PrimaryIp4 := PrimaryIp4,
      PrimaryIp6 := PrimaryIp6,
      Rack := Rack,
      Serial := Serial,
      Status := Status,
      Tenant := Tenant,
      VirtualChassis := VirtualChassis }

/-! ## `resource_netbox_dcim_interface.go` -/

/-- Schema of `netbox_dcim_interface`. -/
def resourceNetboxDcimInterface : List (String × Schema) :=
  [("device_id", { ty := .TypeInt, Required := true }),
   ("name", { ty := .TypeString, Required := true }),
   ("type", { ty := .TypeString, Required := true }),
   ("enabled", { ty := .TypeBool, Optional := true }),
   ("lag_id", { ty := .TypeInt, Optional := true }),
   ("mtu", { ty := .TypeInt, Optional := true }),
   ("mac_address", { ty := .TypeString, Optional := true }),
   ("mgmt_only", { ty := .TypeBool, Optional := true }),
   ("description", { ty := .TypeString, Optional := true }),
   ("connection_status", { ty := .TypeBool, Optional := true }),
   ("mode", { ty := .TypeString, Optional := true }),
   ("untagged_vlan_id", { ty := .TypeInt, Optional := true }),
   ("tagged_vlans", { ty := .TypeSetOfInt, Optional := true }),
   ("tag", { ty := .TypeSetOfTag, Optional := true })]

/-- The API model of a tag (`models.NestedTag`). -/
structure NestedTag where
  Name : String
  Slug : String
  deriving DecidableEq, Repr

/-- Modelled from the spec: the helper `expandToInt64Slice` is defined outside
the sources at hand.  Set-valued fields round-trip as collections of the same
members, so the helper is taken to convert the members of the set one by one
into a slice of `int64`. -/
def expandToInt64Slice (v : List Int) : List Int := v

/-- Modelled from the spec: the helper `convertTagsToNestedTags` is defined
outside the sources at hand.  It is taken to turn every declared tag object
into the API model of a tag with the same name and slug. -/
def convertTagsToNestedTags (tags : List Tag) : List NestedTag :=
  tags.map fun tag => { Name := tag.name, Slug := tag.slug }

/-- Modelled from the spec: the helper `convertNestedTagsToTags` is defined
outside the sources at hand.  It is taken to turn every tag of the API model
into a declared tag object with the same name and slug. -/
def convertNestedTagsToTags (tags : List NestedTag) : Value :=
  .tags (tags.map fun tag => { name := tag.Name, slug := tag.Slug })

/-- The fields of `models.Interface` that the provider reads; `TaggedVlans` is
a slice of pointers to VLAN objects. -/
structure Interface where
  ID : Int
  Device : Option Nested
  Name : Option String
  Type_ : Option Choice
  Enabled : Bool
  Lag : Option Nested
  Mtu : Option Int
  MacAddress : Option String
  MgmtOnly : Bool
  Description : String
  ConnectionStatus : Option BoolChoice
  Mode : Option Choice
  UntaggedVlan : Option Nested
  TaggedVlans : List NestedVLAN
  Tags : List NestedTag
  deriving DecidableEq, Repr

/-- The fields of `models.WritableInterface` that the provider writes; for the
two slices `none` is the nil slice. -/
structure WritableInterface where
  Device : Option Int := none
  Name : Option String := none
  Type_ : Option String := none
  Enabled : Bool := false
  Lag : Option Int := none
  Mtu : Option Int := none
  MacAddress : Option String := none
  MgmtOnly : Bool := false
  Description : String := ""
  ConnectionStatus : Option Bool := none
  Mode : String := ""
  UntaggedVlan : Option Int := none
  TaggedVlans : Option (List Int) := none
  Tags : Option (List NestedTag) := none
  deriving DecidableEq, Repr

/-- Body of the loop of `resourceNetboxDcimInterfaceRead`.  `resource.Type` is
dereferenced without a nil check; the LAG branch writes `lag_id` when the
reference is nil and `lag` otherwise. -/
def resourceNetboxDcimInterfaceReadBody (resource : Interface) :
    List (String × Option Value) :=
  [("device_id", some (match resource.Device with
      | none => .int 0
      | some device => .int64 device.ID)),
   ("name", some (.ofStringPtr resource.Name)),
   ("type", match resource.Type_ with
      | none => none
      | some type => some (.ofStringPtr type.Value)),
   ("enabled", some (.bool resource.Enabled)),
   (match resource.Lag with
      | none => ("lag_id", some (.int 0))
      | some lag => ("lag", some (.int64 lag.ID))),
   ("mtu", some (.ofInt64Ptr resource.Mtu)),
   ("mac_address", some (.ofStringPtr resource.MacAddress)),
   ("mgmt_only", some (.bool resource.MgmtOnly)),
   ("description", some (.str (if resource.Description = "" then " " else resource.Description))),
   ("connection_status", some (match resource.ConnectionStatus with
      | none => .bool false
      | some connectionStatus => .ofBoolPtr connectionStatus.Value)),
   ("mode", some (match resource.Mode with
      | none => .str ""
      | some mode => .ofStringPtr mode.Value)),
   ("untagged_vlan_id", some (match resource.UntaggedVlan with
      | none => .int 0
      | some untaggedVlan => .int64 untaggedVlan.ID)),
   ("tagged_vlans", some (.vlans resource.TaggedVlans)),
   ("tag", some (convertNestedTagsToTags resource.Tags))]

/-- Go `resourceNetboxDcimInterfaceRead`. -/
def resourceNetboxDcimInterfaceRead
    (DcimInterfacesList : String → Except Error (Page Interface))
    (d : ResourceData) : Outcome :=
  readWith Interface.ID resourceNetboxDcimInterfaceReadBody DcimInterfacesList d

/-- Go `resourceNetboxDcimInterfaceExists`. -/
def resourceNetboxDcimInterfaceExists
    (DcimInterfacesList : String → Except Error (Page Interface))
    (d : ResourceData) : ExistsResult :=
  existsWith Interface.ID DcimInterfacesList d

/-- Payload built by `resourceNetboxDcimInterfaceCreate`: the declared values
are read in source order (a failed type assertion panics, `none`), the required
fields are set in the literal and every optional field is assigned under its
own guard; `MgmtOnly` is assigned without a guard.  `Set.List()` returns a
slice that is never nil, so the guards `taggedVlans != nil` and `tags != nil`
always pass. -/
def resourceNetboxDcimInterfaceCreateData (d : ResourceData) : Option WritableInterface :=
  andThen (d.Get "device_id").assertInt fun deviceID =>
  andThen (d.Get "name").assertString fun name =>
  andThen (d.Get "type").assertString fun infType =>
  andThen (d.Get "enabled").assertBool fun enabled =>
  andThen (d.Get "lag_id").assertInt fun lagID =>
  andThen (d.Get "mtu").assertInt fun mtu =>
  andThen (d.Get "mac_address").assertString fun macAddress =>
  andThen (d.Get "mgmt_only").assertBool fun mgmtOnly =>
  andThen (d.Get "description").assertString fun description =>
  andThen (d.Get "connection_status").assertBool fun connectionStatus =>
  andThen (d.Get "mode").assertString fun mode =>
  andThen (d.Get "untagged_vlan_id").assertInt fun untaggedVlanID =>
  andThen (d.Get "tagged_vlans").assertIntSet fun taggedVlans =>
  andThen (d.Get "tag").assertTagSet fun tags =>
  some
    { Device := some deviceID,
      Name := some name,
      Type_ := some infType,
      Enabled := if enabled ≠ false then enabled else false,
      Lag := if lagID ≠ 0 then some lagID else none,
      Mtu := if mtu ≠ 0 then some mtu else none,
      MacAddress := if macAddress ≠ "" then some macAddress else none,
      MgmtOnly := mgmtOnly,
      Description := if description ≠ "" then description else "",
      ConnectionStatus := if connectionStatus ≠ false then some connectionStatus else none,
      Mode := if mode ≠ "" then mode else "",
      UntaggedVlan := if untaggedVlanID ≠ 0 then some untaggedVlanID else none,
      TaggedVlans := some (expandToInt64Slice taggedVlans),
      Tags := some (convertTagsToNestedTags tags) }

/-- Payload built by `resourceNetboxDcimInterfaceUpdate`; `none` is a panic
raised while the payload is put together.  Every field of `params` is assigned
at most once, by the statement shown for it, in source order: `TaggedVlans`
among the required parameters and `Tags` after the optional ones, both without
consulting `HasChange`. -/
def resourceNetboxDcimInterfaceUpdateData (d : ResourceData) : Option WritableInterface :=
  andThen (d.Get "device_id").assertInt fun deviceID =>
  andThen (d.Get "name").assertString fun name =>
  andThen (d.Get "type").assertString fun infType =>
  andThen (d.Get "tagged_vlans").assertIntSet fun taggedVlans =>
  andThen (if d.HasChange "enabled" then
      andThen (d.Get "enabled").assertBool fun enabled =>
      some enabled
    else some false) fun Enabled =>
  andThen (if d.HasChange "lag_id" then
      andThen (d.Get "lag_id").assertInt fun lagID =>
      some (some lagID)
    else some none) fun Lag =>
  andThen (if d.HasChange "mtu" then
      andThen (d.Get "mtu").assertInt fun mtu =>
      some (some mtu)
    else some none) fun Mtu =>
  andThen (if d.HasChange "mac_address" then
      andThen (d.Get "mac_address").assertString fun macAddress =>
      some (some macAddress)
    else some none) fun MacAddress =>
  andThen (if d.HasChange "mgmt_only" then
      andThen (d.Get "mgmt_only").assertBool fun mgmtOnly =>
      some mgmtOnly
    else some false) fun MgmtOnly =>
  andThen (if d.HasChange "description" then
      andThen (d.Get "description").assertString fun description =>
      some description
    else some "") fun Description =>
  andThen (if d.HasChange "connection_status" then
      andThen (d.Get "connection_status").assertBool fun connectionStatus =>
      some (some connectionStatus)
    else some none) fun ConnectionStatus =>
  andThen (if d.HasChange "mode" then
      andThen (d.Get "mode").assertString fun mode =>
      some mode
    else some "") fun Mode =>
  andThen (if d.HasChange "untagged_vlan_id" then
      andThen (d.Get "untagged_vlan_id").assertInt fun untaggedVlanID =>
      some (some untaggedVlanID)
    else some none) fun UntaggedVlan =>
  andThen (d.Get "tag").assertTagSet fun tags =>
  some
    { Device := some deviceID,
      Name := some name,
      Type_ := some infType,
      TaggedVlans := some (expandToInt64Slice taggedVlans),
      Enabled := Enabled,
      Lag := Lag,
      Mtu := Mtu,
      MacAddress := MacAddress,
      MgmtOnly := MgmtOnly,
      Description := Description,
      ConnectionStatus := ConnectionStatus,
      Mode := Mode,
      UntaggedVlan := UntaggedVlan,
      Tags := some (convertTagsToNestedTags tags) }

/-! ## `data_netbox_json_dcim_*_list.go`: the paginated collectors

The four data sources run the same loop over their own list operation.  A list
operation is represented by the response it gives for each requested offset.
-/

/-- What the loop does after a page has been appended to `acc`. -/
inductive Advance
  /-- The `break` statements: no `next` pointer, or a pointer without an
  `offset` parameter. -/
  | stop
  /-- Another turn of the loop with this value of `offset`. -/
  | next (offset : Int)
  /-- The statements `return err`. -/
  | fail (err : Error)
  deriving DecidableEq, Repr

/-- The tail of the loop body, from `if list.Payload.Next == nil` on: the
pointer is parsed, its `offset` values are looked up and the first one is read
with `strconv.ParseInt`; with an empty list of values `offset` stays as it
is. -/
def advance (offset : Int) (next : Option NextURL) : Advance :=
  match next with
  | none => .stop
  | some (.malformed err) => .fail err
  | some (.parsed query) =>
    match query.lookup "offset" with
    | none => .stop
    | some newOffset =>
      match newOffset with
      | [] => .next offset
      | first :: _ =>
        match ParseInt first with
        | none => .fail (.strconv first)
        | some tmp => .next tmp

/-- How the loop stands after a bounded number of turns, with the offsets of
the requests issued so far, in order. -/
inductive Collected (α : Type)
  /-- The loop was left by `break` with this value of `acc`. -/
  | finished (acc : List α) (requests : List Int)
  /-- The function returned this error from inside the loop. -/
  | failed (err : Error) (requests : List Int)
  /-- The turns allowed did not suffice: the loop is still running. -/
  | running (acc : List α) (requests : List Int)
  deriving DecidableEq, Repr

/-- The loop `for { ... }` of the collectors, run for at most `fuel` turns
from the given values of `offset` and `acc`. -/
def paginate {α : Type} (list : Int → Except Error (Page α)) :
    Nat → Int → List α → List Int → Collected α
  | 0, _, acc, requests => .running acc requests
  | fuel + 1, offset, acc, requests =>
    match list offset with
    | .error err => .failed err (requests ++ [offset])
    | .ok page =>
      match advance offset page.Next with
      | .stop => .finished (acc ++ page.Results) (requests ++ [offset])
      | .fail err => .failed err (requests ++ [offset])
      | .next newOffset =>
        paginate list fuel newOffset (acc ++ page.Results) (requests ++ [offset])

/-- The end of a call of a collector together with the offsets it requested. -/
structure Traced where
  outcome : Outcome
  requests : List Int
  deriving DecidableEq, Repr

/-- The statements after the loop: the aggregate is marshalled (`marshal`
stands for `json.Marshal` followed by the conversion to a string) and stored
in `json`, the result of `Set` being discarded, and the ID is set. -/
def publish {α : Type} (id : String) (marshal : List α → String) (d : ResourceData)
    (acc : List α) : ResourceData :=
  let d1 := match d.Set "json" (.str (marshal acc)) with
    | .ok d1 => d1
    | .error _ => d
  d1.SetId id

/-- The end of a collector: an error from inside the loop is returned as it
is, with the resource data untouched; after a `break` the aggregate is
published and nil is returned.  `none`: the loop is still running. -/
def conclude {α : Type} (id : String) (marshal : List α → String) (d : ResourceData) :
    Collected α → Option Traced
  | .running _ _ => none
  | .failed err requests => some { outcome := .returned (some err) d, requests := requests }
  | .finished acc requests =>
    some { outcome := .returned none (publish id marshal d acc), requests := requests }

/-- Specification vocabulary: from a request for `offset` on, the list
operation serves the pages of `visited` one after the other (each entry pairs
the requested offset with the page served), every one of them carrying a next
pointer from which the loop obtains the offset of the following request, and
the request after the last of them is for `upcoming`. -/
def Visits {α : Type} (list : Int → Except Error (Page α)) :
    Int → List (Int × Page α) → Int → Prop
  | offset, [], upcoming => offset = upcoming
  | offset, (requested, page) :: rest, upcoming =>
    requested = offset ∧ list offset = .ok page ∧
      ∃ newOffset, advance offset page.Next = .next newOffset ∧
        Visits list newOffset rest upcoming

/-- Specification vocabulary: the records of the pages of `visited`, in page
order. -/
def recordsOf {α : Type} (visited : List (Int × Page α)) : List α :=
  visited.flatMap fun entry => entry.2.Results

/-- Specification vocabulary: the offsets requested for the pages of
`visited`, in order. -/
def offsetsOf {α : Type} (visited : List (Int × Page α)) : List Int :=
  visited.map fun entry => entry.1

/-- Specification vocabulary: the next pointer `next` leads to the offset
`newOffset`: it is a well-formed URL with an `offset` parameter whose first
value is a base 10 number that reads as `newOffset`. -/
def LeadsTo (next : Option NextURL) (newOffset : Int) : Prop :=
  ∃ query first others, next = some (.parsed query) ∧
    query.lookup "offset" = some (first :: others) ∧ ParseInt first = some newOffset

/-- Specification vocabulary: the chain of next pointers followed from
`offset`: the listing serves the pages of `chain` one after the other (each
entry pairs an offset with the page served for it), the next pointer of each
of them leading to the offset of the one after it, and the next pointer of
the last of them leading to `upcoming`. -/
def Chain {α : Type} (list : Int → Except Error (Page α)) :
    Int → List (Int × Page α) → Int → Prop
  | offset, [], upcoming => offset = upcoming
  | offset, (requested, page) :: rest, upcoming =>
    requested = offset ∧ list offset = .ok page ∧
      ∃ newOffset, LeadsTo page.Next newOffset ∧ Chain list newOffset rest upcoming

/-- Schema of `netbox_json_dcim_console_ports_list`. -/
def dataNetboxJSONDcimConsolePortsList : List (String × Schema) :=
  [("json", { ty := .TypeString, Computed := true })]

/-- Go `dataNetboxJSONDcimConsolePortsListRead`, run for at most `fuel` turns
of its loop. -/
def dataNetboxJSONDcimConsolePortsListRead {ConsolePort : Type}
    (marshal : List ConsolePort → String)
    (DcimConsolePortsList : Int → Except Error (Page ConsolePort))
    (fuel : Nat) (d : ResourceData) : Option Traced :=
  conclude "NetboxJSONDcimConsolePortsList" marshal d
    (paginate DcimConsolePortsList fuel 0 [] [])

/-- Schema of `netbox_json_dcim_console_server_ports_list`. -/
def dataNetboxJSONDcimConsoleServerPortsList : List (String × Schema) :=
  [("json", { ty := .TypeString, Computed := true })]

/-- Go `dataNetboxJSONDcimConsoleServerPortsListRead`, run for at most `fuel`
turns of its loop. -/
def dataNetboxJSONDcimConsoleServerPortsListRead {ConsoleServerPort : Type}
    (marshal : List ConsoleServerPort → String)
    (DcimConsoleServerPortsList : Int → Except Error (Page ConsoleServerPort))
    (fuel : Nat) (d : ResourceData) : Option Traced :=
  conclude "NetboxJSONDcimConsoleServerPortsList" marshal d
    (paginate DcimConsoleServerPortsList fuel 0 [] [])

/-- Schema of `netbox_json_dcim_interfaces_list`. -/
def dataNetboxJSONDcimInterfacesList : List (String × Schema) :=
  [("json", { ty := .TypeString, Computed := true })]

/-- Go `dataNetboxJSONDcimInterfacesListRead`, run for at most `fuel` turns of
its loop. -/
def dataNetboxJSONDcimInterfacesListRead {Iface : Type}
    (marshal : List Iface → String)
    (DcimInterfacesList : Int → Except Error (Page Iface))
    (fuel : Nat) (d : ResourceData) : Option Traced :=
  conclude "NetboxJSONDcimInterfacesList" marshal d
    (paginate DcimInterfacesList fuel 0 [] [])

/-- Schema of `netbox_json_dcim_power_ports_list`. -/
def dataNetboxJSONDcimPowerPortsList : List (String × Schema) :=
  [("json", { ty := .TypeString, Computed := true }),
   ("site", { ty := .TypeString, Optional := true })]

/-- Go `dataNetboxJSONDcimPowerPortsListRead`, run for at most `fuel` turns of
its loop.  The list operation also receives the `site` filter read from the
resource data. -/
def dataNetboxJSONDcimPowerPortsListRead {PowerPort : Type}
    (marshal : List PowerPort → String)
    (DcimPowerPortsList : String → Int → Except Error (Page PowerPort))
    (fuel : Nat) (d : ResourceData) : Option Traced :=
  match (d.Get "site").assertString with
  | none => some
    { outcome := .panicked, requests := [] }
  | some site =>
    conclude "NetboxJSONDcimPowerPortsList" marshal d
      (paginate (DcimPowerPortsList site) fuel 0 [] [])

/-! ## Create, Update and Delete

The API client of a resource kind is represented by the responses of its four
operations, as functions of the state `σ` of the remote system.  A lifecycle
call is run from a state of the remote system and gives back the way it ends,
the state it leaves the remote system in, and the requests it issued, in
order. -/

/-- A request issued to the remote system, for a kind with payloads `W`. -/
inductive Request (W : Type)
  /-- A list request filtered by the identity. -/
  | list (id : String)
  | create (data : W)
  /-- A partial-update request for the record with the given ID. -/
  | update (id : Int) (data : W)
  | delete (id : Int)
  deriving DecidableEq, Repr

/-- The API client of one resource kind with records `α` and payloads `W`:
`List` answers a list request filtered by an identity and leaves the remote
system as it is; the other operations answer and give the state of the remote
system after the request (`none` is a nil error). -/
structure Client (σ α W : Type) where
  List : σ → String → Except Error (Page α)
  Create : σ → W → Except Error α × σ
  PartialUpdate : σ → Int → W → Option Error × σ
  Delete : σ → Int → Option Error × σ

/-- A lifecycle call after it has run. -/
structure Run (σ W : Type) where
  outcome : Outcome
  remote : σ
  requests : List (Request W)
  deriving DecidableEq, Repr

/-- Create, shared shape: the payload is built (a panic ends the call), the
create request is issued, its error is returned as it is; on success the ID of
the record created is formatted and stored as the identity, and the call ends
as Read does on the resource data so prepared. -/
def createWith {σ α W : Type} (ID : α → Int) (data : ResourceData → Option W)
    (read : (String → Except Error (Page α)) → ResourceData → Outcome)
    (client : Client σ α W) (remote : σ) (d : ResourceData) : Run σ W :=
  match data d with
  | none => { outcome := .panicked, remote := remote, requests := [] }
  | some newResource =>
    match client.Create remote newResource with
    | (.error err, remote1) =>
      { outcome := .returned (some err) d, remote := remote1,
        requests := [.create newResource] }
    | (.ok resourceCreated, remote1) =>
      { outcome := read (client.List remote1) (d.SetId (FormatInt (ID resourceCreated))),
        remote := remote1,
        requests := [.create newResource, .list (FormatInt (ID resourceCreated))] }

/-- Update, shared shape: the payload is built (a panic ends the call), then
`d.Id()` is parsed, a parse error being replaced by the conversion error; the
partial-update request is issued, its error is returned as it is, and on
success the call ends as Read does. -/
def updateWith {σ α W : Type} (data : ResourceData → Option W)
    (read : (String → Except Error (Page α)) → ResourceData → Outcome)
    (client : Client σ α W) (remote : σ) (d : ResourceData) : Run σ W :=
  match data d with
  | none => { outcome := .panicked, remote := remote, requests := [] }
  | some params =>
    match ParseInt d.Id with
    | none => { outcome := .returned (some .convertID) d, remote := remote, requests := [] }
    | some resourceID =>
      match client.PartialUpdate remote resourceID params with
      | (some err, remote1) =>
        { outcome := .returned (some err) d, remote := remote1,
          requests := [.update resourceID params] }
      | (none, remote1) =>
        { outcome := read (client.List remote1) d, remote := remote1,
          requests := [.update resourceID params, .list d.Id] }

/-- Delete, shared shape: Exists is called first; its error is returned as it
is, and a resource that does not exist ends the call with nil; otherwise
`d.Id()` is parsed, a parse error being replaced by the conversion error, the
delete request is issued and its error, or nil, is returned. -/
def deleteWith {σ α W : Type}
    (existence : (String → Except Error (Page α)) → ResourceData → ExistsResult)
    (client : Client σ α W) (remote : σ) (d : ResourceData) : Run σ W :=
  let resourceExists := existence (client.List remote) d
  match resourceExists.e with
  | some err =>
    { outcome := .returned (some err) resourceExists.d, remote := remote,
      requests := [.list d.Id] }
  | none =>
    if resourceExists.b = false then
      { outcome := .returned none resourceExists.d, remote := remote,
        requests := [.list d.Id] }
    else
      match ParseInt resourceExists.d.Id with
      | none =>
        { outcome := .returned (some .convertID) resourceExists.d, remote := remote,
          requests := [.list d.Id] }
      | some id =>
        match client.Delete remote id with
        | (some err, remote1) =>
          { outcome := .returned (some err) resourceExists.d, remote := remote1,
            requests := [.list d.Id, .delete id] }
        | (none, remote1) =>
          { outcome := .returned none resourceExists.d, remote := remote1,
            requests := [.list d.Id, .delete id] }

/-- Go `resourceNetboxDcimSiteCreate`. -/
def resourceNetboxDcimSiteCreate {σ : Type} (client : Client σ Site WritableSite)
    (remote : σ) (d : ResourceData) : Run σ WritableSite :=
  createWith Site.ID resourceNetboxDcimSiteCreateData resourceNetboxDcimSiteRead client remote d

/-- Go `resourceNetboxDcimSiteUpdate`. -/
def resourceNetboxDcimSiteUpdate {σ : Type} (client : Client σ Site WritableSite)
    (remote : σ) (d : ResourceData) : Run σ WritableSite :=
  updateWith resourceNetboxDcimSiteUpdateData resourceNetboxDcimSiteRead client remote d

/-- Go `resourceNetboxDcimSiteDelete`. -/
def resourceNetboxDcimSiteDelete {σ : Type} (client : Client σ Site WritableSite)
    (remote : σ) (d : ResourceData) : Run σ WritableSite :=
  deleteWith resourceNetboxDcimSiteExists client remote d

/-- Go `resourceNetboxDcimCableCreate`. -/
def resourceNetboxDcimCableCreate {σ : Type} (client : Client σ Cable WritableCable)
    (remote : σ) (d : ResourceData) : Run σ WritableCable :=
  createWith Cable.ID resourceNetboxDcimCableCreateData resourceNetboxDcimCableRead client remote d

/-- Go `resourceNetboxDcimCableUpdate`. -/
def resourceNetboxDcimCableUpdate {σ : Type} (client : Client σ Cable WritableCable)
    (remote : σ) (d : ResourceData) : Run σ WritableCable :=
  updateWith resourceNetboxDcimCableUpdateData resourceNetboxDcimCableRead client remote d

/-- Go `resourceNetboxDcimCableDelete`. -/
def resourceNetboxDcimCableDelete {σ : Type} (client : Client σ Cable WritableCable)
    (remote : σ) (d : ResourceData) : Run σ WritableCable :=
  deleteWith resourceNetboxDcimCableExists client remote d

/-- Go `resourceNetboxDcimDeviceCreate`. -/
def resourceNetboxDcimDeviceCreate {σ : Type}
    (client : Client σ Device WritableDeviceWithConfigContext)
    (remote : σ) (d : ResourceData) : Run σ WritableDeviceWithConfigContext :=
  createWith Device.ID resourceNetboxDcimDeviceCreateData
    resourceNetboxDcimDeviceRead client remote d

/-- Go `resourceNetboxDcimDeviceUpdate`. -/
def resourceNetboxDcimDeviceUpdate {σ : Type}
    (client : Client σ Device WritableDeviceWithConfigContext)
    (remote : σ) (d : ResourceData) : Run σ WritableDeviceWithConfigContext :=
  updateWith resourceNetboxDcimDeviceUpdateData resourceNetboxDcimDeviceRead client remote d

/-- Go `resourceNetboxDcimDeviceDelete`. -/
def resourceNetboxDcimDeviceDelete {σ : Type}
    (client : Client σ Device WritableDeviceWithConfigContext)
    (remote : σ) (d : ResourceData) : Run σ WritableDeviceWithConfigContext :=
  deleteWith resourceNetboxDcimDeviceExists client remote d

/-- Go `resourceNetboxDcimInterfaceCreate`. -/
def resourceNetboxDcimInterfaceCreate {σ : Type} (client : Client σ Interface WritableInterface)
    (remote : σ) (d : ResourceData) : Run σ WritableInterface :=
  createWith Interface.ID resourceNetboxDcimInterfaceCreateData
    resourceNetboxDcimInterfaceRead client remote d

/-- Go `resourceNetboxDcimInterfaceUpdate`. -/
def resourceNetboxDcimInterfaceUpdate {σ : Type} (client : Client σ Interface WritableInterface)
    (remote : σ) (d : ResourceData) : Run σ WritableInterface :=
  updateWith resourceNetboxDcimInterfaceUpdateData resourceNetboxDcimInterfaceRead client remote d

/-- Go `resourceNetboxDcimInterfaceDelete`. -/
def resourceNetboxDcimInterfaceDelete {σ : Type} (client : Client σ Interface WritableInterface)
    (remote : σ) (d : ResourceData) : Run σ WritableInterface :=
  deleteWith resourceNetboxDcimInterfaceExists client remote d

/-- Go `resourceNetboxDcimRackCreate`. -/
def resourceNetboxDcimRackCreate {σ : Type} (client : Client σ Rack WritableRack)
    (remote : σ) (d : ResourceData) : Run σ WritableRack :=
  createWith Rack.ID resourceNetboxDcimRackCreateData resourceNetboxDcimRackRead client remote d

/-- Go `resourceNetboxDcimRackUpdate`. -/
def resourceNetboxDcimRackUpdate {σ : Type} (client : Client σ Rack WritableRack)
    (remote : σ) (d : ResourceData) : Run σ WritableRack :=
  updateWith resourceNetboxDcimRackUpdateData resourceNetboxDcimRackRead client remote d

/-- Go `resourceNetboxDcimRackDelete`. -/
def resourceNetboxDcimRackDelete {σ : Type} (client : Client σ Rack WritableRack)
    (remote : σ) (d : ResourceData) : Run σ WritableRack :=
  deleteWith resourceNetboxDcimRackExists client remote d

/-- Go `resourceNetboxVirtualizationClusterCreate`. -/
def resourceNetboxVirtualizationClusterCreate {σ : Type} (client : Client σ Cluster WritableCluster)
    (remote : σ) (d : ResourceData) : Run σ WritableCluster :=
  createWith Cluster.ID resourceNetboxVirtualizationClusterCreateData
    resourceNetboxVirtualizationClusterRead client remote d

/-- Go `resourceNetboxVirtualizationClusterUpdate`. -/
def resourceNetboxVirtualizationClusterUpdate {σ : Type} (client : Client σ Cluster WritableCluster)
    (remote : σ) (d : ResourceData) : Run σ WritableCluster :=
  updateWith resourceNetboxVirtualizationClusterUpdateData
    resourceNetboxVirtualizationClusterRead client remote d

/-- Go `resourceNetboxVirtualizationClusterDelete`. -/
def resourceNetboxVirtualizationClusterDelete {σ : Type} (client : Client σ Cluster WritableCluster)
    (remote : σ) (d : ResourceData) : Run σ WritableCluster :=
  deleteWith resourceNetboxVirtualizationClusterExists client remote d

/-! ## Payloads seen through the schema

Specification vocabulary.  For every kind, `field` tells what a payload carries
for the attribute declared under a schema key: nothing (`none`) when the Go
field is left at its zero value (a nil pointer or slice, an empty string,
`false`, `0`), and otherwise the value carried, in the representation the
store uses for that attribute. -/

/-- A string field of a payload, carried unless empty. -/
def carriedString (s : String) : Option Value := if s = "" then none else some (.str s)

/-- A boolean field of a payload, carried unless `false`. -/
def carriedBool (b : Bool) : Option Value := if b = false then none else some (.bool b)

/-- An integer field of a payload, carried unless `0`. -/
def carriedInt (n : Int) : Option Value := if n = 0 then none else some (.int n)

/-- What a site payload carries for a schema key. -/
def WritableSite.field (p : WritableSite) : String → Option Value
  | "name" => p.Name.map .str
  | "slug" => p.Slug.map .str
  | "status" => carriedString p.Status
  | "tenant_id" => p.Tenant.map .int
  | _ => none

/-- What a cable payload carries for a schema key. -/
def WritableCable.field (p : WritableCable) : String → Option Value
  | "status" => carriedString p.Status
  | "termination_a_id" => p.TerminationaID.map .int
  | "termination_a_type" => p.TerminationaType.map .str
  | "termination_b_id" => p.TerminationbID.map .int
  | "termination_b_type" => p.TerminationbType.map .str
  | _ => none

/-- What a cluster payload carries for a schema key. -/
def WritableCluster.field (p : WritableCluster) : String → Option Value
  | "name" => p.Name.map .str
  | "type_id" => p.Type_.map .int
  | "site_id" => p.Site.map .int
  | "tenant_id" => p.Tenant.map .int
  | _ => none

/-- What a rack payload carries for a schema key. -/
def WritableRack.field (p : WritableRack) : String → Option Value
  | "asset_tag" => p.AssetTag.map .str
  | "desc_units" => carriedBool p.DescUnits
  | "facility_id" => p.FacilityID.map .str
  | "group_id" => p.Group.map .int
  | "name" => p.Name.map .str
  | "role_id" => p.Role.map .int
  | "serial" => carriedString p.Serial
  | "site_id" => p.Site.map .int
  | "status" => carriedString p.Status
  | "tenant_id" => p.Tenant.map .int
  | "u_height" => carriedInt p.UHeight
  | _ => none

/-- What a device payload carries for a schema key. -/
def WritableDeviceWithConfigContext.field (p : WritableDeviceWithConfigContext) :
    String → Option Value
  | "asset_tag" => p.AssetTag.map .str
  | "cluster_id" => p.Cluster.map .int
  | "device_role_id" => p.DeviceRole.map .int
  | "device_type_id" => p.DeviceType.map .int
  | "face" => carriedString p.Face
  | "name" => p.Name.map .str
  | "parent_device_id" => p.ParentDevice.map fun parentDevice => .int parentDevice.ID
  | "position" => p.Position.map .int
  | "platform_id" => p.Platform.map .int
  | "primary_ip4_id" => p.PrimaryIp4.map .int
  | "primary_ip6_id" => p.PrimaryIp6.map .int
  | "rack_id" => p.Rack.map .int
  | "serial" => carriedString p.Serial
  | "site_id" => p.Site.map .int
  | "status" => carriedString p.Status
  | "tenant_id" => p.Tenant.map .int
  | "virtual_chassis_id" => p.VirtualChassis.map .int
  | _ => none

/-- What an interface payload carries for a schema key. -/
def WritableInterface.field (p : WritableInterface) : String → Option Value
  | "device_id" => p.Device.map .int
  | "name" => p.Name.map .str
  | "type" => p.Type_.map .str
  | "enabled" => carriedBool p.Enabled
  | "lag_id" => p.Lag.map .int
  | "mtu" => p.Mtu.map .int
  | "mac_address" => p.MacAddress.map .str
  | "mgmt_only" => carriedBool p.MgmtOnly
  | "description" => carriedString p.Description
  | "connection_status" => p.ConnectionStatus.map .bool
  | "mode" => carriedString p.Mode
  | "untagged_vlan_id" => p.UntaggedVlan.map .int
  | "tagged_vlans" => p.TaggedVlans.map .ints
  | "tag" => p.Tags.map fun tags => .tags (tags.map fun tag => { name := tag.Name, slug := tag.Slug
      })
  | _ => none

/-! ## Worked examples -/

/-- A site record with the given ID and name, active and owned by tenant 7. -/
def exampleSite (id : Int) (name : String) : Site :=
  { ID := id, Name := some name, Slug := some name, Status := some { Value := some "active" },
    Tenant := some { ID := 7 } }

/-- Resource data of a site with identity `"42"` and stale attribute values. -/
def exampleSiteData : ResourceData :=
  { schema := resourceNetboxDcimSite, id := "42",
    attrs := [("name", .str "old"), ("slug", .str "old")], changed := [] }

/-- The entry of page `j` in a walk over pages of `K` records. -/
def uniformEntry {α : Type} (K : Nat) (pages : Nat → List α) (nexts : Nat → Option NextURL)
    (j : Nat) : Int × Page α :=
  (((j * K : Nat) : Int), { Results := pages j, Next := nexts j })

/-- A list operation serving the records 1 and 2 for offset 0, with a next
pointer to offset 2, and `second` for offset 2. -/
def exampleList (second : Except Error (Page Nat)) : Int → Except Error (Page Nat) :=
  fun offset =>
    if offset = 0 then .ok { Results := [1, 2], Next := some (.parsed [("offset", ["2"])]) }
    else if offset = 2 then second
    else .error (.api "no such page")

/-- A list operation whose first page points to the offset `-5`, where the
record 3 is served without a next pointer. -/
def exampleListNegative : Int → Except Error (Page Nat) :=
  fun offset =>
    if offset = 0 then .ok { Results := [1, 2], Next := some (.parsed [("offset", ["-5"])]) }
    else if offset = -5 then .ok { Results := [3] }
    else .error (.api "no such page")

/-- Two pages of one record each: the page at offset `i` holds the record `i`. -/
def exampleUniformList : Int → Except Error (Page Nat) :=
  fun offset =>
    if offset = 0 then .ok { Results := [0], Next := some (.parsed [("offset", ["1"])]) }
    else if offset = 1 then .ok { Results := [1] }
    else .error (.api "no such page")

/-- A stand-in for `json.Marshal` on the example records. -/
def exampleMarshal (acc : List Nat) : String :=
  String.intercalate "," (acc.map fun n => FormatInt n)

/-- Fresh resource data of a JSON list data source. -/
def exampleListData : ResourceData :=
  { schema := dataNetboxJSONDcimConsolePortsList, id := "", attrs := [], changed := [] }

/-- Resource data of an interface whose declared sets are unchanged since the
last synchronization: no key is dirty. -/
def exampleInterfaceData : ResourceData :=
  { schema := resourceNetboxDcimInterface, id := "7",
    attrs := [("device_id", .int 1), ("name", .str "eth0"), ("type", .str "virtual"),
      ("tagged_vlans", .ints [5]), ("tag", .tags [{ name := "core", slug := "core" }])],
    changed := [] }

/-- Resource data of a device about to be created, with the required fields
only: `cluster_id` and `asset_tag` are at their zero values. -/
def exampleDeviceData : ResourceData :=
  { schema := resourceNetboxDcimDevice, id := "",
    attrs := [("device_role_id", .int 1), ("device_type_id", .int 2), ("site_id", .int 3),
      ("name", .str "sw1"), ("cluster_id", .int 0), ("asset_tag", .str "")],
    changed := [] }

/-- An in-memory remote system holding sites: a list request answers with the
records whose formatted ID equals the filter, a create request stores a record
with the ID 42, a delete request removes the records with the given ID. -/
def exampleSiteClient : Client (List Site) Site WritableSite where
  List := fun remote id => .ok { Results := remote.filter fun r => FormatInt r.ID = id }
  Create := fun remote data =>
    (.ok { ID := 42, Name := data.Name, Slug := data.Slug, Status := none, Tenant := none },
     remote ++ [{ ID := 42, Name := data.Name, Slug := data.Slug, Status := none,
                  Tenant := none }])
  PartialUpdate := fun remote _ _ => (none, remote)
  Delete := fun remote id => (none, remote.filter fun r => r.ID ≠ id)

/-- A remote system that accepts a create request with the ID 42 but whose list
requests do not show the record (it has been removed by someone else, or is
not listed yet). -/
def exampleUnlistedClient : Client Unit Site WritableSite where
  List := fun _ _ => .ok { Results := [] }
  Create := fun remote data =>
    (.ok { ID := 42, Name := data.Name, Slug := data.Slug, Status := none, Tenant := none },
     remote)
  PartialUpdate := fun remote _ _ => (none, remote)
  Delete := fun remote _ => (none, remote)

/-- A remote system that lists like the in-memory one and rejects every write. -/
def exampleRejectingClient : Client (List Site) Site WritableSite where
  List := exampleSiteClient.List
  Create := fun remote _ => (.error (.api "400 Bad Request"), remote)
  PartialUpdate := fun remote _ _ => (some (.api "400 Bad Request"), remote)
  Delete := fun remote _ => (some (.api "403 Forbidden"), remote)

/-- A remote system whose list requests fail. -/
def exampleUnreachableClient : Client (List Site) Site WritableSite where
  List := fun _ _ => .error (.api "connection refused")
  Create := exampleSiteClient.Create
  PartialUpdate := exampleSiteClient.PartialUpdate
  Delete := exampleSiteClient.Delete

/-- Resource data of a site that has not been created yet. -/
def exampleNewSiteData : ResourceData :=
  { schema := resourceNetboxDcimSite, id := "",
    attrs := [("name", .str "dc1"), ("slug", .str "dc1")], changed := [] }

/-- Specification vocabulary: the answer to a list request that names no
offset, as the requests of Read and Exists do, is the first page of the
paginated listing, the one served for offset 0. -/
def firstPageOf {α : Type} (listing : String → Int → Except Error (Page α)) :
    String → Except Error (Page α) :=
  fun id => listing id 0

/-- A listing of sites filtered by an identity that spreads its records over
two pages: the site 41 on the first, the site 42 on the second. -/
def exampleTwoPageListing : String → Int → Except Error (Page Site) :=
  fun _ offset =>
    if offset = 0 then
      .ok { Results := [exampleSite 41 "a"], Next := some (.parsed [("offset", ["1"])]) }
    else if offset = 1 then .ok { Results := [exampleSite 42 "b"] }
    else .error (.api "no such page")


/-- An interface record that is member of the LAG 9: its type is set, its
mode and its untagged VLAN are nil. -/
def exampleLagMember : Interface :=
  { ID := 7, Device := some { ID := 1 }, Name := some "eth0",
    Type_ := some { Value := some "virtual" }, Enabled := true, Lag := some { ID := 9 },
    Mtu := none, MacAddress := none, MgmtOnly := false, Description := "",
    ConnectionStatus := none, Mode := none, UntaggedVlan := none, TaggedVlans := [],
    Tags := [] }

/-- An interface record without a type wrapper and without references. -/
def exampleTypelessInterface : Interface :=
  { exampleLagMember with Type_ := none, Lag := none }

/-- Resource data of the interface 7 as left by an earlier Read: the mode is
`"access"` and the untagged VLAN is 5. -/
def exampleStaleInterfaceData : ResourceData :=
  { exampleInterfaceData with
    attrs := ("untagged_vlan_id", .int 5) :: ("mode", .str "access") ::
      exampleInterfaceData.attrs }

/-- Resource data of a site whose identity is empty and whose `tenant_id` is
flagged as changed. -/
def exampleRetenantedSiteData : ResourceData :=
  { exampleSiteData with
    id := "", attrs := ("tenant_id", .int 3) :: exampleSiteData.attrs,
    changed := ["tenant_id"] }

/-- A remote system holding sites whose list request reads the filter as a
number: it answers with the records whose ID is the value the filter parses
to. -/
def exampleLenientSiteClient : Client (List Site) Site WritableSite where
  List := fun remote id => .ok { Results := remote.filter fun r => ParseInt id = some r.ID }
  Create := exampleSiteClient.Create
  PartialUpdate := exampleSiteClient.PartialUpdate
  Delete := exampleSiteClient.Delete

/-- Resource data of a site whose identity is `"042"`, as an import with that
ID leaves it. -/
def exampleZeroPaddedSiteData : ResourceData :=
  { exampleSiteData with id := "042" }

/-- Resource data of the site 42 whose `tenant_id` is flagged as changed. -/
def exampleMovedSiteData : ResourceData :=
  { exampleRetenantedSiteData with id := "42" }

/-- A device record with the ID 3 and the serial `"NEW"`. -/
def exampleSerialDevice : Device :=
  { ID := 3, AssetTag := none, Cluster := none, Name := some "sw1", Position := none,
    Platform := none, PrimaryIp4 := none, PrimaryIp6 := none, Rack := none,
    VirtualChassis := none, DeviceRole := some { ID := 1 }, DeviceType := some { ID := 2 },
    Face := none, ParentDevice := none, Tenant := none, Site := some { ID := 3 },
    Status := some { Value := some "active" }, Serial := "NEW" }

/-- Resource data of the device 3 with the declared serial `"OLD"`. -/
def exampleSerialDeviceData : ResourceData :=
  { exampleDeviceData with id := "3", attrs := ("serial", .str "OLD") :: exampleDeviceData.attrs }

/-- Resource data of the device 3 from which the cluster has been removed:
`cluster_id` is 0 and flagged as changed. -/
def exampleUnclusteredDeviceData : ResourceData :=
  { exampleDeviceData with id := "3", changed := ["cluster_id"] }

/-- Resource data of the rack 5 whose `desc_units` has been switched on. -/
def exampleRackData : ResourceData :=
  { schema := resourceNetboxDcimRack, id := "5",
    attrs := [("name", .str "r1"), ("site_id", .int 3), ("u_height", .int 42),
      ("desc_units", .bool true)],
    changed := ["desc_units"] }

/-- A remote system without records that accepts every update and delete
request and is unable to create. -/
def exampleSilentClient (α W : Type) : Client Unit α W where
  List := fun _ _ => .ok { Results := [] }
  Create := fun remote _ => (.error (.api "503 Service Unavailable"), remote)
  PartialUpdate := fun remote _ _ => (none, remote)
  Delete := fun remote _ => (none, remote)

/-- A cable record with the given ID, connected between two interfaces. -/
def exampleCable (id : Int) : Cable :=
  { ID := id, Status := some { Value := some "connected" }, TerminationaID := some 1,
    TerminationaType := some "dcim.interface", TerminationbID := some 2,
    TerminationbType := some "dcim.interface" }

/-- Resource data of a cable with identity `"42"` and nothing declared yet. -/
def exampleCableData : ResourceData :=
  { schema := resourceNetboxDcimCable, id := "42", attrs := [], changed := [] }

/-- A cluster record with the given ID and name, of type 1, owned by tenant 7
and without a site. -/
def exampleCluster (id : Int) (name : String) : Cluster :=
  { ID := id, Name := some name, Type_ := some { ID := 1 }, Site := none,
    Tenant := some { ID := 7 } }

/-- Resource data of a cluster with identity `"42"` and a stale name. -/
def exampleClusterData : ResourceData :=
  { schema := resourceNetboxVirtualizationCluster, id := "42",
    attrs := [("name", .str "old")], changed := [] }

/-- A rack record with the given ID and serial, on site 3 with role 2. -/
def exampleRack (id : Int) (serial : String) : Rack :=
  { ID := id, Name := some "r1", AssetTag := none, FacilityID := none, Serial := serial,
    UHeight := 42, DescUnits := true, Group := none, Role := some { ID := 2 },
    Status := some { Value := some "active" }, Site := some { ID := 3 }, Tenant := none }

/-- An interface record with the ID 7 that is no member of a LAG, in access
mode on the untagged VLAN 5. -/
def exampleAccessPort : Interface :=
  { exampleLagMember with
    Lag := none, Mode := some { Value := some "access" }, UntaggedVlan := some { ID := 5 },
    Tags := [{ Name := "core", Slug := "core" }] }

/-! # Properties -/

/-! ## strconv: formatting and parsing are inverse on 64-bit integers -/

theorem digitChar_toNat (k : Nat) (hk : k < 10) : (Char.ofNat (48 + k)).toNat = 48 + k := by
  interval_cases k <;> decide

theorem formatBits_append (fuel : Nat) : ∀ (u : Nat) (acc : List Char),
    formatBits fuel u acc = formatBits fuel u [] ++ acc := by
  induction fuel with
  | zero => intro u acc; simp [formatBits]
  | succ fuel ih =>
    intro u acc
    simp only [formatBits]
    split
    · simp
    · rw [ih (u / 10) (Char.ofNat (48 + u % 10) :: acc), ih (u / 10) [Char.ofNat (48 + u % 10)]]
      simp

theorem parseDigits_snoc (cs : List Char) : ∀ (c : Char) (n : Nat),
    parseDigits (cs ++ [c]) n =
      (parseDigits cs n).bind fun m =>
        if 48 ≤ c.toNat ∧ c.toNat ≤ 57 then some (m * 10 + (c.toNat - 48)) else none := by
  induction cs with
  | nil => intro c n; simp [parseDigits]
  | cons x xs ih =>
    intro c n
    simp only [List.cons_append, parseDigits]
    split
    · exact ih c _
    · rfl

theorem parseDigits_formatBits (fuel : Nat) : ∀ u : Nat, u < fuel →
    parseDigits (formatBits fuel u []) 0 = some u := by
  induction fuel with
  | zero => intro u h; omega
  | succ fuel ih =>
    intro u hu
    have hd : u % 10 < 10 := Nat.mod_lt _ (by decide)
    simp only [formatBits]
    split
    · rename_i h0
      simp only [parseDigits, digitChar_toNat _ hd]
      have : u < 10 := by omega
      simp
      omega
    · rename_i h0
      rw [formatBits_append, parseDigits_snoc, ih (u / 10) (by omega), digitChar_toNat _ hd]
      simp
      omega

theorem formatUint_ne_nil (u : Nat) : formatUint u ≠ [] := by
  unfold formatUint
  simp only [formatBits]
  split
  · simp
  · rw [formatBits_append]; simp

theorem ParseUint_formatUint (u : Nat) : ParseUint (formatUint u) = some u := by
  have h := parseDigits_formatBits (u + 1) u (by omega)
  have hne := formatUint_ne_nil u
  unfold formatUint at *
  cases hf : formatBits (u + 1) u [] with
  | nil => exact absurd hf hne
  | cons c cs => rw [hf] at h; simpa [ParseUint] using h

theorem formatUint_head (u : Nat) :
    ∃ c cs, formatUint u = c :: cs ∧ 48 ≤ c.toNat ∧ c.toNat ≤ 57 := by
  have h := ParseUint_formatUint u
  cases hf : formatUint u with
  | nil => exact absurd hf (formatUint_ne_nil u)
  | cons c cs =>
    refine ⟨c, cs, rfl, ?_⟩
    rw [hf] at h
    simp only [ParseUint, parseDigits] at h
    by_contra hc
    rw [if_neg hc] at h
    exact absurd h (by simp)

theorem ParseInt_FormatInt (n : Int) (hlo : -(2 ^ 63) ≤ n) (hhi : n < 2 ^ 63) :
    ParseInt (FormatInt n) = some n := by
  unfold FormatInt
  by_cases hneg : n < 0
  · rw [if_pos hneg]
    have hp : ('-' : Char) ≠ '+' := by decide
    simp only [ParseInt, hp, if_false, if_true, ParseUint_formatUint]
    have : ¬ (2 ^ 63 < n.natAbs) := by omega
    rw [if_neg this, Int.ofNat_eq_coe]
    congr 1
    omega
  · rw [if_neg hneg]
    obtain ⟨c, cs, hf, h1, h2⟩ := formatUint_head n.toNat
    have hplus : c ≠ '+' := by
      intro h; rw [h] at h1; revert h1; decide
    have hminus : c ≠ '-' := by
      intro h; rw [h] at h1; revert h1; decide
    have hu := ParseUint_formatUint n.toNat
    rw [hf] at hu
    simp only [ParseInt, hf, hplus, hminus, if_false, hu]
    have : ¬ (2 ^ 63 ≤ n.toNat) := by omega
    rw [if_neg this, Int.ofNat_eq_coe]
    congr 1
    omega

/-! ## Read and Exists: resolution of the identity -/

theorem Set_id {d d1 : ResourceData} {key : String} {value : Value}
    (h : d.Set key value = .ok d1) : d1.Id = d.Id := by
  unfold ResourceData.Set at h
  split at h
  · exact absurd h (by simp)
  · split at h
    · exact absurd h (by simp)
    · injection h with h; subst h; rfl

theorem setEach_id (writes : List (String × Option Value)) :
    ∀ (d : ResourceData) (err : Option Error) (d1 : ResourceData),
      setEach writes d = .returned err d1 → d1.Id = d.Id := by
  induction writes with
  | nil => intro d err d1 h; simp only [setEach, Outcome.returned.injEq] at h; rw [← h.2]
  | cons w ws ih =>
    intro d err d1 h
    obtain ⟨key, value⟩ := w
    cases value with
    | none => simp [setEach] at h
    | some value =>
      simp only [setEach] at h
      split at h
      · simp only [Outcome.returned.injEq] at h; rw [← h.2]
      · rename_i d2 hset
        rw [ih d2 err d1 h, Set_id hset]

theorem readScan_firstMatch {α : Type} (ID : α → Int) (body : α → List (String × Option Value))
    (d : ResourceData) (results : List α) (resource : α)
    (h : FirstMatch ID d.Id results resource) :
    readScan ID body d results = setEach (body resource) d := by
  obtain ⟨pre, post, hres, hpre, hmatch⟩ := h
  subst hres
  induction pre with
  | nil => simp [readScan, hmatch]
  | cons x xs ih =>
    have hx : FormatInt (ID x) ≠ d.Id := hpre x (List.mem_cons_self _ _)
    simp only [List.cons_append, readScan, if_neg hx]
    exact ih (fun y hy => hpre y (List.mem_cons_of_mem _ hy))

theorem readScan_noMatch {α : Type} (ID : α → Int) (body : α → List (String × Option Value))
    (d : ResourceData) (results : List α) (h : NoMatch ID d.Id results) :
    readScan ID body d results = .returned none (d.SetId "") := by
  induction results with
  | nil => rfl
  | cons x xs ih =>
    have hx : FormatInt (ID x) ≠ d.Id := h x (List.mem_cons_self _ _)
    simp only [readScan, if_neg hx]
    exact ih (fun y hy => h y (List.mem_cons_of_mem _ hy))

theorem existsScan_eq {α : Type} (ID : α → Int) (d : ResourceData) (results : List α) :
    ∀ b : Bool, existsScan ID d results b = true ↔
      (b = true ∨ ∃ x ∈ results, FormatInt (ID x) = d.Id) := by
  induction results with
  | nil => intro b; simp [existsScan]
  | cons x xs ih =>
    intro b
    simp only [existsScan, ih, List.mem_cons, exists_eq_or_imp]
    by_cases hx : FormatInt (ID x) = d.Id
    · simp [hx]
    · simp [hx]

theorem readWith_firstMatch {α : Type} (ID : α → Int) (body : α → List (String × Option Value))
    (list : String → Except Error (Page α)) (d : ResourceData) (page : Page α) (resource : α)
    (hlist : list d.Id = .ok page) (h : FirstMatch ID d.Id page.Results resource) :
    readWith ID body list d = setEach (body resource) d ∧
      ∀ err d1, readWith ID body list d = .returned err d1 → d1.Id = d.Id := by
  have h1 : readWith ID body list d = setEach (body resource) d := by
    simp only [readWith, hlist]
    exact readScan_firstMatch ID body d page.Results resource h
  refine ⟨h1, fun err d1 h2 => ?_⟩
  rw [h1] at h2
  exact setEach_id _ d err d1 h2

theorem readWith_noMatch {α : Type} (ID : α → Int) (body : α → List (String × Option Value))
    (list : String → Except Error (Page α)) (d : ResourceData) (page : Page α)
    (hlist : list d.Id = .ok page) (h : NoMatch ID d.Id page.Results) :
    readWith ID body list d = .returned none (d.SetId "") := by
  simp only [readWith, hlist]
  exact readScan_noMatch ID body d page.Results h

theorem existsWith_spec {α : Type} (ID : α → Int)
    (list : String → Except Error (Page α)) (d : ResourceData) :
    (((existsWith ID list d).b = true ∧ (existsWith ID list d).e = none) ↔
        ∃ page, list d.Id = .ok page ∧ ∃ x ∈ page.Results, FormatInt (ID x) = d.Id) ∧
    (∀ page, list d.Id = .ok page → NoMatch ID d.Id page.Results →
        (existsWith ID list d).b = false ∧ (existsWith ID list d).e = none) ∧
    (existsWith ID list d).d = d := by
  unfold existsWith
  cases hl : list d.Id with
  | error err => simp
  | ok page =>
    refine ⟨?_, ?_, rfl⟩
    · simp only [existsScan_eq, Except.ok.injEq, exists_eq_left', and_true, Bool.false_eq_true,
        false_or]
    · intro page1 hp hno
      injection hp with hp
      subst hp
      refine ⟨?_, rfl⟩
      rw [Bool.eq_false_iff]
      intro hc
      rw [existsScan_eq] at hc
      rcases hc with hc | ⟨x, hx, hm⟩
      · exact absurd hc (by simp)
      · exact hno x hx hm

/-- C2: For every resource kind, when the list request succeeds and no fetched
record has an ID whose base 10 rendering equals the identity, Read returns no
error and leaves the resource data as it was except for the identity, which
is the empty string; every declared field reads as before. -/
theorem read_clears_identity_when_absent :
    (∀ (list : String → Except Error (Page Site)) (d : ResourceData) (page : Page Site),
        list d.Id = .ok page → NoMatch Site.ID d.Id page.Results →
        resourceNetboxDcimSiteRead list d = .returned none (d.SetId "") ∧
          (d.SetId "").Id = "" ∧ ∀ key, (d.SetId "").Get key = d.Get key) ∧
    (∀ (list : String → Except Error (Page Cable)) (d : ResourceData) (page : Page Cable),
        list d.Id = .ok page → NoMatch Cable.ID d.Id page.Results →
        resourceNetboxDcimCableRead list d = .returned none (d.SetId "") ∧
          (d.SetId "").Id = "" ∧ ∀ key, (d.SetId "").Get key = d.Get key) ∧
    (∀ (list : String → Except Error (Page Device)) (d : ResourceData) (page : Page Device),
        list d.Id = .ok page → NoMatch Device.ID d.Id page.Results →
        resourceNetboxDcimDeviceRead list d = .returned none (d.SetId "") ∧
          (d.SetId "").Id = "" ∧ ∀ key, (d.SetId "").Get key = d.Get key) ∧
    (∀ (list : String → Except Error (Page Interface)) (d : ResourceData) (page : Page Interface),
        list d.Id = .ok page → NoMatch Interface.ID d.Id page.Results →
        resourceNetboxDcimInterfaceRead list d = .returned none (d.SetId "") ∧
          (d.SetId "").Id = "" ∧ ∀ key, (d.SetId "").Get key = d.Get key) ∧
    (∀ (list : String → Except Error (Page Rack)) (d : ResourceData) (page : Page Rack),
        list d.Id = .ok page → NoMatch Rack.ID d.Id page.Results →
        resourceNetboxDcimRackRead list d = .returned none (d.SetId "") ∧
          (d.SetId "").Id = "" ∧ ∀ key, (d.SetId "").Get key = d.Get key) ∧
    (∀ (list : String → Except Error (Page Cluster)) (d : ResourceData) (page : Page Cluster),
        list d.Id = .ok page → NoMatch Cluster.ID d.Id page.Results →
        resourceNetboxVirtualizationClusterRead list d = .returned none (d.SetId "") ∧
          (d.SetId "").Id = "" ∧ ∀ key, (d.SetId "").Get key = d.Get key) := by
  refine ⟨?_, ?_, ?_, ?_, ?_, ?_⟩ <;>
    exact fun list d page hlist h => ⟨readWith_noMatch _ _ list d page hlist h, rfl, fun _ => rfl⟩

/-- Witness of C2: identity `"42"` against the candidates 41 and 43. -/
theorem read_clears_identity_when_absent_witness :
    NoMatch Site.ID exampleSiteData.Id [exampleSite 41 "a", exampleSite 43 "c"] ∧
      resourceNetboxDcimSiteRead
          (fun _ => .ok { Results := [exampleSite 41 "a", exampleSite 43 "c"] })
          exampleSiteData =
        .returned none { exampleSiteData with id := "" } := by
  have hno : NoMatch Site.ID exampleSiteData.Id [exampleSite 41 "a", exampleSite 43 "c"] := by
    unfold NoMatch; decide
  exact ⟨hno, (read_clears_identity_when_absent.1
    (fun _ => .ok { Results := [exampleSite 41 "a", exampleSite 43 "c"] })
    exampleSiteData _ rfl hno).1⟩

/-- C3: For every resource kind, Exists returns `(true, nil)` exactly when the
list request succeeds and some fetched record has an ID whose base 10 rendering
equals the identity; on a successful request without such a record it returns
`(false, nil)`; and it always leaves the resource data, identity included, as
they were. -/
theorem exists_iff_match :
    (∀ (list : String → Except Error (Page Site)) (d : ResourceData),
        (((resourceNetboxDcimSiteExists list d).b = true ∧ (resourceNetboxDcimSiteExists list d).e =
            none) ↔
          ∃ page, list d.Id = .ok page ∧ ∃ x ∈ page.Results, FormatInt x.ID = d.Id) ∧
        (∀ page, list d.Id = .ok page → NoMatch Site.ID d.Id page.Results →
          (resourceNetboxDcimSiteExists list d).b = false ∧ (resourceNetboxDcimSiteExists list d).e
              = none) ∧
        (resourceNetboxDcimSiteExists list d).d = d) ∧
    (∀ (list : String → Except Error (Page Cable)) (d : ResourceData),
        (((resourceNetboxDcimCableExists list d).b = true ∧ (resourceNetboxDcimCableExists list d).e
            = none) ↔
          ∃ page, list d.Id = .ok page ∧ ∃ x ∈ page.Results, FormatInt x.ID = d.Id) ∧
        (∀ page, list d.Id = .ok page → NoMatch Cable.ID d.Id page.Results →
          (resourceNetboxDcimCableExists list d).b = false ∧ (resourceNetboxDcimCableExists list
              d).e = none) ∧
        (resourceNetboxDcimCableExists list d).d = d) ∧
    (∀ (list : String → Except Error (Page Device)) (d : ResourceData),
        (((resourceNetboxDcimDeviceExists list d).b = true ∧ (resourceNetboxDcimDeviceExists list
            d).e = none) ↔
          ∃ page, list d.Id = .ok page ∧ ∃ x ∈ page.Results, FormatInt x.ID = d.Id) ∧
        (∀ page, list d.Id = .ok page → NoMatch Device.ID d.Id page.Results →
          (resourceNetboxDcimDeviceExists list d).b = false ∧ (resourceNetboxDcimDeviceExists list
              d).e = none) ∧
        (resourceNetboxDcimDeviceExists list d).d = d) ∧
    (∀ (list : String → Except Error (Page Interface)) (d : ResourceData),
        (((resourceNetboxDcimInterfaceExists list d).b = true ∧ (resourceNetboxDcimInterfaceExists
            list d).e = none) ↔
          ∃ page, list d.Id = .ok page ∧ ∃ x ∈ page.Results, FormatInt x.ID = d.Id) ∧
        (∀ page, list d.Id = .ok page → NoMatch Interface.ID d.Id page.Results →
          (resourceNetboxDcimInterfaceExists list d).b = false ∧ (resourceNetboxDcimInterfaceExists
              list d).e = none) ∧
        (resourceNetboxDcimInterfaceExists list d).d = d) ∧
    (∀ (list : String → Except Error (Page Rack)) (d : ResourceData),
        (((resourceNetboxDcimRackExists list d).b = true ∧ (resourceNetboxDcimRackExists list d).e =
            none) ↔
          ∃ page, list d.Id = .ok page ∧ ∃ x ∈ page.Results, FormatInt x.ID = d.Id) ∧
        (∀ page, list d.Id = .ok page → NoMatch Rack.ID d.Id page.Results →
          (resourceNetboxDcimRackExists list d).b = false ∧ (resourceNetboxDcimRackExists list d).e
              = none) ∧
        (resourceNetboxDcimRackExists list d).d = d) ∧
    (∀ (list : String → Except Error (Page Cluster)) (d : ResourceData),
        (((resourceNetboxVirtualizationClusterExists list d).b = true ∧
            (resourceNetboxVirtualizationClusterExists list d).e = none) ↔
          ∃ page, list d.Id = .ok page ∧ ∃ x ∈ page.Results, FormatInt x.ID = d.Id) ∧
        (∀ page, list d.Id = .ok page → NoMatch Cluster.ID d.Id page.Results →
          (resourceNetboxVirtualizationClusterExists list d).b = false ∧
              (resourceNetboxVirtualizationClusterExists list d).e = none) ∧
        (resourceNetboxVirtualizationClusterExists list d).d = d) := by
  refine ⟨?_, ?_, ?_, ?_, ?_, ?_⟩ <;> exact fun list d => existsWith_spec _ list d

/-- Witness of C3: identity `"42"` against the candidates 41 and 43. -/
theorem exists_iff_match_witness :
    NoMatch Site.ID exampleSiteData.Id [exampleSite 41 "a", exampleSite 43 "c"] ∧
      (resourceNetboxDcimSiteExists
          (fun _ => .ok { Results := [exampleSite 41 "a", exampleSite 43 "c"] })
          exampleSiteData).b = false := by
  have hno : NoMatch Site.ID exampleSiteData.Id [exampleSite 41 "a", exampleSite 43 "c"] := by
    unfold NoMatch; decide
  exact ⟨hno, ((exists_iff_match.1
    (fun _ => .ok { Results := [exampleSite 41 "a", exampleSite 43 "c"] })
    exampleSiteData).2.1 _ rfl hno).1⟩

/-! ## The paginated collectors -/

theorem paginate_visits {α : Type} (list : Int → Except Error (Page α))
    (visited : List (Int × Page α)) :
    ∀ (offset upcoming : Int) (acc : List α) (requests : List Int) (fuel : Nat),
      Visits list offset visited upcoming →
      paginate list (visited.length + fuel) offset acc requests =
        paginate list fuel upcoming (acc ++ recordsOf visited) (requests ++ offsetsOf visited) := by
  induction visited with
  | nil =>
    intro offset upcoming acc requests fuel h
    simp only [Visits] at h
    subst h
    simp [recordsOf, offsetsOf]
  | cons entry rest ih =>
    intro offset upcoming acc requests fuel h
    obtain ⟨requested, page⟩ := entry
    obtain ⟨hreq, hlist, newOffset, hadv, hrest⟩ := h
    subst hreq
    have hlen : (((requested, page) :: rest).length + fuel) = (rest.length + fuel) + 1 := by
      simp only [List.length_cons]; omega
    rw [hlen]
    simp only [paginate, hlist, hadv]
    rw [ih newOffset upcoming _ _ fuel hrest]
    simp [recordsOf, offsetsOf, List.append_assoc]

theorem advance_none (offset : Int) : advance offset none = .stop := rfl

theorem advance_no_offset (offset : Int) (query : List (String × List String))
    (h : query.lookup "offset" = none) :
    advance offset (some (.parsed query)) = .stop := by
  simp [advance, h]

theorem advance_unparsable (offset : Int) (query : List (String × List String))
    (first : String) (others : List String)
    (h : query.lookup "offset" = some (first :: others)) (hp : ParseInt first = none) :
    advance offset (some (.parsed query)) = .fail (.strconv first) := by
  simp [advance, h, hp]

theorem advance_parsed (offset : Int) (query : List (String × List String))
    (first : String) (others : List String) (n : Int)
    (h : query.lookup "offset" = some (first :: others)) (hp : ParseInt first = some n) :
    advance offset (some (.parsed query)) = .next n := by
  simp [advance, h, hp]

/-- From a state of the loop in which the page served next breaks the loop. -/
theorem paginate_stop {α : Type} (list : Int → Except Error (Page α))
    (visited : List (Int × Page α)) (upcoming : Int) (page : Page α)
    (hvis : Visits list 0 visited upcoming) (hlist : list upcoming = .ok page)
    (hadv : advance upcoming page.Next = .stop) (fuel : Nat) (hfuel : visited.length < fuel) :
    paginate list fuel 0 [] [] =
      .finished (recordsOf visited ++ page.Results) (offsetsOf visited ++ [upcoming]) := by
  obtain ⟨k, rfl⟩ : ∃ k, fuel = visited.length + (k + 1) := ⟨fuel - visited.length - 1, by omega⟩
  rw [paginate_visits list visited 0 upcoming [] [] (k + 1) hvis]
  simp [paginate, hlist, hadv]

theorem paginate_fail {α : Type} (list : Int → Except Error (Page α))
    (visited : List (Int × Page α)) (upcoming : Int) (page : Page α) (err : Error)
    (hvis : Visits list 0 visited upcoming) (hlist : list upcoming = .ok page)
    (hadv : advance upcoming page.Next = .fail err) (fuel : Nat) (hfuel : visited.length < fuel) :
    paginate list fuel 0 [] [] = .failed err (offsetsOf visited ++ [upcoming]) := by
  obtain ⟨k, rfl⟩ : ∃ k, fuel = visited.length + (k + 1) := ⟨fuel - visited.length - 1, by omega⟩
  rw [paginate_visits list visited 0 upcoming [] [] (k + 1) hvis]
  simp [paginate, hlist, hadv]

theorem paginate_fetch_error {α : Type} (list : Int → Except Error (Page α))
    (visited : List (Int × Page α)) (upcoming : Int) (err : Error)
    (hvis : Visits list 0 visited upcoming) (hlist : list upcoming = .error err)
    (fuel : Nat) (hfuel : visited.length < fuel) :
    paginate list fuel 0 [] [] = .failed err (offsetsOf visited ++ [upcoming]) := by
  obtain ⟨k, rfl⟩ : ∃ k, fuel = visited.length + (k + 1) := ⟨fuel - visited.length - 1, by omega⟩
  rw [paginate_visits list visited 0 upcoming [] [] (k + 1) hvis]
  simp [paginate, hlist]

theorem visits_uniform {α : Type} (N K : Nat) (hK : (N - 1) * K < 2 ^ 63)
    (pages : Nat → List α) (nexts : Nat → Option NextURL)
    (hnext : ∀ i, i + 1 < N → ∃ query others, nexts i = some (.parsed query) ∧
      query.lookup "offset" = some (FormatInt (((i + 1) * K : Nat) : Int) :: others))
    (list : Int → Except Error (Page α))
    (hserve : ∀ i, i < N → list (((i * K : Nat) : Int)) = .ok { Results := pages i, Next := nexts i
        }) :
    ∀ (m i : Nat), i + m < N →
      Visits list (((i * K : Nat) : Int)) ((List.range' i m).map (uniformEntry K pages nexts))
        ((((i + m) * K : Nat) : Int)) := by
  intro m
  induction m with
  | zero => intro i _; simp [Visits]
  | succ m ih =>
    intro i hi
    simp only [List.range'_succ, List.map_cons, Visits, uniformEntry, true_and]
    refine ⟨hserve i (by omega), (((i + 1) * K : Nat) : Int), ?_, ?_⟩
    · obtain ⟨query, others, hq, hl⟩ := hnext i (by omega)
      simp only [hq]
      refine advance_parsed _ query _ others _ hl (ParseInt_FormatInt _ ?_ ?_)
      · have : (0 : Int) ≤ (((i + 1) * K : Nat) : Int) := Int.ofNat_nonneg _
        omega
      · have h1 : (i + 1) * K ≤ (N - 1) * K := Nat.mul_le_mul_right K (by omega)
        have h2 : (i + 1) * K < 2 ^ 63 := lt_of_le_of_lt h1 hK
        exact_mod_cast h2
    · have := ih (i + 1) (by omega)
      have e : i + 1 + m = i + (m + 1) := by omega
      rw [e] at this
      exact this

theorem recordsOf_uniform {α : Type} (K : Nat) (pages : Nat → List α)
    (nexts : Nat → Option NextURL) (l : List Nat) :
    recordsOf (l.map (uniformEntry K pages nexts)) = l.flatMap pages := by
  induction l with
  | nil => rfl
  | cons x xs ih =>
    simp only [recordsOf, List.map_cons, List.flatMap_cons] at ih ⊢
    rw [ih]; rfl

theorem offsetsOf_uniform {α : Type} (K : Nat) (pages : Nat → List α)
    (nexts : Nat → Option NextURL) (l : List Nat) :
    offsetsOf (l.map (uniformEntry K pages nexts)) = l.map fun i => (((i * K : Nat) : Int)) := by
  simp [offsetsOf, uniformEntry, Function.comp_def]

theorem length_flatMap_uniform {α : Type} (K : Nat) (pages : Nat → List α) :
    ∀ N : Nat, (∀ i, i < N → (pages i).length = K) →
      ((List.range N).flatMap pages).length = N * K := by
  intro N
  induction N with
  | zero => intro _; simp
  | succ N ih =>
    intro h
    rw [List.range_succ, List.flatMap_append, List.length_append,
      ih (fun i hi => h i (by omega))]
    simp only [List.flatMap_cons, List.flatMap_nil, List.append_nil, h N (by omega)]
    ring

theorem paginate_uniform {α : Type} (N K : Nat) (hN : 1 ≤ N) (hK : (N - 1) * K < 2 ^ 63)
    (pages : Nat → List α) (nexts : Nat → Option NextURL)
    (hnext : ∀ i, i + 1 < N → ∃ query others, nexts i = some (.parsed query) ∧
      query.lookup "offset" = some (FormatInt (((i + 1) * K : Nat) : Int) :: others))
    (hlast : nexts (N - 1) = none)
    (list : Int → Except Error (Page α))
    (hserve : ∀ i, i < N → list (((i * K : Nat) : Int)) = .ok { Results := pages i, Next := nexts i
        })
    (fuel : Nat) (hfuel : N ≤ fuel) :
    paginate list fuel 0 [] [] =
      .finished ((List.range N).flatMap pages)
        ((List.range N).map fun i => (((i * K : Nat) : Int))) := by
  obtain ⟨M, rfl⟩ : ∃ M, N = M + 1 := ⟨N - 1, by omega⟩
  have hvis := visits_uniform (M + 1) K hK pages nexts hnext list hserve M 0 (by omega)
  simp only [Nat.zero_mul, Nat.cast_zero, Nat.zero_add] at hvis
  have hstop := paginate_stop list _ _ { Results := pages M, Next := nexts M } hvis
    (hserve M (by omega)) (by simp only [Nat.add_sub_cancel] at hlast; simp [hlast, advance])
    fuel (by simp; omega)
  rw [hstop, recordsOf_uniform, offsetsOf_uniform, List.range_succ, List.range_eq_range']
  simp

theorem publish_spec {α : Type} (id : String) (marshal : List α → String) (d : ResourceData)
    (acc : List α) (sch : Schema) (h : d.schema.lookup "json" = some sch)
    (hty : sch.ty = .TypeString) :
    (publish id marshal d acc).Get "json" = .str (marshal acc) ∧
      (publish id marshal d acc).Id = id := by
  constructor
  · simp [publish, ResourceData.Set, ResourceData.Get, ResourceData.SetId, h, hty, decodeValue,
      Value.hasType, List.lookup]
  · simp [publish, ResourceData.SetId, ResourceData.Id]

/-- C4: When the endpoint serves `N ≥ 1` pages of `K` records each, page `i`
for the offset `i * K` (the offsets fitting 64 bits), with a next pointer whose first
`offset` value is the base 10 rendering of `(i + 1) * K` on every page but the
last and no next pointer on the last, each of the four collectors, given at
least `N` turns, returns nil after exactly the requests for the offsets
`0, K, ..., (N - 1) * K` and publishes the concatenation of the pages in page
order, `N * K` records: with `json` declared as a string attribute, `json`
then reads as the marshalled concatenation and the ID is the one of the data
source.  In particular the pages `[A, B]` (next offset 2) and `[C]` (no next)
give `[A, B, C]`. -/
theorem collectors_walk_all_pages {α : Type} (N K : Nat) (hN : 1 ≤ N) (hK : (N - 1) * K < 2 ^ 63)
    (pages : Nat → List α) (hlen : ∀ i, i < N → (pages i).length = K)
    (nexts : Nat → Option NextURL)
    (hnext : ∀ i, i + 1 < N → ∃ query others, nexts i = some (.parsed query) ∧
      query.lookup "offset" = some (FormatInt (((i + 1) * K : Nat) : Int) :: others))
    (hlast : nexts (N - 1) = none)
    (list : Int → Except Error (Page α))
    (hserve : ∀ i, i < N →
      list (((i * K : Nat) : Int)) = .ok { Results := pages i, Next := nexts i })
    (marshal : List α → String) (d : ResourceData) (fuel : Nat) (hfuel : N ≤ fuel) :
    dataNetboxJSONDcimConsolePortsListRead marshal list fuel d =
      some
        { outcome := .returned none
            (publish "NetboxJSONDcimConsolePortsList" marshal d ((List.range N).flatMap pages)),
          requests := (List.range N).map (fun i => (((i * K : Nat) : Int))) } ∧
    dataNetboxJSONDcimConsoleServerPortsListRead marshal list fuel d =
      some
        { outcome := .returned none
            (publish "NetboxJSONDcimConsoleServerPortsList" marshal d ((List.range N).flatMap
                pages)),
          requests := (List.range N).map (fun i => (((i * K : Nat) : Int))) } ∧
    dataNetboxJSONDcimInterfacesListRead marshal list fuel d =
      some
        { outcome := .returned none
            (publish "NetboxJSONDcimInterfacesList" marshal d ((List.range N).flatMap pages)),
          requests := (List.range N).map (fun i => (((i * K : Nat) : Int))) } ∧
    (∀ (listBySite : String → Int → Except Error (Page α)) (site : String),
      (d.Get "site").assertString = some site → listBySite site = list →
      dataNetboxJSONDcimPowerPortsListRead marshal listBySite fuel d =
        some
          { outcome := .returned none
              (publish "NetboxJSONDcimPowerPortsList" marshal d ((List.range N).flatMap pages)),
            requests := (List.range N).map (fun i => (((i * K : Nat) : Int))) }) ∧
    ((List.range N).flatMap pages).length = N * K ∧
    ((List.range N).map fun i => (((i * K : Nat) : Int))).length = N ∧
    ((List.range N).map fun i => (((i * K : Nat) : Int))).head? = some 0 ∧
    (∀ (id : String) (sch : Schema),
      d.schema.lookup "json" = some sch → sch.ty = .TypeString →
      (publish id marshal d ((List.range N).flatMap pages)).Get "json" =
          .str (marshal ((List.range N).flatMap pages)) ∧
        (publish id marshal d ((List.range N).flatMap pages)).Id = id) ∧
    (∀ (A B C : α) (turns : Nat),
      dataNetboxJSONDcimConsolePortsListRead marshal
          (fun offset =>
            if offset = 0 then
              .ok { Results := [A, B], Next := some (.parsed [("offset", ["2"])]) }
            else if offset = 2 then .ok { Results := [C] }
            else .error (.api "no such page"))
          (turns + 2) d =
        some
          { outcome := .returned none
              (publish "NetboxJSONDcimConsolePortsList" marshal d [A, B, C]),
            requests := [0, 2] }) := by
  have hrun := paginate_uniform N K hN hK pages nexts hnext hlast list hserve fuel hfuel
  refine ⟨?_, ?_, ?_, ?_, length_flatMap_uniform K pages N hlen, by simp, ?_,
    fun id sch h hty => publish_spec id marshal d _ sch h hty, ?_⟩
  · simp only [dataNetboxJSONDcimConsolePortsListRead, hrun, conclude]
  · simp only [dataNetboxJSONDcimConsoleServerPortsListRead, hrun, conclude]
  · simp only [dataNetboxJSONDcimInterfacesListRead, hrun, conclude]
  · intro listBySite site hsite hl
    simp only [dataNetboxJSONDcimPowerPortsListRead, hsite, hl, hrun, conclude]
  · obtain ⟨M, rfl⟩ : ∃ M, N = M + 1 := ⟨N - 1, by omega⟩
    simp [List.range_succ_eq_map]
  · intro A B C turns
    have h2 : ParseInt "2" = some 2 := by decide
    simp [dataNetboxJSONDcimConsolePortsListRead, paginate, advance, h2, conclude]

/-- Witness of C4: two pages of one record each. -/
theorem collectors_walk_all_pages_witness :
    dataNetboxJSONDcimConsolePortsListRead exampleMarshal exampleUniformList 2 exampleListData =
      some
        { outcome := .returned none
            (publish "NetboxJSONDcimConsolePortsList" exampleMarshal exampleListData
            ((List.range 2).flatMap fun i => [i])),
          requests := (List.range 2).map (fun i => (((i * 1 : Nat) : Int))) } :=
  (collectors_walk_all_pages 2 1 (by decide) (by norm_num) (fun i => [i]) (fun _ _ => rfl)
    (fun i => if i = 0 then some (.parsed [("offset", ["1"])]) else none)
    (fun i hi => by
      have h0 : i = 0 := by omega
      subst h0
      exact ⟨[("offset", ["1"])], [], rfl, by decide⟩)
    rfl exampleUniformList
    (fun i hi => by
      have h : i = 0 ∨ i = 1 := by omega
      rcases h with rfl | rfl <;> rfl)
    exampleMarshal exampleListData 2 (le_refl _)).1

/-- C5: When the pages visited so far lead to a page whose next pointer is
present but has no `offset` parameter, each of the four collectors (given
enough turns to get there) stops after that page: it returns nil and its last
request is the one for that page.  The aggregate it publishes holds the
records of every page visited, that page included, in page order: with `json`
declared as a string attribute, the returned data read the marshalled
aggregate under `json` and carry the ID of the data source. -/
theorem collectors_stop_without_offset_parameter {α : Type}
    (list : Int → Except Error (Page α)) (visited : List (Int × Page α)) (upcoming : Int)
    (page : Page α) (query : List (String × List String))
    (hvis : Visits list 0 visited upcoming) (hlist : list upcoming = .ok page)
    (hnext : page.Next = some (.parsed query)) (hquery : query.lookup "offset" = none)
    (marshal : List α → String) (d : ResourceData) (fuel : Nat)
    (hfuel : visited.length < fuel) :
    dataNetboxJSONDcimConsolePortsListRead marshal list fuel d =
      some
        { outcome := .returned none
            (publish "NetboxJSONDcimConsolePortsList" marshal d
              (recordsOf visited ++ page.Results)),
          requests := offsetsOf visited ++ [upcoming] } ∧
    dataNetboxJSONDcimConsoleServerPortsListRead marshal list fuel d =
      some
        { outcome := .returned none
            (publish "NetboxJSONDcimConsoleServerPortsList" marshal d
              (recordsOf visited ++ page.Results)),
          requests := offsetsOf visited ++ [upcoming] } ∧
    dataNetboxJSONDcimInterfacesListRead marshal list fuel d =
      some
        { outcome := .returned none
            (publish "NetboxJSONDcimInterfacesList" marshal d
              (recordsOf visited ++ page.Results)),
          requests := offsetsOf visited ++ [upcoming] } ∧
    (∀ (listBySite : String → Int → Except Error (Page α)) (site : String),
      (d.Get "site").assertString = some site → listBySite site = list →
      dataNetboxJSONDcimPowerPortsListRead marshal listBySite fuel d =
        some
          { outcome := .returned none
              (publish "NetboxJSONDcimPowerPortsList" marshal d
                (recordsOf visited ++ page.Results)),
            requests := offsetsOf visited ++ [upcoming] }) ∧
    (∀ (id : String) (sch : Schema),
      d.schema.lookup "json" = some sch → sch.ty = .TypeString →
      (publish id marshal d (recordsOf visited ++ page.Results)).Get "json" =
          .str (marshal (recordsOf visited ++ page.Results)) ∧
        (publish id marshal d (recordsOf visited ++ page.Results)).Id = id) ∧
    (∀ entry ∈ visited, ∀ x ∈ entry.2.Results, x ∈ recordsOf visited ++ page.Results) ∧
    (∀ x ∈ page.Results, x ∈ recordsOf visited ++ page.Results) := by
  have hrun := paginate_stop list visited upcoming page hvis hlist
    (by rw [hnext]; exact advance_no_offset upcoming query hquery) fuel hfuel
  refine ⟨?_, ?_, ?_, ?_, fun id sch h hty => publish_spec id marshal d _ sch h hty, ?_, ?_⟩
  · simp only [dataNetboxJSONDcimConsolePortsListRead, hrun, conclude]
  · simp only [dataNetboxJSONDcimConsoleServerPortsListRead, hrun, conclude]
  · simp only [dataNetboxJSONDcimInterfacesListRead, hrun, conclude]
  · intro listBySite site hsite hl
    simp only [dataNetboxJSONDcimPowerPortsListRead, hsite, hl, hrun, conclude]
  · intro entry hentry x hx
    exact List.mem_append_left _ (List.mem_flatMap.mpr ⟨entry, hentry, hx⟩)
  · intro x hx
    exact List.mem_append_right _ hx

/-- Witness of C5: the second page points to a URL with a `limit` parameter
only; the collector stops after the requests for the offsets 0 and 2 and the
returned data read `1,2,3` under `json`. -/
theorem collectors_stop_without_offset_parameter_witness :
    dataNetboxJSONDcimConsolePortsListRead exampleMarshal
        (exampleList (.ok { Results := [3], Next := some (.parsed [("limit", ["50"])]) }))
        2 exampleListData =
      some
        { outcome := .returned none
            (publish "NetboxJSONDcimConsolePortsList" exampleMarshal exampleListData [1, 2, 3]),
          requests := [0, 2] } ∧
      (publish "NetboxJSONDcimConsolePortsList" exampleMarshal exampleListData [1, 2, 3]).Get
          "json" = .str "1,2,3" ∧
      (publish "NetboxJSONDcimConsolePortsList" exampleMarshal exampleListData [1, 2, 3]).Id =
        "NetboxJSONDcimConsolePortsList" :=
  have h := collectors_stop_without_offset_parameter
    (exampleList (.ok { Results := [3], Next := some (.parsed [("limit", ["50"])]) }))
    [(0, { Results := [1, 2], Next := some (.parsed [("offset", ["2"])]) })] 2
    { Results := [3], Next := some (.parsed [("limit", ["50"])]) } [("limit", ["50"])]
    ⟨rfl, rfl, 2, by decide, rfl⟩ rfl rfl (by decide)
    exampleMarshal exampleListData 2 (by decide)
  ⟨h.1, (h.2.2.2.2.1 "NetboxJSONDcimConsolePortsList"
      { ty := .TypeString, Computed := true } (by decide) rfl).1.trans (by decide),
    (h.2.2.2.2.1 "NetboxJSONDcimConsolePortsList"
      { ty := .TypeString, Computed := true } (by decide) rfl).2⟩

/-- C6: When the request for a page fails, be it the first page or one reached
over earlier pages, each of the four collectors returns that error, the
failed request is its last one, and the resource data are exactly as before:
neither `json` nor the ID is written. -/
theorem collectors_abort_on_fetch_error {α : Type}
    (list : Int → Except Error (Page α)) (visited : List (Int × Page α)) (upcoming : Int)
    (err : Error)
    (hvis : Visits list 0 visited upcoming) (hlist : list upcoming = .error err)
    (marshal : List α → String) (d : ResourceData) (fuel : Nat)
    (hfuel : visited.length < fuel) :
    dataNetboxJSONDcimConsolePortsListRead marshal list fuel d =
      some
        { outcome := .returned (some (err)) d, requests := offsetsOf visited ++ [upcoming] } ∧
    dataNetboxJSONDcimConsoleServerPortsListRead marshal list fuel d =
      some
        { outcome := .returned (some (err)) d, requests := offsetsOf visited ++ [upcoming] } ∧
    dataNetboxJSONDcimInterfacesListRead marshal list fuel d =
      some
        { outcome := .returned (some (err)) d, requests := offsetsOf visited ++ [upcoming] } ∧
    (∀ (listBySite : String → Int → Except Error (Page α)) (site : String),
      (d.Get "site").assertString = some site → listBySite site = list →
      dataNetboxJSONDcimPowerPortsListRead marshal listBySite fuel d =
        some
          { outcome := .returned (some (err)) d, requests := offsetsOf visited ++ [upcoming] })
              := by
  have hrun := paginate_fetch_error list visited upcoming err hvis hlist fuel hfuel
  refine ⟨?_, ?_, ?_, ?_⟩
  · simp only [dataNetboxJSONDcimConsolePortsListRead, hrun, conclude]
  · simp only [dataNetboxJSONDcimConsoleServerPortsListRead, hrun, conclude]
  · simp only [dataNetboxJSONDcimInterfacesListRead, hrun, conclude]
  · intro listBySite site hsite hl
    simp only [dataNetboxJSONDcimPowerPortsListRead, hsite, hl, hrun, conclude]

/-- Witness of C6: the request for the second page fails. -/
theorem collectors_abort_on_fetch_error_witness :
    dataNetboxJSONDcimConsolePortsListRead exampleMarshal
        (exampleList (.error (.api "timeout"))) 5 exampleListData =
      some
        { outcome := .returned (some (.api "timeout")) exampleListData, requests := [0, 2] } :=
  (collectors_abort_on_fetch_error (exampleList (.error (.api "timeout")))
    [(0, { Results := [1, 2], Next := some (.parsed [("offset", ["2"])]) })] 2
    (.api "timeout") ⟨rfl, rfl, 2, by decide, rfl⟩ rfl
    exampleMarshal exampleListData 5 (by decide)).1

/-- C7, as amended: when the first `offset` value of a next pointer is
rejected by `strconv.ParseInt` (as `"abc"` and the empty string are), each of
the four collectors returns the error, issues no further request and leaves
the resource data untouched, so that no aggregate is published. -/
theorem collectors_abort_on_unparsable_offset {α : Type}
    (list : Int → Except Error (Page α)) (visited : List (Int × Page α)) (upcoming : Int)
    (page : Page α) (query : List (String × List String)) (first : String)
    (others : List String)
    (hvis : Visits list 0 visited upcoming) (hlist : list upcoming = .ok page)
    (hnext : page.Next = some (.parsed query))
    (hquery : query.lookup "offset" = some (first :: others))
    (hparse : ParseInt first = none)
    (marshal : List α → String) (d : ResourceData) (fuel : Nat)
    (hfuel : visited.length < fuel) :
    (dataNetboxJSONDcimConsolePortsListRead marshal list fuel d =
        some
          { outcome := .returned (some (.strconv first)) d, requests := offsetsOf visited ++
              [upcoming] } ∧
      dataNetboxJSONDcimConsoleServerPortsListRead marshal list fuel d =
        some
          { outcome := .returned (some (.strconv first)) d, requests := offsetsOf visited ++
              [upcoming] } ∧
      dataNetboxJSONDcimInterfacesListRead marshal list fuel d =
        some
          { outcome := .returned (some (.strconv first)) d, requests := offsetsOf visited ++
              [upcoming] } ∧
      (∀ (listBySite : String → Int → Except Error (Page α)) (site : String),
        (d.Get "site").assertString = some site → listBySite site = list →
        dataNetboxJSONDcimPowerPortsListRead marshal listBySite fuel d =
          some
            { outcome := .returned (some (.strconv first)) d, requests := offsetsOf visited ++
                [upcoming] })) ∧
    ParseInt "abc" = none ∧ ParseInt "" = none := by
  have hrun := paginate_fail list visited upcoming page (.strconv first) hvis hlist
    (by rw [hnext]; exact advance_unparsable upcoming query first others hquery hparse)
    fuel hfuel
  refine ⟨?_, by decide, by decide⟩
  refine ⟨?_, ?_, ?_, ?_⟩
  · simp only [dataNetboxJSONDcimConsolePortsListRead, hrun, conclude]
  · simp only [dataNetboxJSONDcimConsoleServerPortsListRead, hrun, conclude]
  · simp only [dataNetboxJSONDcimInterfacesListRead, hrun, conclude]
  · intro listBySite site hsite hl
    simp only [dataNetboxJSONDcimPowerPortsListRead, hsite, hl, hrun, conclude]

/-- Witness of C7 as amended: the second page points to the offset `abc`. -/
theorem collectors_abort_on_unparsable_offset_witness :
    dataNetboxJSONDcimConsolePortsListRead exampleMarshal
        (exampleList (.ok { Results := [3], Next := some (.parsed [("offset", ["abc"])]) }))
        2 exampleListData =
      some
        { outcome := .returned (some (.strconv "abc")) exampleListData,
          requests := [0, 2] } :=
  (collectors_abort_on_unparsable_offset
    (exampleList (.ok { Results := [3], Next := some (.parsed [("offset", ["abc"])]) }))
    [(0, { Results := [1, 2], Next := some (.parsed [("offset", ["2"])]) })] 2
    { Results := [3], Next := some (.parsed [("offset", ["abc"])]) } [("offset", ["abc"])]
    "abc" [] ⟨rfl, rfl, 2, by decide, rfl⟩ rfl rfl rfl (by decide)
    exampleMarshal exampleListData 2 (by decide)).1.1

/-- Counterexample to C7 as stated: the offset value `-5` is not a
non-negative integer, yet `strconv.ParseInt` accepts it; the collector goes on
to request the offset `-5` and publishes the aggregate without an error. -/
theorem collectors_follow_negative_offset :
    ParseInt "-5" = some (-5) ∧
      dataNetboxJSONDcimConsolePortsListRead exampleMarshal exampleListNegative 2
          exampleListData =
        some
          { outcome := .returned none
              (publish "NetboxJSONDcimConsolePortsList" exampleMarshal exampleListData
              [1, 2, 3]),
            requests := [0, -5] } := by
  decide

/-! ## Payloads of Update and Create -/

theorem andThen_eq_some {α β : Type} (x : Option α) (f : α → Option β) (b : β) :
    andThen x f = some b ↔ ∃ a, x = some a ∧ f a = some b := by
  cases x <;> simp [andThen]

theorem andThen_some {α β : Type} (a : α) (f : α → Option β) : andThen (some a) f = f a := rfl

theorem ite_some_some {α : Type} (c : Prop) [Decidable c] (a b : α) :
    (if c then some a else some b) = some (if c then a else b) := by
  split <;> rfl

theorem assertString_eq_some (v : Value) (s : String) :
    v.assertString = some s ↔ v = .str s := by
  cases v <;> simp [Value.assertString]

theorem assertInt_eq_some (v : Value) (n : Int) : v.assertInt = some n ↔ v = .int n := by
  cases v <;> simp [Value.assertInt]

theorem assertInt64_eq_some (v : Value) (n : Int) : v.assertInt64 = some n ↔ v = .int64 n := by
  cases v <;> simp [Value.assertInt64]

theorem assertBool_eq_some (v : Value) (b : Bool) : v.assertBool = some b ↔ v = .bool b := by
  cases v <;> simp [Value.assertBool]

theorem assertIntSet_eq_some (v : Value) (xs : List Int) :
    v.assertIntSet = some xs ↔ v = .ints xs := by
  cases v <;> simp [Value.assertIntSet]

theorem assertTagSet_eq_some (v : Value) (xs : List Tag) :
    v.assertTagSet = some xs ↔ v = .tags xs := by
  cases v <;> simp [Value.assertTagSet]


theorem Get_hasType (d : ResourceData) (key : String) (sch : Schema)
    (h : d.schema.lookup key = some sch) : (d.Get key).hasType sch.ty = true := by
  have hz : ∀ ty, (zeroValue ty).hasType ty = true := by intro ty; cases ty <;> rfl
  unfold ResourceData.Get
  rw [h]
  cases d.attrs.lookup key with
  | none => exact hz _
  | some v =>
    by_cases hv : v.hasType sch.ty = true
    · simp [hv]
    · simp [hv, hz]

theorem Get_str (d : ResourceData) (key : String) (sch : Schema)
    (h : d.schema.lookup key = some sch) (hty : sch.ty = .TypeString) :
    ∃ s, d.Get key = .str s := by
  have := Get_hasType d key sch h
  rw [hty] at this
  cases hv : d.Get key <;> rw [hv] at this <;> simp [Value.hasType] at this ⊢

theorem Get_int (d : ResourceData) (key : String) (sch : Schema)
    (h : d.schema.lookup key = some sch) (hty : sch.ty = .TypeInt) :
    ∃ n, d.Get key = .int n := by
  have := Get_hasType d key sch h
  rw [hty] at this
  cases hv : d.Get key <;> rw [hv] at this <;> simp [Value.hasType] at this ⊢

theorem Get_bool (d : ResourceData) (key : String) (sch : Schema)
    (h : d.schema.lookup key = some sch) (hty : sch.ty = .TypeBool) :
    ∃ b, d.Get key = .bool b := by
  have := Get_hasType d key sch h
  rw [hty] at this
  cases hv : d.Get key <;> rw [hv] at this <;> simp [Value.hasType] at this ⊢

theorem Get_ints (d : ResourceData) (key : String) (sch : Schema)
    (h : d.schema.lookup key = some sch) (hty : sch.ty = .TypeSetOfInt) :
    ∃ xs, d.Get key = .ints xs := by
  have := Get_hasType d key sch h
  rw [hty] at this
  cases hv : d.Get key <;> rw [hv] at this <;> simp [Value.hasType] at this ⊢

theorem Get_tags (d : ResourceData) (key : String) (sch : Schema)
    (h : d.schema.lookup key = some sch) (hty : sch.ty = .TypeSetOfTag) :
    ∃ xs, d.Get key = .tags xs := by
  have := Get_hasType d key sch h
  rw [hty] at this
  cases hv : d.Get key <;> rw [hv] at this <;> simp [Value.hasType] at this ⊢

theorem resourceNetboxDcimSiteUpdateData_required (d : ResourceData) (p : WritableSite)
    (h : resourceNetboxDcimSiteUpdateData d = some p) :
    ∀ key sch, (key, sch) ∈ resourceNetboxDcimSite → sch.Required = true →
      p.field key = some (d.Get key) := by
  simp only [resourceNetboxDcimSiteUpdateData, andThen_eq_some, assertString_eq_some,
    assertInt_eq_some, assertInt64_eq_some, assertBool_eq_some, assertIntSet_eq_some,
    assertTagSet_eq_some] at h
  obtain ⟨a0, h0, a1, h1, a2, h2, a3, h3, hp⟩ := h
  injection hp with hp
  subst hp
  intro key sch hmem hreq
  simp only [resourceNetboxDcimSite, List.mem_cons, Prod.mk.injEq, List.mem_singleton,
      List.not_mem_nil, or_false] at hmem
  rcases hmem with ⟨rfl, rfl⟩ | ⟨rfl, rfl⟩ | ⟨rfl, rfl⟩ | ⟨rfl, rfl⟩ <;>
    simp_all [WritableSite.field]

theorem resourceNetboxDcimSiteUpdateData_optional (d : ResourceData) (p : WritableSite)
    (h : resourceNetboxDcimSiteUpdateData d = some p) :
    ∀ key sch, (key, sch) ∈ resourceNetboxDcimSite → sch.Required = false →
      d.HasChange key = false → p.field key = none := by
  simp only [resourceNetboxDcimSiteUpdateData, andThen_eq_some, assertString_eq_some,
    assertInt_eq_some, assertInt64_eq_some, assertBool_eq_some, assertIntSet_eq_some,
    assertTagSet_eq_some] at h
  obtain ⟨a0, h0, a1, h1, a2, h2, a3, h3, hp⟩ := h
  injection hp with hp
  subst hp
  intro key sch hmem hreq hc
  simp only [resourceNetboxDcimSite, List.mem_cons, Prod.mk.injEq, List.mem_singleton,
      List.not_mem_nil, or_false] at hmem
  rcases hmem with ⟨rfl, rfl⟩ | ⟨rfl, rfl⟩ | ⟨rfl, rfl⟩ | ⟨rfl, rfl⟩ <;>
    simp_all [WritableSite.field, carriedString, carriedBool, carriedInt]

theorem resourceNetboxDcimSiteCreateData_fields (d : ResourceData) (p : WritableSite)
    (h : resourceNetboxDcimSiteCreateData d = some p) :
    (∀ key sch, (key, sch) ∈ resourceNetboxDcimSite → sch.Required = true →
      p.field key = some (d.Get key)) ∧
    (∀ key sch, (key, sch) ∈ resourceNetboxDcimSite → sch.Required = false →
      sch.ty ≠ .TypeSetOfInt → sch.ty ≠ .TypeSetOfTag →
      p.field key = none ∨
        (p.field key = some (d.Get key) ∧ d.Get key ≠ zeroValue sch.ty)) := by
  simp only [resourceNetboxDcimSiteCreateData, andThen_eq_some, assertString_eq_some,
    assertInt_eq_some, assertInt64_eq_some, assertBool_eq_some, assertIntSet_eq_some,
    assertTagSet_eq_some] at h
  obtain ⟨a0, h0, a1, h1, a2, h2, a3, h3, hp⟩ := h
  injection hp with hp
  subst hp
  constructor
  · intro key sch hmem hreq
    simp only [resourceNetboxDcimSite, List.mem_cons, Prod.mk.injEq, List.mem_singleton,
      List.not_mem_nil, or_false] at hmem
    rcases hmem with ⟨rfl, rfl⟩ | ⟨rfl, rfl⟩ | ⟨rfl, rfl⟩ | ⟨rfl, rfl⟩ <;>
      simp_all [WritableSite.field]
  · intro key sch hmem hreq hty1 hty2
    simp only [resourceNetboxDcimSite, List.mem_cons, Prod.mk.injEq, List.mem_singleton,
      List.not_mem_nil, or_false] at hmem
    rcases hmem with ⟨rfl, rfl⟩ | ⟨rfl, rfl⟩ | ⟨rfl, rfl⟩ | ⟨rfl, rfl⟩ <;>
      simp_all [WritableSite.field, carriedString, carriedBool, carriedInt, zeroValue]
    all_goals exact em _

theorem resourceNetboxDcimSiteUpdateData_isSome (d : ResourceData)
    (hs : d.schema = resourceNetboxDcimSite) (hc_tenant_id : d.HasChange "tenant_id" = false) :
    (resourceNetboxDcimSiteUpdateData d).isSome = true := by
  obtain ⟨v_name, h_name⟩ := Get_str d "name" _ (by rw [hs]; rfl) rfl
  obtain ⟨v_slug, h_slug⟩ := Get_str d "slug" _ (by rw [hs]; rfl) rfl
  obtain ⟨v_status, h_status⟩ := Get_str d "status" _ (by rw [hs]; rfl) rfl
  obtain ⟨v_tenant_id, h_tenant_id⟩ := Get_int d "tenant_id" _ (by rw [hs]; rfl) rfl
  simp [resourceNetboxDcimSiteUpdateData, h_name, h_slug, h_status, h_tenant_id,
    Value.assertString, Value.assertInt, Value.assertBool, Value.assertIntSet,
    Value.assertTagSet, andThen_some, ite_some_some, hc_tenant_id]

theorem resourceNetboxDcimSiteCreateData_isSome (d : ResourceData)
    (hs : d.schema = resourceNetboxDcimSite) :
    (resourceNetboxDcimSiteCreateData d).isSome = true := by
  obtain ⟨v_name, h_name⟩ := Get_str d "name" _ (by rw [hs]; rfl) rfl
  obtain ⟨v_slug, h_slug⟩ := Get_str d "slug" _ (by rw [hs]; rfl) rfl
  obtain ⟨v_status, h_status⟩ := Get_str d "status" _ (by rw [hs]; rfl) rfl
  obtain ⟨v_tenant_id, h_tenant_id⟩ := Get_int d "tenant_id" _ (by rw [hs]; rfl) rfl
  simp [resourceNetboxDcimSiteCreateData, h_name, h_slug, h_status, h_tenant_id,
    Value.assertString, Value.assertInt, Value.assertBool, Value.assertIntSet,
    Value.assertTagSet, andThen_some]

theorem resourceNetboxDcimCableUpdateData_required (d : ResourceData) (p : WritableCable)
    (h : resourceNetboxDcimCableUpdateData d = some p) :
    ∀ key sch, (key, sch) ∈ resourceNetboxDcimCable → sch.Required = true →
      p.field key = some (d.Get key) := by
  simp only [resourceNetboxDcimCableUpdateData, andThen_eq_some, assertString_eq_some,
    assertInt_eq_some, assertInt64_eq_some, assertBool_eq_some, assertIntSet_eq_some,
    assertTagSet_eq_some] at h
  obtain ⟨a0, h0, a1, h1, a2, h2, a3, h3, a4, h4, hp⟩ := h
  injection hp with hp
  subst hp
  intro key sch hmem hreq
  simp only [resourceNetboxDcimCable, List.mem_cons, Prod.mk.injEq, List.mem_singleton,
      List.not_mem_nil, or_false] at hmem
  rcases hmem with ⟨rfl, rfl⟩ | ⟨rfl, rfl⟩ | ⟨rfl, rfl⟩ | ⟨rfl, rfl⟩ | ⟨rfl, rfl⟩ <;>
    simp_all [WritableCable.field]

theorem resourceNetboxDcimCableUpdateData_optional (d : ResourceData) (p : WritableCable)
    (h : resourceNetboxDcimCableUpdateData d = some p) :
    ∀ key sch, (key, sch) ∈ resourceNetboxDcimCable → sch.Required = false →
      d.HasChange key = false → p.field key = none := by
  simp only [resourceNetboxDcimCableUpdateData, andThen_eq_some, assertString_eq_some,
    assertInt_eq_some, assertInt64_eq_some, assertBool_eq_some, assertIntSet_eq_some,
    assertTagSet_eq_some] at h
  obtain ⟨a0, h0, a1, h1, a2, h2, a3, h3, a4, h4, hp⟩ := h
  injection hp with hp
  subst hp
  intro key sch hmem hreq hc
  simp only [resourceNetboxDcimCable, List.mem_cons, Prod.mk.injEq, List.mem_singleton,
      List.not_mem_nil, or_false] at hmem
  rcases hmem with ⟨rfl, rfl⟩ | ⟨rfl, rfl⟩ | ⟨rfl, rfl⟩ | ⟨rfl, rfl⟩ | ⟨rfl, rfl⟩ <;>
    simp_all [WritableCable.field, carriedString, carriedBool, carriedInt]

theorem resourceNetboxDcimCableCreateData_fields (d : ResourceData) (p : WritableCable)
    (h : resourceNetboxDcimCableCreateData d = some p) :
    (∀ key sch, (key, sch) ∈ resourceNetboxDcimCable → sch.Required = true →
      p.field key = some (d.Get key)) ∧
    (∀ key sch, (key, sch) ∈ resourceNetboxDcimCable → sch.Required = false →
      sch.ty ≠ .TypeSetOfInt → sch.ty ≠ .TypeSetOfTag →
      p.field key = none ∨
        (p.field key = some (d.Get key) ∧ d.Get key ≠ zeroValue sch.ty)) := by
  simp only [resourceNetboxDcimCableCreateData, andThen_eq_some, assertString_eq_some,
    assertInt_eq_some, assertInt64_eq_some, assertBool_eq_some, assertIntSet_eq_some,
    assertTagSet_eq_some] at h
  obtain ⟨a0, h0, a1, h1, a2, h2, a3, h3, a4, h4, hp⟩ := h
  injection hp with hp
  subst hp
  constructor
  · intro key sch hmem hreq
    simp only [resourceNetboxDcimCable, List.mem_cons, Prod.mk.injEq, List.mem_singleton,
      List.not_mem_nil, or_false] at hmem
    rcases hmem with ⟨rfl, rfl⟩ | ⟨rfl, rfl⟩ | ⟨rfl, rfl⟩ | ⟨rfl, rfl⟩ | ⟨rfl, rfl⟩ <;>
      simp_all [WritableCable.field]
  · intro key sch hmem hreq hty1 hty2
    simp only [resourceNetboxDcimCable, List.mem_cons, Prod.mk.injEq, List.mem_singleton,
      List.not_mem_nil, or_false] at hmem
    rcases hmem with ⟨rfl, rfl⟩ | ⟨rfl, rfl⟩ | ⟨rfl, rfl⟩ | ⟨rfl, rfl⟩ | ⟨rfl, rfl⟩ <;>
      simp_all [WritableCable.field, carriedString, carriedBool, carriedInt, zeroValue]
    all_goals exact em _

theorem resourceNetboxDcimCableUpdateData_isSome (d : ResourceData)
    (hs : d.schema = resourceNetboxDcimCable) :
    (resourceNetboxDcimCableUpdateData d).isSome = true := by
  obtain ⟨v_status, h_status⟩ := Get_str d "status" _ (by rw [hs]; rfl) rfl
  obtain ⟨v_termination_a_id, h_termination_a_id⟩ := Get_int d "termination_a_id" _
      (by rw [hs]; rfl) rfl
  obtain ⟨v_termination_a_type, h_termination_a_type⟩ := Get_str d "termination_a_type" _
      (by rw [hs]; rfl) rfl
  obtain ⟨v_termination_b_id, h_termination_b_id⟩ := Get_int d "termination_b_id" _
      (by rw [hs]; rfl) rfl
  obtain ⟨v_termination_b_type, h_termination_b_type⟩ := Get_str d "termination_b_type" _
      (by rw [hs]; rfl) rfl
  simp [resourceNetboxDcimCableUpdateData, h_status, h_termination_a_id, h_termination_a_type,
      h_termination_b_id, h_termination_b_type,
    Value.assertString, Value.assertInt, Value.assertBool, Value.assertIntSet,
    Value.assertTagSet, andThen_some, ite_some_some]

theorem resourceNetboxDcimCableCreateData_isSome (d : ResourceData)
    (hs : d.schema = resourceNetboxDcimCable) :
    (resourceNetboxDcimCableCreateData d).isSome = true := by
  obtain ⟨v_status, h_status⟩ := Get_str d "status" _ (by rw [hs]; rfl) rfl
  obtain ⟨v_termination_a_id, h_termination_a_id⟩ := Get_int d "termination_a_id" _
      (by rw [hs]; rfl) rfl
  obtain ⟨v_termination_a_type, h_termination_a_type⟩ := Get_str d "termination_a_type" _
      (by rw [hs]; rfl) rfl
  obtain ⟨v_termination_b_id, h_termination_b_id⟩ := Get_int d "termination_b_id" _
      (by rw [hs]; rfl) rfl
  obtain ⟨v_termination_b_type, h_termination_b_type⟩ := Get_str d "termination_b_type" _
      (by rw [hs]; rfl) rfl
  simp [resourceNetboxDcimCableCreateData, h_status, h_termination_a_id, h_termination_a_type,
      h_termination_b_id, h_termination_b_type,
    Value.assertString, Value.assertInt, Value.assertBool, Value.assertIntSet,
    Value.assertTagSet, andThen_some]

theorem resourceNetboxDcimDeviceUpdateData_required (d : ResourceData) (p :
    WritableDeviceWithConfigContext)
    (h : resourceNetboxDcimDeviceUpdateData d = some p) :
    ∀ key sch, (key, sch) ∈ resourceNetboxDcimDevice → sch.Required = true →
      p.field key = some (d.Get key) := by
  simp only [resourceNetboxDcimDeviceUpdateData, andThen_eq_some, assertString_eq_some,
    assertInt_eq_some, assertInt64_eq_some, assertBool_eq_some, assertIntSet_eq_some,
    assertTagSet_eq_some] at h
  obtain ⟨a0, h0, a1, h1, a2, h2, a3, h3, a4, h4, a5, h5, a6, h6, a7, h7, a8, h8, a9, h9, a10, h10,
      a11, h11, a12, h12, a13, h13, a14, h14, a15, h15, a16, h16, hp⟩ := h
  injection hp with hp
  subst hp
  intro key sch hmem hreq
  simp only [resourceNetboxDcimDevice, List.mem_cons, Prod.mk.injEq, List.mem_singleton,
      List.not_mem_nil, or_false] at hmem
  rcases hmem with ⟨rfl, rfl⟩ | ⟨rfl, rfl⟩ | ⟨rfl, rfl⟩ | ⟨rfl, rfl⟩ | ⟨rfl, rfl⟩ | ⟨rfl, rfl⟩ |
      ⟨rfl, rfl⟩ | ⟨rfl, rfl⟩ | ⟨rfl, rfl⟩ | ⟨rfl, rfl⟩ | ⟨rfl, rfl⟩ | ⟨rfl, rfl⟩ | ⟨rfl, rfl⟩ |
      ⟨rfl, rfl⟩ | ⟨rfl, rfl⟩ | ⟨rfl, rfl⟩ | ⟨rfl, rfl⟩ <;>
    simp_all [WritableDeviceWithConfigContext.field]

theorem resourceNetboxDcimDeviceUpdateData_optional (d : ResourceData) (p :
    WritableDeviceWithConfigContext)
    (h : resourceNetboxDcimDeviceUpdateData d = some p) :
    ∀ key sch, (key, sch) ∈ resourceNetboxDcimDevice → sch.Required = false →
      d.HasChange key = false → p.field key = none := by
  simp only [resourceNetboxDcimDeviceUpdateData, andThen_eq_some, assertString_eq_some,
    assertInt_eq_some, assertInt64_eq_some, assertBool_eq_some, assertIntSet_eq_some,
    assertTagSet_eq_some] at h
  obtain ⟨a0, h0, a1, h1, a2, h2, a3, h3, a4, h4, a5, h5, a6, h6, a7, h7, a8, h8, a9, h9, a10, h10,
      a11, h11, a12, h12, a13, h13, a14, h14, a15, h15, a16, h16, hp⟩ := h
  injection hp with hp
  subst hp
  intro key sch hmem hreq hc
  simp only [resourceNetboxDcimDevice, List.mem_cons, Prod.mk.injEq, List.mem_singleton,
      List.not_mem_nil, or_false] at hmem
  rcases hmem with ⟨rfl, rfl⟩ | ⟨rfl, rfl⟩ | ⟨rfl, rfl⟩ | ⟨rfl, rfl⟩ | ⟨rfl, rfl⟩ | ⟨rfl, rfl⟩ |
      ⟨rfl, rfl⟩ | ⟨rfl, rfl⟩ | ⟨rfl, rfl⟩ | ⟨rfl, rfl⟩ | ⟨rfl, rfl⟩ | ⟨rfl, rfl⟩ | ⟨rfl, rfl⟩ |
      ⟨rfl, rfl⟩ | ⟨rfl, rfl⟩ | ⟨rfl, rfl⟩ | ⟨rfl, rfl⟩ <;>
    simp_all [WritableDeviceWithConfigContext.field, carriedString, carriedBool, carriedInt]

theorem resourceNetboxDcimDeviceCreateData_fields (d : ResourceData) (p :
    WritableDeviceWithConfigContext)
    (h : resourceNetboxDcimDeviceCreateData d = some p) :
    (∀ key sch, (key, sch) ∈ resourceNetboxDcimDevice → sch.Required = true →
      p.field key = some (d.Get key)) ∧
    (∀ key sch, (key, sch) ∈ resourceNetboxDcimDevice → sch.Required = false →
      sch.ty ≠ .TypeSetOfInt → sch.ty ≠ .TypeSetOfTag →
      p.field key = none ∨
        (p.field key = some (d.Get key) ∧ d.Get key ≠ zeroValue sch.ty)) := by
  simp only [resourceNetboxDcimDeviceCreateData, andThen_eq_some, assertString_eq_some,
    assertInt_eq_some, assertInt64_eq_some, assertBool_eq_some, assertIntSet_eq_some,
    assertTagSet_eq_some] at h
  obtain ⟨a0, h0, a1, h1, a2, h2, a3, h3, a4, h4, a5, h5, a6, h6, a7, h7, a8, h8, a9, h9, a10, h10,
      a11, h11, a12, h12, a13, h13, a14, h14, a15, h15, a16, h16, hp⟩ := h
  injection hp with hp
  subst hp
  constructor
  · intro key sch hmem hreq
    simp only [resourceNetboxDcimDevice, List.mem_cons, Prod.mk.injEq, List.mem_singleton,
      List.not_mem_nil, or_false] at hmem
    rcases hmem with ⟨rfl, rfl⟩ | ⟨rfl, rfl⟩ | ⟨rfl, rfl⟩ | ⟨rfl, rfl⟩ | ⟨rfl, rfl⟩ | ⟨rfl, rfl⟩ |
        ⟨rfl, rfl⟩ | ⟨rfl, rfl⟩ | ⟨rfl, rfl⟩ | ⟨rfl, rfl⟩ | ⟨rfl, rfl⟩ | ⟨rfl, rfl⟩ | ⟨rfl, rfl⟩ |
        ⟨rfl, rfl⟩ | ⟨rfl, rfl⟩ | ⟨rfl, rfl⟩ | ⟨rfl, rfl⟩ <;>
      simp_all [WritableDeviceWithConfigContext.field]
  · intro key sch hmem hreq hty1 hty2
    simp only [resourceNetboxDcimDevice, List.mem_cons, Prod.mk.injEq, List.mem_singleton,
      List.not_mem_nil, or_false] at hmem
    rcases hmem with ⟨rfl, rfl⟩ | ⟨rfl, rfl⟩ | ⟨rfl, rfl⟩ | ⟨rfl, rfl⟩ | ⟨rfl, rfl⟩ | ⟨rfl, rfl⟩ |
        ⟨rfl, rfl⟩ | ⟨rfl, rfl⟩ | ⟨rfl, rfl⟩ | ⟨rfl, rfl⟩ | ⟨rfl, rfl⟩ | ⟨rfl, rfl⟩ | ⟨rfl, rfl⟩ |
        ⟨rfl, rfl⟩ | ⟨rfl, rfl⟩ | ⟨rfl, rfl⟩ | ⟨rfl, rfl⟩ <;>
      simp_all [WritableDeviceWithConfigContext.field, carriedString, carriedBool, carriedInt,
          zeroValue]
    all_goals first | exact em _ | (by_cases hz : a6 = 0 <;> simp [hz])

theorem resourceNetboxDcimDeviceUpdateData_isSome (d : ResourceData)
    (hs : d.schema = resourceNetboxDcimDevice) :
    (resourceNetboxDcimDeviceUpdateData d).isSome = true := by
  obtain ⟨v_asset_tag, h_asset_tag⟩ := Get_str d "asset_tag" _ (by rw [hs]; rfl) rfl
  obtain ⟨v_cluster_id, h_cluster_id⟩ := Get_int d "cluster_id" _ (by rw [hs]; rfl) rfl
  obtain ⟨v_device_role_id, h_device_role_id⟩ := Get_int d "device_role_id" _ (by rw [hs]; rfl) rfl
  obtain ⟨v_device_type_id, h_device_type_id⟩ := Get_int d "device_type_id" _ (by rw [hs]; rfl) rfl
  obtain ⟨v_face, h_face⟩ := Get_str d "face" _ (by rw [hs]; rfl) rfl
  obtain ⟨v_name, h_name⟩ := Get_str d "name" _ (by rw [hs]; rfl) rfl
  obtain ⟨v_parent_device_id, h_parent_device_id⟩ := Get_int d "parent_device_id" _
      (by rw [hs]; rfl) rfl
  obtain ⟨v_position, h_position⟩ := Get_int d "position" _ (by rw [hs]; rfl) rfl
  obtain ⟨v_platform_id, h_platform_id⟩ := Get_int d "platform_id" _ (by rw [hs]; rfl) rfl
  obtain ⟨v_primary_ip4_id, h_primary_ip4_id⟩ := Get_int d "primary_ip4_id" _ (by rw [hs]; rfl) rfl
  obtain ⟨v_primary_ip6_id, h_primary_ip6_id⟩ := Get_int d "primary_ip6_id" _ (by rw [hs]; rfl) rfl
  obtain ⟨v_rack_id, h_rack_id⟩ := Get_int d "rack_id" _ (by rw [hs]; rfl) rfl
  obtain ⟨v_serial, h_serial⟩ := Get_str d "serial" _ (by rw [hs]; rfl) rfl
  obtain ⟨v_site_id, h_site_id⟩ := Get_int d "site_id" _ (by rw [hs]; rfl) rfl
  obtain ⟨v_status, h_status⟩ := Get_str d "status" _ (by rw [hs]; rfl) rfl
  obtain ⟨v_tenant_id, h_tenant_id⟩ := Get_int d "tenant_id" _ (by rw [hs]; rfl) rfl
  obtain ⟨v_virtual_chassis_id, h_virtual_chassis_id⟩ := Get_int d "virtual_chassis_id" _
      (by rw [hs]; rfl) rfl
  simp [resourceNetboxDcimDeviceUpdateData, h_asset_tag, h_cluster_id, h_device_role_id,
      h_device_type_id, h_face, h_name, h_parent_device_id, h_position, h_platform_id,
      h_primary_ip4_id, h_primary_ip6_id, h_rack_id, h_serial, h_site_id, h_status, h_tenant_id,
      h_virtual_chassis_id,
    Value.assertString, Value.assertInt, Value.assertBool, Value.assertIntSet,
    Value.assertTagSet, andThen_some, ite_some_some]

theorem resourceNetboxDcimDeviceCreateData_isSome (d : ResourceData)
    (hs : d.schema = resourceNetboxDcimDevice) :
    (resourceNetboxDcimDeviceCreateData d).isSome = true := by
  obtain ⟨v_asset_tag, h_asset_tag⟩ := Get_str d "asset_tag" _ (by rw [hs]; rfl) rfl
  obtain ⟨v_cluster_id, h_cluster_id⟩ := Get_int d "cluster_id" _ (by rw [hs]; rfl) rfl
  obtain ⟨v_device_role_id, h_device_role_id⟩ := Get_int d "device_role_id" _ (by rw [hs]; rfl) rfl
  obtain ⟨v_device_type_id, h_device_type_id⟩ := Get_int d "device_type_id" _ (by rw [hs]; rfl) rfl
  obtain ⟨v_face, h_face⟩ := Get_str d "face" _ (by rw [hs]; rfl) rfl
  obtain ⟨v_name, h_name⟩ := Get_str d "name" _ (by rw [hs]; rfl) rfl
  obtain ⟨v_parent_device_id, h_parent_device_id⟩ := Get_int d "parent_device_id" _
      (by rw [hs]; rfl) rfl
  obtain ⟨v_position, h_position⟩ := Get_int d "position" _ (by rw [hs]; rfl) rfl
  obtain ⟨v_platform_id, h_platform_id⟩ := Get_int d "platform_id" _ (by rw [hs]; rfl) rfl
  obtain ⟨v_primary_ip4_id, h_primary_ip4_id⟩ := Get_int d "primary_ip4_id" _ (by rw [hs]; rfl) rfl
  obtain ⟨v_primary_ip6_id, h_primary_ip6_id⟩ := Get_int d "primary_ip6_id" _ (by rw [hs]; rfl) rfl
  obtain ⟨v_rack_id, h_rack_id⟩ := Get_int d "rack_id" _ (by rw [hs]; rfl) rfl
  obtain ⟨v_serial, h_serial⟩ := Get_str d "serial" _ (by rw [hs]; rfl) rfl
  obtain ⟨v_site_id, h_site_id⟩ := Get_int d "site_id" _ (by rw [hs]; rfl) rfl
  obtain ⟨v_status, h_status⟩ := Get_str d "status" _ (by rw [hs]; rfl) rfl
  obtain ⟨v_tenant_id, h_tenant_id⟩ := Get_int d "tenant_id" _ (by rw [hs]; rfl) rfl
  obtain ⟨v_virtual_chassis_id, h_virtual_chassis_id⟩ := Get_int d "virtual_chassis_id" _
      (by rw [hs]; rfl) rfl
  simp [resourceNetboxDcimDeviceCreateData, h_asset_tag, h_cluster_id, h_device_role_id,
      h_device_type_id, h_face, h_name, h_parent_device_id, h_position, h_platform_id,
      h_primary_ip4_id, h_primary_ip6_id, h_rack_id, h_serial, h_site_id, h_status, h_tenant_id,
      h_virtual_chassis_id,
    Value.assertString, Value.assertInt, Value.assertBool, Value.assertIntSet,
    Value.assertTagSet, andThen_some]

theorem resourceNetboxDcimInterfaceUpdateData_required (d : ResourceData) (p : WritableInterface)
    (h : resourceNetboxDcimInterfaceUpdateData d = some p) :
    ∀ key sch, (key, sch) ∈ resourceNetboxDcimInterface → sch.Required = true →
      p.field key = some (d.Get key) := by
  simp only [resourceNetboxDcimInterfaceUpdateData, andThen_eq_some, assertString_eq_some,
    assertInt_eq_some, assertInt64_eq_some, assertBool_eq_some, assertIntSet_eq_some,
    assertTagSet_eq_some] at h
  obtain ⟨a0, h0, a1, h1, a2, h2, a3, h3, a4, h4, a5, h5, a6, h6, a7, h7, a8, h8, a9, h9, a10, h10,
      a11, h11, a12, h12, a13, h13, hp⟩ := h
  injection hp with hp
  subst hp
  intro key sch hmem hreq
  simp only [resourceNetboxDcimInterface, List.mem_cons, Prod.mk.injEq, List.mem_singleton,
      List.not_mem_nil, or_false] at hmem
  rcases hmem with ⟨rfl, rfl⟩ | ⟨rfl, rfl⟩ | ⟨rfl, rfl⟩ | ⟨rfl, rfl⟩ | ⟨rfl, rfl⟩ | ⟨rfl, rfl⟩ |
      ⟨rfl, rfl⟩ | ⟨rfl, rfl⟩ | ⟨rfl, rfl⟩ | ⟨rfl, rfl⟩ | ⟨rfl, rfl⟩ | ⟨rfl, rfl⟩ | ⟨rfl, rfl⟩ |
      ⟨rfl, rfl⟩ <;>
    simp_all [WritableInterface.field]

theorem resourceNetboxDcimInterfaceUpdateData_optional (d : ResourceData) (p : WritableInterface)
    (h : resourceNetboxDcimInterfaceUpdateData d = some p) :
    ∀ key sch, (key, sch) ∈ resourceNetboxDcimInterface → sch.Required = false →
      d.HasChange key = false →
        key ≠ "tagged_vlans" → key ≠ "tag" → p.field key = none := by
  simp only [resourceNetboxDcimInterfaceUpdateData, andThen_eq_some, assertString_eq_some,
    assertInt_eq_some, assertInt64_eq_some, assertBool_eq_some, assertIntSet_eq_some,
    assertTagSet_eq_some] at h
  obtain ⟨a0, h0, a1, h1, a2, h2, a3, h3, a4, h4, a5, h5, a6, h6, a7, h7, a8, h8, a9, h9, a10, h10,
      a11, h11, a12, h12, a13, h13, hp⟩ := h
  injection hp with hp
  subst hp
  intro key sch hmem hreq hc hx1 hx2
  simp only [resourceNetboxDcimInterface, List.mem_cons, Prod.mk.injEq, List.mem_singleton,
      List.not_mem_nil, or_false] at hmem
  rcases hmem with ⟨rfl, rfl⟩ | ⟨rfl, rfl⟩ | ⟨rfl, rfl⟩ | ⟨rfl, rfl⟩ | ⟨rfl, rfl⟩ | ⟨rfl, rfl⟩ |
      ⟨rfl, rfl⟩ | ⟨rfl, rfl⟩ | ⟨rfl, rfl⟩ | ⟨rfl, rfl⟩ | ⟨rfl, rfl⟩ | ⟨rfl, rfl⟩ | ⟨rfl, rfl⟩ |
      ⟨rfl, rfl⟩ <;>
    simp_all [WritableInterface.field, carriedString, carriedBool, carriedInt]

theorem resourceNetboxDcimInterfaceCreateData_fields (d : ResourceData) (p : WritableInterface)
    (h : resourceNetboxDcimInterfaceCreateData d = some p) :
    (∀ key sch, (key, sch) ∈ resourceNetboxDcimInterface → sch.Required = true →
      p.field key = some (d.Get key)) ∧
    (∀ key sch, (key, sch) ∈ resourceNetboxDcimInterface → sch.Required = false →
      sch.ty ≠ .TypeSetOfInt → sch.ty ≠ .TypeSetOfTag →
      p.field key = none ∨
        (p.field key = some (d.Get key) ∧ d.Get key ≠ zeroValue sch.ty)) := by
  simp only [resourceNetboxDcimInterfaceCreateData, andThen_eq_some, assertString_eq_some,
    assertInt_eq_some, assertInt64_eq_some, assertBool_eq_some, assertIntSet_eq_some,
    assertTagSet_eq_some] at h
  obtain ⟨a0, h0, a1, h1, a2, h2, a3, h3, a4, h4, a5, h5, a6, h6, a7, h7, a8, h8, a9, h9, a10, h10,
      a11, h11, a12, h12, a13, h13, hp⟩ := h
  injection hp with hp
  subst hp
  constructor
  · intro key sch hmem hreq
    simp only [resourceNetboxDcimInterface, List.mem_cons, Prod.mk.injEq, List.mem_singleton,
      List.not_mem_nil, or_false] at hmem
    rcases hmem with ⟨rfl, rfl⟩ | ⟨rfl, rfl⟩ | ⟨rfl, rfl⟩ | ⟨rfl, rfl⟩ | ⟨rfl, rfl⟩ | ⟨rfl, rfl⟩ |
        ⟨rfl, rfl⟩ | ⟨rfl, rfl⟩ | ⟨rfl, rfl⟩ | ⟨rfl, rfl⟩ | ⟨rfl, rfl⟩ | ⟨rfl, rfl⟩ | ⟨rfl, rfl⟩ |
        ⟨rfl, rfl⟩ <;>
      simp_all [WritableInterface.field]
  · intro key sch hmem hreq hty1 hty2
    simp only [resourceNetboxDcimInterface, List.mem_cons, Prod.mk.injEq, List.mem_singleton,
      List.not_mem_nil, or_false] at hmem
    rcases hmem with ⟨rfl, rfl⟩ | ⟨rfl, rfl⟩ | ⟨rfl, rfl⟩ | ⟨rfl, rfl⟩ | ⟨rfl, rfl⟩ | ⟨rfl, rfl⟩ |
        ⟨rfl, rfl⟩ | ⟨rfl, rfl⟩ | ⟨rfl, rfl⟩ | ⟨rfl, rfl⟩ | ⟨rfl, rfl⟩ | ⟨rfl, rfl⟩ | ⟨rfl, rfl⟩ |
        ⟨rfl, rfl⟩ <;>
      simp_all [WritableInterface.field, carriedString, carriedBool, carriedInt, zeroValue]
    all_goals exact em _

theorem resourceNetboxDcimInterfaceUpdateData_isSome (d : ResourceData)
    (hs : d.schema = resourceNetboxDcimInterface) :
    (resourceNetboxDcimInterfaceUpdateData d).isSome = true := by
  obtain ⟨v_device_id, h_device_id⟩ := Get_int d "device_id" _ (by rw [hs]; rfl) rfl
  obtain ⟨v_name, h_name⟩ := Get_str d "name" _ (by rw [hs]; rfl) rfl
  obtain ⟨v_type, h_type⟩ := Get_str d "type" _ (by rw [hs]; rfl) rfl
  obtain ⟨v_enabled, h_enabled⟩ := Get_bool d "enabled" _ (by rw [hs]; rfl) rfl
  obtain ⟨v_lag_id, h_lag_id⟩ := Get_int d "lag_id" _ (by rw [hs]; rfl) rfl
  obtain ⟨v_mtu, h_mtu⟩ := Get_int d "mtu" _ (by rw [hs]; rfl) rfl
  obtain ⟨v_mac_address, h_mac_address⟩ := Get_str d "mac_address" _ (by rw [hs]; rfl) rfl
  obtain ⟨v_mgmt_only, h_mgmt_only⟩ := Get_bool d "mgmt_only" _ (by rw [hs]; rfl) rfl
  obtain ⟨v_description, h_description⟩ := Get_str d "description" _ (by rw [hs]; rfl) rfl
  obtain ⟨v_connection_status, h_connection_status⟩ := Get_bool d "connection_status" _
      (by rw [hs]; rfl) rfl
  obtain ⟨v_mode, h_mode⟩ := Get_str d "mode" _ (by rw [hs]; rfl) rfl
  obtain ⟨v_untagged_vlan_id, h_untagged_vlan_id⟩ := Get_int d "untagged_vlan_id" _
      (by rw [hs]; rfl) rfl
  obtain ⟨v_tagged_vlans, h_tagged_vlans⟩ := Get_ints d "tagged_vlans" _ (by rw [hs]; rfl) rfl
  obtain ⟨v_tag, h_tag⟩ := Get_tags d "tag" _ (by rw [hs]; rfl) rfl
  simp [resourceNetboxDcimInterfaceUpdateData, h_device_id, h_name, h_type, h_enabled, h_lag_id,
      h_mtu, h_mac_address, h_mgmt_only, h_description, h_connection_status, h_mode,
      h_untagged_vlan_id, h_tagged_vlans, h_tag,
    Value.assertString, Value.assertInt, Value.assertBool, Value.assertIntSet,
    Value.assertTagSet, andThen_some, ite_some_some]

theorem resourceNetboxDcimInterfaceCreateData_isSome (d : ResourceData)
    (hs : d.schema = resourceNetboxDcimInterface) :
    (resourceNetboxDcimInterfaceCreateData d).isSome = true := by
  obtain ⟨v_device_id, h_device_id⟩ := Get_int d "device_id" _ (by rw [hs]; rfl) rfl
  obtain ⟨v_name, h_name⟩ := Get_str d "name" _ (by rw [hs]; rfl) rfl
  obtain ⟨v_type, h_type⟩ := Get_str d "type" _ (by rw [hs]; rfl) rfl
  obtain ⟨v_enabled, h_enabled⟩ := Get_bool d "enabled" _ (by rw [hs]; rfl) rfl
  obtain ⟨v_lag_id, h_lag_id⟩ := Get_int d "lag_id" _ (by rw [hs]; rfl) rfl
  obtain ⟨v_mtu, h_mtu⟩ := Get_int d "mtu" _ (by rw [hs]; rfl) rfl
  obtain ⟨v_mac_address, h_mac_address⟩ := Get_str d "mac_address" _ (by rw [hs]; rfl) rfl
  obtain ⟨v_mgmt_only, h_mgmt_only⟩ := Get_bool d "mgmt_only" _ (by rw [hs]; rfl) rfl
  obtain ⟨v_description, h_description⟩ := Get_str d "description" _ (by rw [hs]; rfl) rfl
  obtain ⟨v_connection_status, h_connection_status⟩ := Get_bool d "connection_status" _
      (by rw [hs]; rfl) rfl
  obtain ⟨v_mode, h_mode⟩ := Get_str d "mode" _ (by rw [hs]; rfl) rfl
  obtain ⟨v_untagged_vlan_id, h_untagged_vlan_id⟩ := Get_int d "untagged_vlan_id" _
      (by rw [hs]; rfl) rfl
  obtain ⟨v_tagged_vlans, h_tagged_vlans⟩ := Get_ints d "tagged_vlans" _ (by rw [hs]; rfl) rfl
  obtain ⟨v_tag, h_tag⟩ := Get_tags d "tag" _ (by rw [hs]; rfl) rfl
  simp [resourceNetboxDcimInterfaceCreateData, h_device_id, h_name, h_type, h_enabled, h_lag_id,
      h_mtu, h_mac_address, h_mgmt_only, h_description, h_connection_status, h_mode,
      h_untagged_vlan_id, h_tagged_vlans, h_tag,
    Value.assertString, Value.assertInt, Value.assertBool, Value.assertIntSet,
    Value.assertTagSet, andThen_some]

theorem resourceNetboxDcimRackUpdateData_required (d : ResourceData) (p : WritableRack)
    (h : resourceNetboxDcimRackUpdateData d = some p) :
    ∀ key sch, (key, sch) ∈ resourceNetboxDcimRack → sch.Required = true →
      p.field key = some (d.Get key) := by
  simp only [resourceNetboxDcimRackUpdateData, andThen_eq_some, assertString_eq_some,
    assertInt_eq_some, assertInt64_eq_some, assertBool_eq_some, assertIntSet_eq_some,
    assertTagSet_eq_some] at h
  obtain ⟨a0, h0, a1, h1, a2, h2, a3, h3, a4, h4, a5, h5, a6, h6, a7, h7, a8, h8, a9, h9, a10, h10,
      hp⟩ := h
  injection hp with hp
  subst hp
  intro key sch hmem hreq
  simp only [resourceNetboxDcimRack, List.mem_cons, Prod.mk.injEq, List.mem_singleton,
      List.not_mem_nil, or_false] at hmem
  rcases hmem with ⟨rfl, rfl⟩ | ⟨rfl, rfl⟩ | ⟨rfl, rfl⟩ | ⟨rfl, rfl⟩ | ⟨rfl, rfl⟩ | ⟨rfl, rfl⟩ |
      ⟨rfl, rfl⟩ | ⟨rfl, rfl⟩ | ⟨rfl, rfl⟩ | ⟨rfl, rfl⟩ | ⟨rfl, rfl⟩ <;>
    simp_all [WritableRack.field]

theorem resourceNetboxDcimRackUpdateData_optional (d : ResourceData) (p : WritableRack)
    (h : resourceNetboxDcimRackUpdateData d = some p) :
    ∀ key sch, (key, sch) ∈ resourceNetboxDcimRack → sch.Required = false →
      d.HasChange key = false → p.field key = none := by
  simp only [resourceNetboxDcimRackUpdateData, andThen_eq_some, assertString_eq_some,
    assertInt_eq_some, assertInt64_eq_some, assertBool_eq_some, assertIntSet_eq_some,
    assertTagSet_eq_some] at h
  obtain ⟨a0, h0, a1, h1, a2, h2, a3, h3, a4, h4, a5, h5, a6, h6, a7, h7, a8, h8, a9, h9, a10, h10,
      hp⟩ := h
  injection hp with hp
  subst hp
  intro key sch hmem hreq hc
  simp only [resourceNetboxDcimRack, List.mem_cons, Prod.mk.injEq, List.mem_singleton,
      List.not_mem_nil, or_false] at hmem
  rcases hmem with ⟨rfl, rfl⟩ | ⟨rfl, rfl⟩ | ⟨rfl, rfl⟩ | ⟨rfl, rfl⟩ | ⟨rfl, rfl⟩ | ⟨rfl, rfl⟩ |
      ⟨rfl, rfl⟩ | ⟨rfl, rfl⟩ | ⟨rfl, rfl⟩ | ⟨rfl, rfl⟩ | ⟨rfl, rfl⟩ <;>
    simp_all [WritableRack.field, carriedString, carriedBool, carriedInt]

theorem resourceNetboxDcimRackCreateData_fields (d : ResourceData) (p : WritableRack)
    (h : resourceNetboxDcimRackCreateData d = some p) :
    (∀ key sch, (key, sch) ∈ resourceNetboxDcimRack → sch.Required = true →
      p.field key = some (d.Get key)) ∧
    (∀ key sch, (key, sch) ∈ resourceNetboxDcimRack → sch.Required = false →
      sch.ty ≠ .TypeSetOfInt → sch.ty ≠ .TypeSetOfTag →
      p.field key = none ∨
        (p.field key = some (d.Get key) ∧ d.Get key ≠ zeroValue sch.ty)) := by
  simp only [resourceNetboxDcimRackCreateData, andThen_eq_some, assertString_eq_some,
    assertInt_eq_some, assertInt64_eq_some, assertBool_eq_some, assertIntSet_eq_some,
    assertTagSet_eq_some] at h
  obtain ⟨a0, h0, a1, h1, a2, h2, a3, h3, a4, h4, a5, h5, a6, h6, a7, h7, a8, h8, a9, h9, a10, h10,
      hp⟩ := h
  injection hp with hp
  subst hp
  constructor
  · intro key sch hmem hreq
    simp only [resourceNetboxDcimRack, List.mem_cons, Prod.mk.injEq, List.mem_singleton,
      List.not_mem_nil, or_false] at hmem
    rcases hmem with ⟨rfl, rfl⟩ | ⟨rfl, rfl⟩ | ⟨rfl, rfl⟩ | ⟨rfl, rfl⟩ | ⟨rfl, rfl⟩ | ⟨rfl, rfl⟩ |
        ⟨rfl, rfl⟩ | ⟨rfl, rfl⟩ | ⟨rfl, rfl⟩ | ⟨rfl, rfl⟩ | ⟨rfl, rfl⟩ <;>
      simp_all [WritableRack.field]
  · intro key sch hmem hreq hty1 hty2
    simp only [resourceNetboxDcimRack, List.mem_cons, Prod.mk.injEq, List.mem_singleton,
      List.not_mem_nil, or_false] at hmem
    rcases hmem with ⟨rfl, rfl⟩ | ⟨rfl, rfl⟩ | ⟨rfl, rfl⟩ | ⟨rfl, rfl⟩ | ⟨rfl, rfl⟩ | ⟨rfl, rfl⟩ |
        ⟨rfl, rfl⟩ | ⟨rfl, rfl⟩ | ⟨rfl, rfl⟩ | ⟨rfl, rfl⟩ | ⟨rfl, rfl⟩ <;>
      simp_all [WritableRack.field, carriedString, carriedBool, carriedInt, zeroValue]
    all_goals exact em _

theorem resourceNetboxDcimRackUpdateData_isSome (d : ResourceData)
    (hs : d.schema = resourceNetboxDcimRack) (hc_desc_units : d.HasChange "desc_units" = false) :
    (resourceNetboxDcimRackUpdateData d).isSome = true := by
  obtain ⟨v_asset_tag, h_asset_tag⟩ := Get_str d "asset_tag" _ (by rw [hs]; rfl) rfl
  obtain ⟨v_desc_units, h_desc_units⟩ := Get_bool d "desc_units" _ (by rw [hs]; rfl) rfl
  obtain ⟨v_facility_id, h_facility_id⟩ := Get_str d "facility_id" _ (by rw [hs]; rfl) rfl
  obtain ⟨v_group_id, h_group_id⟩ := Get_int d "group_id" _ (by rw [hs]; rfl) rfl
  obtain ⟨v_name, h_name⟩ := Get_str d "name" _ (by rw [hs]; rfl) rfl
  obtain ⟨v_role_id, h_role_id⟩ := Get_int d "role_id" _ (by rw [hs]; rfl) rfl
  obtain ⟨v_serial, h_serial⟩ := Get_str d "serial" _ (by rw [hs]; rfl) rfl
  obtain ⟨v_site_id, h_site_id⟩ := Get_int d "site_id" _ (by rw [hs]; rfl) rfl
  obtain ⟨v_status, h_status⟩ := Get_str d "status" _ (by rw [hs]; rfl) rfl
  obtain ⟨v_tenant_id, h_tenant_id⟩ := Get_int d "tenant_id" _ (by rw [hs]; rfl) rfl
  obtain ⟨v_u_height, h_u_height⟩ := Get_int d "u_height" _ (by rw [hs]; rfl) rfl
  simp [resourceNetboxDcimRackUpdateData, h_asset_tag, h_desc_units, h_facility_id, h_group_id,
      h_name, h_role_id, h_serial, h_site_id, h_status, h_tenant_id, h_u_height,
    Value.assertString, Value.assertInt, Value.assertBool, Value.assertIntSet,
    Value.assertTagSet, andThen_some, ite_some_some, hc_desc_units]

theorem resourceNetboxDcimRackCreateData_isSome (d : ResourceData)
    (hs : d.schema = resourceNetboxDcimRack) :
    (resourceNetboxDcimRackCreateData d).isSome = true := by
  obtain ⟨v_asset_tag, h_asset_tag⟩ := Get_str d "asset_tag" _ (by rw [hs]; rfl) rfl
  obtain ⟨v_desc_units, h_desc_units⟩ := Get_bool d "desc_units" _ (by rw [hs]; rfl) rfl
  obtain ⟨v_facility_id, h_facility_id⟩ := Get_str d "facility_id" _ (by rw [hs]; rfl) rfl
  obtain ⟨v_group_id, h_group_id⟩ := Get_int d "group_id" _ (by rw [hs]; rfl) rfl
  obtain ⟨v_name, h_name⟩ := Get_str d "name" _ (by rw [hs]; rfl) rfl
  obtain ⟨v_role_id, h_role_id⟩ := Get_int d "role_id" _ (by rw [hs]; rfl) rfl
  obtain ⟨v_serial, h_serial⟩ := Get_str d "serial" _ (by rw [hs]; rfl) rfl
  obtain ⟨v_site_id, h_site_id⟩ := Get_int d "site_id" _ (by rw [hs]; rfl) rfl
  obtain ⟨v_status, h_status⟩ := Get_str d "status" _ (by rw [hs]; rfl) rfl
  obtain ⟨v_tenant_id, h_tenant_id⟩ := Get_int d "tenant_id" _ (by rw [hs]; rfl) rfl
  obtain ⟨v_u_height, h_u_height⟩ := Get_int d "u_height" _ (by rw [hs]; rfl) rfl
  simp [resourceNetboxDcimRackCreateData, h_asset_tag, h_desc_units, h_facility_id, h_group_id,
      h_name, h_role_id, h_serial, h_site_id, h_status, h_tenant_id, h_u_height,
    Value.assertString, Value.assertInt, Value.assertBool, Value.assertIntSet,
    Value.assertTagSet, andThen_some]

theorem resourceNetboxVirtualizationClusterUpdateData_required (d : ResourceData) (p :
    WritableCluster)
    (h : resourceNetboxVirtualizationClusterUpdateData d = some p) :
    ∀ key sch, (key, sch) ∈ resourceNetboxVirtualizationCluster → sch.Required = true →
      p.field key = some (d.Get key) := by
  simp only [resourceNetboxVirtualizationClusterUpdateData, andThen_eq_some, assertString_eq_some,
    assertInt_eq_some, assertInt64_eq_some, assertBool_eq_some, assertIntSet_eq_some,
    assertTagSet_eq_some] at h
  obtain ⟨a0, h0, a1, h1, a2, h2, a3, h3, hp⟩ := h
  injection hp with hp
  subst hp
  intro key sch hmem hreq
  simp only [resourceNetboxVirtualizationCluster, List.mem_cons, Prod.mk.injEq, List.mem_singleton,
      List.not_mem_nil, or_false] at hmem
  rcases hmem with ⟨rfl, rfl⟩ | ⟨rfl, rfl⟩ | ⟨rfl, rfl⟩ | ⟨rfl, rfl⟩ <;>
    simp_all [WritableCluster.field]

theorem resourceNetboxVirtualizationClusterUpdateData_optional (d : ResourceData) (p :
    WritableCluster)
    (h : resourceNetboxVirtualizationClusterUpdateData d = some p) :
    ∀ key sch, (key, sch) ∈ resourceNetboxVirtualizationCluster → sch.Required = false →
      d.HasChange key = false → p.field key = none := by
  simp only [resourceNetboxVirtualizationClusterUpdateData, andThen_eq_some, assertString_eq_some,
    assertInt_eq_some, assertInt64_eq_some, assertBool_eq_some, assertIntSet_eq_some,
    assertTagSet_eq_some] at h
  obtain ⟨a0, h0, a1, h1, a2, h2, a3, h3, hp⟩ := h
  injection hp with hp
  subst hp
  intro key sch hmem hreq hc
  simp only [resourceNetboxVirtualizationCluster, List.mem_cons, Prod.mk.injEq, List.mem_singleton,
      List.not_mem_nil, or_false] at hmem
  rcases hmem with ⟨rfl, rfl⟩ | ⟨rfl, rfl⟩ | ⟨rfl, rfl⟩ | ⟨rfl, rfl⟩ <;>
    simp_all [WritableCluster.field, carriedString, carriedBool, carriedInt]

theorem resourceNetboxVirtualizationClusterCreateData_fields (d : ResourceData) (p :
    WritableCluster)
    (h : resourceNetboxVirtualizationClusterCreateData d = some p) :
    (∀ key sch, (key, sch) ∈ resourceNetboxVirtualizationCluster → sch.Required = true →
      p.field key = some (d.Get key)) ∧
    (∀ key sch, (key, sch) ∈ resourceNetboxVirtualizationCluster → sch.Required = false →
      sch.ty ≠ .TypeSetOfInt → sch.ty ≠ .TypeSetOfTag →
      p.field key = none ∨
        (p.field key = some (d.Get key) ∧ d.Get key ≠ zeroValue sch.ty)) := by
  simp only [resourceNetboxVirtualizationClusterCreateData, andThen_eq_some, assertString_eq_some,
    assertInt_eq_some, assertInt64_eq_some, assertBool_eq_some, assertIntSet_eq_some,
    assertTagSet_eq_some] at h
  obtain ⟨a0, h0, a1, h1, a2, h2, a3, h3, hp⟩ := h
  injection hp with hp
  subst hp
  constructor
  · intro key sch hmem hreq
    simp only [resourceNetboxVirtualizationCluster, List.mem_cons, Prod.mk.injEq,
        List.mem_singleton,
      List.not_mem_nil, or_false] at hmem
    rcases hmem with ⟨rfl, rfl⟩ | ⟨rfl, rfl⟩ | ⟨rfl, rfl⟩ | ⟨rfl, rfl⟩ <;>
      simp_all [WritableCluster.field]
  · intro key sch hmem hreq hty1 hty2
    simp only [resourceNetboxVirtualizationCluster, List.mem_cons, Prod.mk.injEq,
        List.mem_singleton,
      List.not_mem_nil, or_false] at hmem
    rcases hmem with ⟨rfl, rfl⟩ | ⟨rfl, rfl⟩ | ⟨rfl, rfl⟩ | ⟨rfl, rfl⟩ <;>
      simp_all [WritableCluster.field, carriedString, carriedBool, carriedInt, zeroValue]
    all_goals exact em _

theorem resourceNetboxVirtualizationClusterUpdateData_isSome (d : ResourceData)
    (hs : d.schema = resourceNetboxVirtualizationCluster) :
    (resourceNetboxVirtualizationClusterUpdateData d).isSome = true := by
  obtain ⟨v_name, h_name⟩ := Get_str d "name" _ (by rw [hs]; rfl) rfl
  obtain ⟨v_type_id, h_type_id⟩ := Get_int d "type_id" _ (by rw [hs]; rfl) rfl
  obtain ⟨v_site_id, h_site_id⟩ := Get_int d "site_id" _ (by rw [hs]; rfl) rfl
  obtain ⟨v_tenant_id, h_tenant_id⟩ := Get_int d "tenant_id" _ (by rw [hs]; rfl) rfl
  simp [resourceNetboxVirtualizationClusterUpdateData, h_name, h_type_id, h_site_id, h_tenant_id,
    Value.assertString, Value.assertInt, Value.assertBool, Value.assertIntSet,
    Value.assertTagSet, andThen_some, ite_some_some]

theorem resourceNetboxVirtualizationClusterCreateData_isSome (d : ResourceData)
    (hs : d.schema = resourceNetboxVirtualizationCluster) :
    (resourceNetboxVirtualizationClusterCreateData d).isSome = true := by
  obtain ⟨v_name, h_name⟩ := Get_str d "name" _ (by rw [hs]; rfl) rfl
  obtain ⟨v_type_id, h_type_id⟩ := Get_int d "type_id" _ (by rw [hs]; rfl) rfl
  obtain ⟨v_site_id, h_site_id⟩ := Get_int d "site_id" _ (by rw [hs]; rfl) rfl
  obtain ⟨v_tenant_id, h_tenant_id⟩ := Get_int d "tenant_id" _ (by rw [hs]; rfl) rfl
  simp [resourceNetboxVirtualizationClusterCreateData, h_name, h_type_id, h_site_id, h_tenant_id,
    Value.assertString, Value.assertInt, Value.assertBool, Value.assertIntSet,
    Value.assertTagSet, andThen_some]

theorem resourceNetboxDcimInterfaceUpdateData_sets (d : ResourceData) (p : WritableInterface)
    (h : resourceNetboxDcimInterfaceUpdateData d = some p) :
    ∃ vlans tags, d.Get "tagged_vlans" = .ints vlans ∧
      p.TaggedVlans = some (expandToInt64Slice vlans) ∧
      d.Get "tag" = .tags tags ∧ p.Tags = some (convertTagsToNestedTags tags) := by
  simp only [resourceNetboxDcimInterfaceUpdateData, andThen_eq_some, assertString_eq_some,
    assertInt_eq_some, assertInt64_eq_some, assertBool_eq_some, assertIntSet_eq_some,
    assertTagSet_eq_some] at h
  obtain ⟨a0, h0, a1, h1, a2, h2, a3, h3, a4, h4, a5, h5, a6, h6, a7, h7, a8, h8, a9, h9, a10, h10,
      a11, h11, a12, h12, a13, h13, hp⟩ := h
  injection hp with hp
  subst hp
  exact ⟨a3, a13, h3, rfl, h13, rfl⟩

/-- Counterexample to C8 as stated: `tagged_vlans` and `tag` are optional in
the schema of the interface and not dirty, yet the payload built by Update
carries a value for both. -/
theorem interface_update_sends_unchanged_sets :
    ("tagged_vlans", ({ ty := .TypeSetOfInt, Optional := true } : Schema)) ∈
        resourceNetboxDcimInterface ∧
      ("tag", ({ ty := .TypeSetOfTag, Optional := true } : Schema)) ∈
        resourceNetboxDcimInterface ∧
      exampleInterfaceData.HasChange "tagged_vlans" = false ∧
      exampleInterfaceData.HasChange "tag" = false ∧
      (resourceNetboxDcimInterfaceUpdateData exampleInterfaceData).map
          (fun p => (p.field "tagged_vlans").isSome) = some true ∧
      (resourceNetboxDcimInterfaceUpdateData exampleInterfaceData).map
          (fun p => (p.field "tag").isSome) = some true := by
  decide

/-- C8, as amended: for every resource kind and every non-required field
other than the set-valued fields `tagged_vlans` and `tag` of the interface,
a payload built by Update carries nothing for the field when `HasChange` is
false for it; the payload of the interface Update always holds the declared
`tagged_vlans` and `tag` as converted by the two helpers. -/
theorem update_omits_unchanged_optional_fields :
    (∀ (d : ResourceData) (p : WritableSite), resourceNetboxDcimSiteUpdateData d = some p →
      ∀ key sch, (key, sch) ∈ resourceNetboxDcimSite → sch.Required = false →
        d.HasChange key = false → p.field key = none) ∧
    (∀ (d : ResourceData) (p : WritableCable), resourceNetboxDcimCableUpdateData d = some p →
      ∀ key sch, (key, sch) ∈ resourceNetboxDcimCable → sch.Required = false →
        d.HasChange key = false → p.field key = none) ∧
    (∀ (d : ResourceData) (p : WritableDeviceWithConfigContext), resourceNetboxDcimDeviceUpdateData
        d = some p →
      ∀ key sch, (key, sch) ∈ resourceNetboxDcimDevice → sch.Required = false →
        d.HasChange key = false → p.field key = none) ∧
    (∀ (d : ResourceData) (p : WritableInterface), resourceNetboxDcimInterfaceUpdateData d = some p
        →
      ∀ key sch, (key, sch) ∈ resourceNetboxDcimInterface → sch.Required = false →
        d.HasChange key = false →
        key ≠ "tagged_vlans" → key ≠ "tag" → p.field key = none) ∧
    (∀ (d : ResourceData) (p : WritableRack), resourceNetboxDcimRackUpdateData d = some p →
      ∀ key sch, (key, sch) ∈ resourceNetboxDcimRack → sch.Required = false →
        d.HasChange key = false → p.field key = none) ∧
    (∀ (d : ResourceData) (p : WritableCluster), resourceNetboxVirtualizationClusterUpdateData d =
        some p →
      ∀ key sch, (key, sch) ∈ resourceNetboxVirtualizationCluster → sch.Required = false →
        d.HasChange key = false → p.field key = none) ∧
    (∀ (d : ResourceData) (p : WritableInterface),
      resourceNetboxDcimInterfaceUpdateData d = some p →
      ∃ vlans tags, d.Get "tagged_vlans" = .ints vlans ∧
        p.TaggedVlans = some (expandToInt64Slice vlans) ∧
        d.Get "tag" = .tags tags ∧ p.Tags = some (convertTagsToNestedTags tags)) :=
  ⟨resourceNetboxDcimSiteUpdateData_optional,
   resourceNetboxDcimCableUpdateData_optional,
   resourceNetboxDcimDeviceUpdateData_optional,
   resourceNetboxDcimInterfaceUpdateData_optional,
   resourceNetboxDcimRackUpdateData_optional,
   resourceNetboxVirtualizationClusterUpdateData_optional,
   resourceNetboxDcimInterfaceUpdateData_sets⟩

/-- Witness of C8 as amended: a site of which nothing is dirty; its payload
carries no status. -/
theorem update_omits_unchanged_optional_fields_witness :
    resourceNetboxDcimSiteUpdateData exampleSiteData =
        some { Name := some "old", Slug := some "old" } ∧
      ({ Name := some "old", Slug := some "old" } : WritableSite).field "status" = none :=
  ⟨by decide,
   update_omits_unchanged_optional_fields.1 exampleSiteData
     { Name := some "old", Slug := some "old" } (by decide) "status"
     { ty := .TypeString, Optional := true } (by decide) rfl (by decide)⟩

/-- C9: for every resource kind, a payload built by Update carries, for every
required field of the schema, the current declared value, whatever the dirty
flags are; and Update does build a payload for all resource data of the kind
(for the site provided `tenant_id` is not dirty, for the rack provided
`desc_units` is not dirty). -/
theorem update_carries_required_fields :
    ((∀ (d : ResourceData) (p : WritableSite), resourceNetboxDcimSiteUpdateData d = some p →
        ∀ key sch, (key, sch) ∈ resourceNetboxDcimSite → sch.Required = true →
          p.field key = some (d.Get key)) ∧
      (∀ d : ResourceData, d.schema = resourceNetboxDcimSite → d.HasChange "tenant_id" = false →
        (resourceNetboxDcimSiteUpdateData d).isSome = true)) ∧
    ((∀ (d : ResourceData) (p : WritableCable), resourceNetboxDcimCableUpdateData d = some p →
        ∀ key sch, (key, sch) ∈ resourceNetboxDcimCable → sch.Required = true →
          p.field key = some (d.Get key)) ∧
      (∀ d : ResourceData, d.schema = resourceNetboxDcimCable →
        (resourceNetboxDcimCableUpdateData d).isSome = true)) ∧
    ((∀ (d : ResourceData) (p : WritableDeviceWithConfigContext), resourceNetboxDcimDeviceUpdateData
        d = some p →
        ∀ key sch, (key, sch) ∈ resourceNetboxDcimDevice → sch.Required = true →
          p.field key = some (d.Get key)) ∧
      (∀ d : ResourceData, d.schema = resourceNetboxDcimDevice →
        (resourceNetboxDcimDeviceUpdateData d).isSome = true)) ∧
    ((∀ (d : ResourceData) (p : WritableInterface), resourceNetboxDcimInterfaceUpdateData d = some p
        →
        ∀ key sch, (key, sch) ∈ resourceNetboxDcimInterface → sch.Required = true →
          p.field key = some (d.Get key)) ∧
      (∀ d : ResourceData, d.schema = resourceNetboxDcimInterface →
        (resourceNetboxDcimInterfaceUpdateData d).isSome = true)) ∧
    ((∀ (d : ResourceData) (p : WritableRack), resourceNetboxDcimRackUpdateData d = some p →
        ∀ key sch, (key, sch) ∈ resourceNetboxDcimRack → sch.Required = true →
          p.field key = some (d.Get key)) ∧
      (∀ d : ResourceData, d.schema = resourceNetboxDcimRack → d.HasChange "desc_units" = false →
        (resourceNetboxDcimRackUpdateData d).isSome = true)) ∧
    ((∀ (d : ResourceData) (p : WritableCluster), resourceNetboxVirtualizationClusterUpdateData d =
        some p →
        ∀ key sch, (key, sch) ∈ resourceNetboxVirtualizationCluster → sch.Required = true →
          p.field key = some (d.Get key)) ∧
      (∀ d : ResourceData, d.schema = resourceNetboxVirtualizationCluster →
        (resourceNetboxVirtualizationClusterUpdateData d).isSome = true)) :=
  ⟨⟨resourceNetboxDcimSiteUpdateData_required, resourceNetboxDcimSiteUpdateData_isSome⟩,
   ⟨resourceNetboxDcimCableUpdateData_required, resourceNetboxDcimCableUpdateData_isSome⟩,
   ⟨resourceNetboxDcimDeviceUpdateData_required, resourceNetboxDcimDeviceUpdateData_isSome⟩,
   ⟨resourceNetboxDcimInterfaceUpdateData_required, resourceNetboxDcimInterfaceUpdateData_isSome⟩,
   ⟨resourceNetboxDcimRackUpdateData_required, resourceNetboxDcimRackUpdateData_isSome⟩,
   ⟨resourceNetboxVirtualizationClusterUpdateData_required,
       resourceNetboxVirtualizationClusterUpdateData_isSome⟩⟩

/-- Witness of C9: the payload of a site carries the declared name. -/
theorem update_carries_required_fields_witness :
    resourceNetboxDcimSiteUpdateData exampleSiteData =
        some { Name := some "old", Slug := some "old" } ∧
      ({ Name := some "old", Slug := some "old" } : WritableSite).field "name" =
        some (exampleSiteData.Get "name") :=
  ⟨by decide,
   update_carries_required_fields.1.1 exampleSiteData
     { Name := some "old", Slug := some "old" } (by decide) "name"
     { ty := .TypeString, Required := true } (by decide) rfl⟩

/-- C10: for every resource kind, a payload built by Create carries the
declared value of every required field, and for an optional field that is not
set-valued it carries either nothing or the declared value, the latter only
when the declared value differs from the zero value of the field; and Create
does build a payload for all resource data of the kind. -/
theorem create_carries_required_and_nonzero_optional :
    ((∀ (d : ResourceData) (p : WritableSite), resourceNetboxDcimSiteCreateData d = some p →
        (∀ key sch, (key, sch) ∈ resourceNetboxDcimSite → sch.Required = true →
          p.field key = some (d.Get key)) ∧
        (∀ key sch, (key, sch) ∈ resourceNetboxDcimSite → sch.Required = false →
          sch.ty ≠ .TypeSetOfInt → sch.ty ≠ .TypeSetOfTag →
          p.field key = none ∨
            (p.field key = some (d.Get key) ∧ d.Get key ≠ zeroValue sch.ty))) ∧
      (∀ d : ResourceData, d.schema = resourceNetboxDcimSite →
        (resourceNetboxDcimSiteCreateData d).isSome = true)) ∧
    ((∀ (d : ResourceData) (p : WritableCable), resourceNetboxDcimCableCreateData d = some p →
        (∀ key sch, (key, sch) ∈ resourceNetboxDcimCable → sch.Required = true →
          p.field key = some (d.Get key)) ∧
        (∀ key sch, (key, sch) ∈ resourceNetboxDcimCable → sch.Required = false →
          sch.ty ≠ .TypeSetOfInt → sch.ty ≠ .TypeSetOfTag →
          p.field key = none ∨
            (p.field key = some (d.Get key) ∧ d.Get key ≠ zeroValue sch.ty))) ∧
      (∀ d : ResourceData, d.schema = resourceNetboxDcimCable →
        (resourceNetboxDcimCableCreateData d).isSome = true)) ∧
    ((∀ (d : ResourceData) (p : WritableDeviceWithConfigContext), resourceNetboxDcimDeviceCreateData
        d = some p →
        (∀ key sch, (key, sch) ∈ resourceNetboxDcimDevice → sch.Required = true →
          p.field key = some (d.Get key)) ∧
        (∀ key sch, (key, sch) ∈ resourceNetboxDcimDevice → sch.Required = false →
          sch.ty ≠ .TypeSetOfInt → sch.ty ≠ .TypeSetOfTag →
          p.field key = none ∨
            (p.field key = some (d.Get key) ∧ d.Get key ≠ zeroValue sch.ty))) ∧
      (∀ d : ResourceData, d.schema = resourceNetboxDcimDevice →
        (resourceNetboxDcimDeviceCreateData d).isSome = true)) ∧
    ((∀ (d : ResourceData) (p : WritableInterface), resourceNetboxDcimInterfaceCreateData d = some p
        →
        (∀ key sch, (key, sch) ∈ resourceNetboxDcimInterface → sch.Required = true →
          p.field key = some (d.Get key)) ∧
        (∀ key sch, (key, sch) ∈ resourceNetboxDcimInterface → sch.Required = false →
          sch.ty ≠ .TypeSetOfInt → sch.ty ≠ .TypeSetOfTag →
          p.field key = none ∨
            (p.field key = some (d.Get key) ∧ d.Get key ≠ zeroValue sch.ty))) ∧
      (∀ d : ResourceData, d.schema = resourceNetboxDcimInterface →
        (resourceNetboxDcimInterfaceCreateData d).isSome = true)) ∧
    ((∀ (d : ResourceData) (p : WritableRack), resourceNetboxDcimRackCreateData d = some p →
        (∀ key sch, (key, sch) ∈ resourceNetboxDcimRack → sch.Required = true →
          p.field key = some (d.Get key)) ∧
        (∀ key sch, (key, sch) ∈ resourceNetboxDcimRack → sch.Required = false →
          sch.ty ≠ .TypeSetOfInt → sch.ty ≠ .TypeSetOfTag →
          p.field key = none ∨
            (p.field key = some (d.Get key) ∧ d.Get key ≠ zeroValue sch.ty))) ∧
      (∀ d : ResourceData, d.schema = resourceNetboxDcimRack →
        (resourceNetboxDcimRackCreateData d).isSome = true)) ∧
    ((∀ (d : ResourceData) (p : WritableCluster), resourceNetboxVirtualizationClusterCreateData d =
        some p →
        (∀ key sch, (key, sch) ∈ resourceNetboxVirtualizationCluster → sch.Required = true →
          p.field key = some (d.Get key)) ∧
        (∀ key sch, (key, sch) ∈ resourceNetboxVirtualizationCluster → sch.Required = false →
          sch.ty ≠ .TypeSetOfInt → sch.ty ≠ .TypeSetOfTag →
          p.field key = none ∨
            (p.field key = some (d.Get key) ∧ d.Get key ≠ zeroValue sch.ty))) ∧
      (∀ d : ResourceData, d.schema = resourceNetboxVirtualizationCluster →
        (resourceNetboxVirtualizationClusterCreateData d).isSome = true)) :=
  ⟨⟨resourceNetboxDcimSiteCreateData_fields, resourceNetboxDcimSiteCreateData_isSome⟩,
   ⟨resourceNetboxDcimCableCreateData_fields, resourceNetboxDcimCableCreateData_isSome⟩,
   ⟨resourceNetboxDcimDeviceCreateData_fields, resourceNetboxDcimDeviceCreateData_isSome⟩,
   ⟨resourceNetboxDcimInterfaceCreateData_fields, resourceNetboxDcimInterfaceCreateData_isSome⟩,
   ⟨resourceNetboxDcimRackCreateData_fields, resourceNetboxDcimRackCreateData_isSome⟩,
   ⟨resourceNetboxVirtualizationClusterCreateData_fields,
       resourceNetboxVirtualizationClusterCreateData_isSome⟩⟩

/-- Witness of C10: a device declared with `cluster_id` 0 and an empty
`asset_tag`; the payload leaves `Cluster` and `AssetTag` unset. -/
theorem create_carries_required_and_nonzero_optional_witness :
    resourceNetboxDcimDeviceCreateData exampleDeviceData =
        some { DeviceRole := some 1, DeviceType := some 2, Site := some 3, Name := some "sw1" } ∧
      (({ DeviceRole := some 1, DeviceType := some 2, Site := some 3, Name := some "sw1" } :
          WritableDeviceWithConfigContext).field "cluster_id" = none ∨
        (({ DeviceRole := some 1, DeviceType := some 2, Site := some 3, Name := some "sw1" } :
            WritableDeviceWithConfigContext).field "cluster_id" =
            some (exampleDeviceData.Get "cluster_id") ∧
          exampleDeviceData.Get "cluster_id" ≠ zeroValue .TypeInt)) :=
  ⟨by decide,
   ((create_carries_required_and_nonzero_optional.2.2.1.1 exampleDeviceData
     { DeviceRole := some 1, DeviceType := some 2, Site := some 3, Name := some "sw1" }
     (by decide)).2 "cluster_id" { ty := .TypeInt, Optional := true } (by decide) rfl
     (by decide) (by decide))⟩

/-! ## Create, Update and Delete against a remote -/

theorem FormatInt_injective (a b : Int) (ha1 : -(2 ^ 63) ≤ a) (ha2 : a < 2 ^ 63)
    (hb1 : -(2 ^ 63) ≤ b) (hb2 : b < 2 ^ 63) (h : FormatInt a = FormatInt b) : a = b := by
  have h1 := ParseInt_FormatInt a ha1 ha2
  have h2 := ParseInt_FormatInt b hb1 hb2
  rw [h, h2] at h1
  exact (Option.some.inj h1).symm

theorem createWith_ok {σ α W : Type} (ID : α → Int) (data : ResourceData → Option W)
    (read : (String → Except Error (Page α)) → ResourceData → Outcome)
    (client : Client σ α W) (remote remote1 : σ) (d : ResourceData) (newResource : W)
    (resourceCreated : α) (hdata : data d = some newResource)
    (hcreate : client.Create remote newResource = (.ok resourceCreated, remote1)) :
    createWith ID data read client remote d =
      { outcome := read (client.List remote1) (d.SetId (FormatInt (ID resourceCreated))),
        remote := remote1,
        requests := [.create newResource, .list (FormatInt (ID resourceCreated))] } := by
  simp only [createWith, hdata, hcreate]

theorem createWith_error {σ α W : Type} (ID : α → Int) (data : ResourceData → Option W)
    (read : (String → Except Error (Page α)) → ResourceData → Outcome)
    (client : Client σ α W) (remote remote1 : σ) (d : ResourceData) (newResource : W)
    (err : Error) (hdata : data d = some newResource)
    (hcreate : client.Create remote newResource = (.error err, remote1)) :
    createWith ID data read client remote d =
      { outcome := .returned (some err) d, remote := remote1,
        requests := [.create newResource] } := by
  simp only [createWith, hdata, hcreate]

theorem updateWith_error {σ α W : Type} (data : ResourceData → Option W)
    (read : (String → Except Error (Page α)) → ResourceData → Outcome)
    (client : Client σ α W) (remote remote1 : σ) (d : ResourceData) (params : W)
    (resourceID : Int) (err : Error) (hdata : data d = some params)
    (hid : ParseInt d.Id = some resourceID)
    (hupdate : client.PartialUpdate remote resourceID params = (some err, remote1)) :
    updateWith data read client remote d =
      { outcome := .returned (some err) d, remote := remote1,
        requests := [.update resourceID params] } := by
  simp only [updateWith, hdata, hid, hupdate]

theorem updateWith_bad_identity {σ α W : Type} (data : ResourceData → Option W)
    (read : (String → Except Error (Page α)) → ResourceData → Outcome)
    (client : Client σ α W) (remote : σ) (d : ResourceData) (params : W)
    (hdata : data d = some params) (hid : ParseInt d.Id = none) :
    updateWith data read client remote d =
      { outcome := .returned (some .convertID) d, remote := remote, requests := [] } := by
  simp only [updateWith, hdata, hid]

theorem existsWith_present {α : Type} (ID : α → Int)
    (list : String → Except Error (Page α)) (d : ResourceData) (page : Page α)
    (hlist : list d.Id = .ok page) (hmatch : ∃ x ∈ page.Results, FormatInt (ID x) = d.Id) :
    existsWith ID list d = { b := true, e := none, d := d } := by
  have h := (existsScan_eq ID d page.Results false).2 (Or.inr hmatch)
  simp only [existsWith, hlist, h]

theorem existsWith_absent {α : Type} (ID : α → Int)
    (list : String → Except Error (Page α)) (d : ResourceData) (page : Page α)
    (hlist : list d.Id = .ok page) (hno : NoMatch ID d.Id page.Results) :
    existsWith ID list d = { b := false, e := none, d := d } := by
  have h : existsScan ID d page.Results false = false := by
    rw [Bool.eq_false_iff]
    intro hc
    rcases (existsScan_eq ID d page.Results false).1 hc with hc | ⟨x, hx, hm⟩
    · exact absurd hc (by simp)
    · exact hno x hx hm
  simp only [existsWith, hlist, h]

theorem existsWith_error {α : Type} (ID : α → Int)
    (list : String → Except Error (Page α)) (d : ResourceData) (err : Error)
    (hlist : list d.Id = .error err) :
    existsWith ID list d = { b := false, e := some err, d := d } := by
  simp only [existsWith, hlist]

theorem deleteWith_absent {σ α W : Type} (ID : α → Int)
    (client : Client σ α W) (remote : σ) (d : ResourceData) (page : Page α)
    (hlist : client.List remote d.Id = .ok page) (hno : NoMatch ID d.Id page.Results) :
    deleteWith (W := W) (existsWith ID) client remote d =
      { outcome := .returned none d, remote := remote, requests := [.list d.Id] } := by
  simp [deleteWith, existsWith_absent ID _ d page hlist hno]

theorem deleteWith_list_error {σ α W : Type} (ID : α → Int)
    (client : Client σ α W) (remote : σ) (d : ResourceData) (err : Error)
    (hlist : client.List remote d.Id = .error err) :
    deleteWith (W := W) (existsWith ID) client remote d =
      { outcome := .returned (some err) d, remote := remote, requests := [.list d.Id] } := by
  simp [deleteWith, existsWith_error ID _ d err hlist]

theorem deleteWith_ok {σ α W : Type} (ID : α → Int)
    (client : Client σ α W) (remote remote1 : σ) (d : ResourceData) (page : Page α) (id : Int)
    (hlist : client.List remote d.Id = .ok page)
    (hmatch : ∃ x ∈ page.Results, FormatInt (ID x) = d.Id)
    (hid : ParseInt d.Id = some id) (hdelete : client.Delete remote id = (none, remote1)) :
    deleteWith (W := W) (existsWith ID) client remote d =
      { outcome := .returned none d, remote := remote1,
        requests := [.list d.Id, .delete id] } := by
  simp [deleteWith, existsWith_present ID _ d page hlist hmatch, hid, hdelete]

theorem deleteWith_error {σ α W : Type} (ID : α → Int)
    (client : Client σ α W) (remote remote1 : σ) (d : ResourceData) (page : Page α) (id : Int)
    (err : Error)
    (hlist : client.List remote d.Id = .ok page)
    (hmatch : ∃ x ∈ page.Results, FormatInt (ID x) = d.Id)
    (hid : ParseInt d.Id = some id) (hdelete : client.Delete remote id = (some err, remote1)) :
    deleteWith (W := W) (existsWith ID) client remote d =
      { outcome := .returned (some err) d, remote := remote1,
        requests := [.list d.Id, .delete id] } := by
  simp [deleteWith, existsWith_present ID _ d page hlist hmatch, hid, hdelete]


theorem createWith_readWith {σ α W : Type} (ID : α → Int) (data : ResourceData → Option W)
    (body : α → List (String × Option Value))
    (client : Client σ α W) (remote remote1 : σ) (d : ResourceData) (newResource : W)
    (resourceCreated : α) (hdata : data d = some newResource)
    (hcreate : client.Create remote newResource = (.ok resourceCreated, remote1)) :
    createWith ID data (readWith ID body) client remote d =
        { outcome := readWith ID body (client.List remote1)
            (d.SetId (FormatInt (ID resourceCreated))),
          remote := remote1,
          requests := [.create newResource, .list (FormatInt (ID resourceCreated))] } ∧
      (∀ page resource, client.List remote1 (FormatInt (ID resourceCreated)) = .ok page →
        FirstMatch ID (FormatInt (ID resourceCreated)) page.Results resource →
        ∀ err d1, (createWith ID data (readWith ID body) client remote d).outcome =
            .returned err d1 →
          d1.Id = FormatInt (ID resourceCreated)) ∧
      (∀ page, client.List remote1 (FormatInt (ID resourceCreated)) = .ok page →
        NoMatch ID (FormatInt (ID resourceCreated)) page.Results →
        (createWith ID data (readWith ID body) client remote d).outcome =
          .returned none (d.SetId "")) := by
  have h := createWith_ok ID data (readWith ID body) client remote remote1 d newResource
    resourceCreated hdata hcreate
  refine ⟨h, ?_, ?_⟩
  · intro page resource hlist hfirst err d1 hout
    rw [h] at hout
    exact (readWith_firstMatch ID body (client.List remote1)
      (d.SetId (FormatInt (ID resourceCreated))) page resource hlist hfirst).2 err d1 hout
  · intro page hlist hno
    rw [h]
    exact readWith_noMatch ID body (client.List remote1)
      (d.SetId (FormatInt (ID resourceCreated))) page hlist hno

theorem deleteWith_twice {σ α W : Type} [DecidableEq W] (ID : α → Int)
    (client : Client σ α W) (remote remote1 : σ) (d : ResourceData)
    (page page1 : Page α) (resource : α)
    (hlist : client.List remote d.Id = .ok page) (hmem : resource ∈ page.Results)
    (hmatch : FormatInt (ID resource) = d.Id)
    (hlo : -(2 ^ 63) ≤ ID resource) (hhi : ID resource < 2 ^ 63)
    (hdelete : client.Delete remote (ID resource) = (none, remote1))
    (hlist1 : client.List remote1 d.Id = .ok page1)
    (hgone : ∀ x ∈ page1.Results, ID x ≠ ID resource ∧ -(2 ^ 63) ≤ ID x ∧ ID x < 2 ^ 63) :
    deleteWith (W := W) (existsWith ID) client remote d =
        { outcome := .returned none d, remote := remote1,
          requests := [.list d.Id, .delete (ID resource)] } ∧
      deleteWith (W := W) (existsWith ID) client remote1 d =
        { outcome := .returned none d, remote := remote1, requests := [.list d.Id] } ∧
      ((deleteWith (W := W) (existsWith ID) client remote d).requests ++
        (deleteWith (W := W) (existsWith ID) client remote1 d).requests).count
          (.delete (ID resource)) = 1 ∧
      ∀ id, Request.delete id ∈
          (deleteWith (W := W) (existsWith ID) client remote d).requests ++
            (deleteWith (W := W) (existsWith ID) client remote1 d).requests →
        id = ID resource := by
  have hid : ParseInt d.Id = some (ID resource) := by
    rw [← hmatch]; exact ParseInt_FormatInt _ hlo hhi
  have h1 := deleteWith_ok (W := W) ID client remote remote1 d page (ID resource) hlist
    ⟨resource, hmem, hmatch⟩ hid hdelete
  have hno : NoMatch ID d.Id page1.Results := by
    intro x hx hc
    obtain ⟨hne, hxlo, hxhi⟩ := hgone x hx
    exact hne (FormatInt_injective _ _ hxlo hxhi hlo hhi (hc.trans hmatch.symm))
  have h2 := deleteWith_absent (W := W) ID client remote1 d page1 hlist1 hno
  refine ⟨h1, h2, ?_, ?_⟩
  · rw [h1, h2]
    simp [List.count_cons]
  · intro id hmemr
    rw [h1, h2] at hmemr
    simpa using hmemr

theorem readWith_list_error {α : Type} (ID : α → Int) (body : α → List (String × Option Value))
    (list : String → Except Error (Page α)) (d : ResourceData) (err : Error)
    (hlist : list d.Id = .error err) :
    readWith ID body list d = .returned (some err) d := by
  simp only [readWith, hlist]

theorem firstPage_resolution {α : Type} (ID : α → Int)
    (body : α → List (String × Option Value))
    (listing : String → Int → Except Error (Page α)) (d : ResourceData) (page : Page α)
    (hlist : listing d.Id 0 = .ok page) :
    (∀ resource, FirstMatch ID d.Id page.Results resource →
        readWith ID body (firstPageOf listing) d = setEach (body resource) d ∧
          (existsWith ID (firstPageOf listing) d).b = true) ∧
      (NoMatch ID d.Id page.Results →
        readWith ID body (firstPageOf listing) d = .returned none (d.SetId "") ∧
          (existsWith ID (firstPageOf listing) d).b = false ∧
          (existsWith ID (firstPageOf listing) d).e = none) := by
  have hl : firstPageOf listing d.Id = .ok page := hlist
  constructor
  · intro resource hfirst
    refine ⟨(readWith_firstMatch ID body _ d page resource hl hfirst).1, ?_⟩
    obtain ⟨pre, post, hres, _, hm⟩ := hfirst
    rw [existsWith_present ID _ d page hl ⟨resource, by rw [hres]; simp, hm⟩]
  · intro hno
    refine ⟨readWith_noMatch ID body _ d page hl hno, ?_⟩
    rw [existsWith_absent ID _ d page hl hno]
    exact ⟨rfl, rfl⟩

/-- Counterexample to C13 as stated: the create request succeeds with the ID
42, the list request issued by Read shows no such record, and Create returns
nil with an empty identity. -/
theorem create_may_return_with_empty_identity :
    resourceNetboxDcimSiteCreate exampleUnlistedClient () exampleNewSiteData =
      { outcome := .returned none exampleNewSiteData, remote := (),
        requests := [.create { Name := some "dc1", Slug := some "dc1" }, .list "42"] } := by
  decide

/-- C13, as amended: for every resource kind, when the create request
succeeds with a record of ID `n`, Create stores the base 10 rendering of `n`
as the identity and ends as Read does on it, after the two requests create and
list; if the records listed contain one whose ID renders as that identity,
every return of Create leaves it as the identity; if they contain none, Create
returns nil with the identity cleared. -/
theorem create_stores_identity_then_reads :
    (∀ (σ : Type) (client : Client σ Site WritableSite) (remote remote1 : σ) (d : ResourceData)
        (newResource : WritableSite) (resourceCreated : Site),
        resourceNetboxDcimSiteCreateData d = some newResource →
        client.Create remote newResource = (.ok resourceCreated, remote1) →
        resourceNetboxDcimSiteCreate client remote d =
            { outcome := resourceNetboxDcimSiteRead (client.List remote1)
                (d.SetId (FormatInt resourceCreated.ID)),
              remote := remote1,
              requests := [.create newResource, .list (FormatInt resourceCreated.ID)] } ∧
          (∀ page resource, client.List remote1 (FormatInt resourceCreated.ID) = .ok page →
            FirstMatch Site.ID (FormatInt resourceCreated.ID) page.Results resource →
            ∀ err d1, (resourceNetboxDcimSiteCreate client remote d).outcome = .returned err d1 →
              d1.Id = FormatInt resourceCreated.ID) ∧
          (∀ page, client.List remote1 (FormatInt resourceCreated.ID) = .ok page →
            NoMatch Site.ID (FormatInt resourceCreated.ID) page.Results →
            (resourceNetboxDcimSiteCreate client remote d).outcome = .returned none (d.SetId ""))) ∧
    (∀ (σ : Type) (client : Client σ Cable WritableCable) (remote remote1 : σ) (d : ResourceData)
        (newResource : WritableCable) (resourceCreated : Cable),
        resourceNetboxDcimCableCreateData d = some newResource →
        client.Create remote newResource = (.ok resourceCreated, remote1) →
        resourceNetboxDcimCableCreate client remote d =
            { outcome := resourceNetboxDcimCableRead (client.List remote1)
                (d.SetId (FormatInt resourceCreated.ID)),
              remote := remote1,
              requests := [.create newResource, .list (FormatInt resourceCreated.ID)] } ∧
          (∀ page resource, client.List remote1 (FormatInt resourceCreated.ID) = .ok page →
            FirstMatch Cable.ID (FormatInt resourceCreated.ID) page.Results resource →
            ∀ err d1, (resourceNetboxDcimCableCreate client remote d).outcome = .returned err d1 →
              d1.Id = FormatInt resourceCreated.ID) ∧
          (∀ page, client.List remote1 (FormatInt resourceCreated.ID) = .ok page →
            NoMatch Cable.ID (FormatInt resourceCreated.ID) page.Results →
            (resourceNetboxDcimCableCreate client remote d).outcome = .returned none (d.SetId ""))) ∧
    (∀ (σ : Type) (client : Client σ Device WritableDeviceWithConfigContext) (remote remote1 : σ) (d : ResourceData)
        (newResource : WritableDeviceWithConfigContext) (resourceCreated : Device),
        resourceNetboxDcimDeviceCreateData d = some newResource →
        client.Create remote newResource = (.ok resourceCreated, remote1) →
        resourceNetboxDcimDeviceCreate client remote d =
            { outcome := resourceNetboxDcimDeviceRead (client.List remote1)
                (d.SetId (FormatInt resourceCreated.ID)),
              remote := remote1,
              requests := [.create newResource, .list (FormatInt resourceCreated.ID)] } ∧
          (∀ page resource, client.List remote1 (FormatInt resourceCreated.ID) = .ok page →
            FirstMatch Device.ID (FormatInt resourceCreated.ID) page.Results resource →
            ∀ err d1, (resourceNetboxDcimDeviceCreate client remote d).outcome = .returned err d1 →
              d1.Id = FormatInt resourceCreated.ID) ∧
          (∀ page, client.List remote1 (FormatInt resourceCreated.ID) = .ok page →
            NoMatch Device.ID (FormatInt resourceCreated.ID) page.Results →
            (resourceNetboxDcimDeviceCreate client remote d).outcome = .returned none (d.SetId ""))) ∧
    (∀ (σ : Type) (client : Client σ Interface WritableInterface) (remote remote1 : σ) (d : ResourceData)
        (newResource : WritableInterface) (resourceCreated : Interface),
        resourceNetboxDcimInterfaceCreateData d = some newResource →
        client.Create remote newResource = (.ok resourceCreated, remote1) →
        resourceNetboxDcimInterfaceCreate client remote d =
            { outcome := resourceNetboxDcimInterfaceRead (client.List remote1)
                (d.SetId (FormatInt resourceCreated.ID)),
              remote := remote1,
              requests := [.create newResource, .list (FormatInt resourceCreated.ID)] } ∧
          (∀ page resource, client.List remote1 (FormatInt resourceCreated.ID) = .ok page →
            FirstMatch Interface.ID (FormatInt resourceCreated.ID) page.Results resource →
            ∀ err d1, (resourceNetboxDcimInterfaceCreate client remote d).outcome = .returned err d1 →
              d1.Id = FormatInt resourceCreated.ID) ∧
          (∀ page, client.List remote1 (FormatInt resourceCreated.ID) = .ok page →
            NoMatch Interface.ID (FormatInt resourceCreated.ID) page.Results →
            (resourceNetboxDcimInterfaceCreate client remote d).outcome = .returned none (d.SetId ""))) ∧
    (∀ (σ : Type) (client : Client σ Rack WritableRack) (remote remote1 : σ) (d : ResourceData)
        (newResource : WritableRack) (resourceCreated : Rack),
        resourceNetboxDcimRackCreateData d = some newResource →
        client.Create remote newResource = (.ok resourceCreated, remote1) →
        resourceNetboxDcimRackCreate client remote d =
            { outcome := resourceNetboxDcimRackRead (client.List remote1)
                (d.SetId (FormatInt resourceCreated.ID)),
              remote := remote1,
              requests := [.create newResource, .list (FormatInt resourceCreated.ID)] } ∧
          (∀ page resource, client.List remote1 (FormatInt resourceCreated.ID) = .ok page →
            FirstMatch Rack.ID (FormatInt resourceCreated.ID) page.Results resource →
            ∀ err d1, (resourceNetboxDcimRackCreate client remote d).outcome = .returned err d1 →
              d1.Id = FormatInt resourceCreated.ID) ∧
          (∀ page, client.List remote1 (FormatInt resourceCreated.ID) = .ok page →
            NoMatch Rack.ID (FormatInt resourceCreated.ID) page.Results →
            (resourceNetboxDcimRackCreate client remote d).outcome = .returned none (d.SetId ""))) ∧
    (∀ (σ : Type) (client : Client σ Cluster WritableCluster) (remote remote1 : σ) (d : ResourceData)
        (newResource : WritableCluster) (resourceCreated : Cluster),
        resourceNetboxVirtualizationClusterCreateData d = some newResource →
        client.Create remote newResource = (.ok resourceCreated, remote1) →
        resourceNetboxVirtualizationClusterCreate client remote d =
            { outcome := resourceNetboxVirtualizationClusterRead (client.List remote1)
                (d.SetId (FormatInt resourceCreated.ID)),
              remote := remote1,
              requests := [.create newResource, .list (FormatInt resourceCreated.ID)] } ∧
          (∀ page resource, client.List remote1 (FormatInt resourceCreated.ID) = .ok page →
            FirstMatch Cluster.ID (FormatInt resourceCreated.ID) page.Results resource →
            ∀ err d1, (resourceNetboxVirtualizationClusterCreate client remote d).outcome = .returned err d1 →
              d1.Id = FormatInt resourceCreated.ID) ∧
          (∀ page, client.List remote1 (FormatInt resourceCreated.ID) = .ok page →
            NoMatch Cluster.ID (FormatInt resourceCreated.ID) page.Results →
            (resourceNetboxVirtualizationClusterCreate client remote d).outcome = .returned none (d.SetId ""))) := by
  refine ⟨?_, ?_, ?_, ?_, ?_, ?_⟩ <;>
    exact fun σ client remote remote1 d newResource resourceCreated hdata hcreate =>
      createWith_readWith _ _ _ client remote remote1 d newResource resourceCreated hdata
        hcreate

/-- Witness of C13 as amended: a site created in the in-memory remote. -/
theorem create_stores_identity_then_reads_witness :
    (resourceNetboxDcimSiteCreate exampleSiteClient [] exampleNewSiteData).requests =
        [.create { Name := some "dc1", Slug := some "dc1" }, .list (FormatInt 42)] ∧
      (resourceNetboxDcimSiteCreate exampleSiteClient [] exampleNewSiteData).outcome =
        resourceNetboxDcimSiteRead
          (exampleSiteClient.List
            [{ ID := 42, Name := some "dc1", Slug := some "dc1", Status := none,
               Tenant := none }])
          (exampleNewSiteData.SetId (FormatInt 42)) := by
  have h := (create_stores_identity_then_reads.1 (List Site) exampleSiteClient [] _
    exampleNewSiteData { Name := some "dc1", Slug := some "dc1" }
    { ID := 42, Name := some "dc1", Slug := some "dc1", Status := none, Tenant := none }
    (by decide) rfl).1
  rw [h]
  exact ⟨rfl, rfl⟩

/-- C14: for every resource kind, when the create request fails, Create
returns the error of the request, the create request is the only request it
issued (Read is not run), and the resource data, identity included, are
exactly as before. -/
theorem create_failure_leaves_state :
    (∀ (σ : Type) (client : Client σ Site WritableSite) (remote remote1 : σ) (d : ResourceData)
        (newResource : WritableSite) (err : Error),
        resourceNetboxDcimSiteCreateData d = some newResource →
        client.Create remote newResource = (.error err, remote1) →
        resourceNetboxDcimSiteCreate client remote d =
          { outcome := .returned (some err) d, remote := remote1,
            requests := [.create newResource] }) ∧
    (∀ (σ : Type) (client : Client σ Cable WritableCable) (remote remote1 : σ) (d : ResourceData)
        (newResource : WritableCable) (err : Error),
        resourceNetboxDcimCableCreateData d = some newResource →
        client.Create remote newResource = (.error err, remote1) →
        resourceNetboxDcimCableCreate client remote d =
          { outcome := .returned (some err) d, remote := remote1,
            requests := [.create newResource] }) ∧
    (∀ (σ : Type) (client : Client σ Device WritableDeviceWithConfigContext) (remote remote1 : σ) (d : ResourceData)
        (newResource : WritableDeviceWithConfigContext) (err : Error),
        resourceNetboxDcimDeviceCreateData d = some newResource →
        client.Create remote newResource = (.error err, remote1) →
        resourceNetboxDcimDeviceCreate client remote d =
          { outcome := .returned (some err) d, remote := remote1,
            requests := [.create newResource] }) ∧
    (∀ (σ : Type) (client : Client σ Interface WritableInterface) (remote remote1 : σ) (d : ResourceData)
        (newResource : WritableInterface) (err : Error),
        resourceNetboxDcimInterfaceCreateData d = some newResource →
        client.Create remote newResource = (.error err, remote1) →
        resourceNetboxDcimInterfaceCreate client remote d =
          { outcome := .returned (some err) d, remote := remote1,
            requests := [.create newResource] }) ∧
    (∀ (σ : Type) (client : Client σ Rack WritableRack) (remote remote1 : σ) (d : ResourceData)
        (newResource : WritableRack) (err : Error),
        resourceNetboxDcimRackCreateData d = some newResource →
        client.Create remote newResource = (.error err, remote1) →
        resourceNetboxDcimRackCreate client remote d =
          { outcome := .returned (some err) d, remote := remote1,
            requests := [.create newResource] }) ∧
    (∀ (σ : Type) (client : Client σ Cluster WritableCluster) (remote remote1 : σ) (d : ResourceData)
        (newResource : WritableCluster) (err : Error),
        resourceNetboxVirtualizationClusterCreateData d = some newResource →
        client.Create remote newResource = (.error err, remote1) →
        resourceNetboxVirtualizationClusterCreate client remote d =
          { outcome := .returned (some err) d, remote := remote1,
            requests := [.create newResource] }) := by
  refine ⟨?_, ?_, ?_, ?_, ?_, ?_⟩ <;>
    exact fun σ client remote remote1 d newResource err hdata hcreate =>
      createWith_error _ _ _ client remote remote1 d newResource err hdata hcreate

/-- Witness of C14: the remote rejects the create request of a site. -/
theorem create_failure_leaves_state_witness :
    resourceNetboxDcimSiteCreate exampleRejectingClient [] exampleNewSiteData =
      { outcome := .returned (some (.api "400 Bad Request")) exampleNewSiteData,
        remote := [],
        requests := [.create { Name := some "dc1", Slug := some "dc1" }] } :=
  create_failure_leaves_state.1 (List Site) exampleRejectingClient [] [] exampleNewSiteData
    { Name := some "dc1", Slug := some "dc1" } (.api "400 Bad Request") (by decide) rfl

/-- C15: for every resource kind, when the partial-update request fails,
Update returns the error of the request, has issued no other request (Read is
not run) and leaves the resource data, identity included, exactly as before;
and when the delete request fails, Delete returns the error of the request and
leaves the resource data exactly as before. -/
theorem update_and_delete_failure_leave_state :
    ((∀ (σ : Type) (client : Client σ Site WritableSite) (remote remote1 : σ) (d : ResourceData)
        (params : WritableSite) (resourceID : Int) (err : Error),
        resourceNetboxDcimSiteUpdateData d = some params → ParseInt d.Id = some resourceID →
        client.PartialUpdate remote resourceID params = (some err, remote1) →
        resourceNetboxDcimSiteUpdate client remote d =
          { outcome := .returned (some err) d, remote := remote1,
            requests := [.update resourceID params] }) ∧
      (∀ (σ : Type) (client : Client σ Site WritableSite) (remote remote1 : σ) (d : ResourceData)
        (page : Page Site) (id : Int) (err : Error),
        client.List remote d.Id = .ok page →
        (∃ x ∈ page.Results, FormatInt x.ID = d.Id) → ParseInt d.Id = some id →
        client.Delete remote id = (some err, remote1) →
        resourceNetboxDcimSiteDelete client remote d =
          { outcome := .returned (some err) d, remote := remote1,
            requests := [.list d.Id, .delete id] })) ∧
    ((∀ (σ : Type) (client : Client σ Cable WritableCable) (remote remote1 : σ) (d : ResourceData)
        (params : WritableCable) (resourceID : Int) (err : Error),
        resourceNetboxDcimCableUpdateData d = some params → ParseInt d.Id = some resourceID →
        client.PartialUpdate remote resourceID params = (some err, remote1) →
        resourceNetboxDcimCableUpdate client remote d =
          { outcome := .returned (some err) d, remote := remote1,
            requests := [.update resourceID params] }) ∧
      (∀ (σ : Type) (client : Client σ Cable WritableCable) (remote remote1 : σ) (d : ResourceData)
        (page : Page Cable) (id : Int) (err : Error),
        client.List remote d.Id = .ok page →
        (∃ x ∈ page.Results, FormatInt x.ID = d.Id) → ParseInt d.Id = some id →
        client.Delete remote id = (some err, remote1) →
        resourceNetboxDcimCableDelete client remote d =
          { outcome := .returned (some err) d, remote := remote1,
            requests := [.list d.Id, .delete id] })) ∧
    ((∀ (σ : Type) (client : Client σ Device WritableDeviceWithConfigContext) (remote remote1 : σ) (d : ResourceData)
        (params : WritableDeviceWithConfigContext) (resourceID : Int) (err : Error),
        resourceNetboxDcimDeviceUpdateData d = some params → ParseInt d.Id = some resourceID →
        client.PartialUpdate remote resourceID params = (some err, remote1) →
        resourceNetboxDcimDeviceUpdate client remote d =
          { outcome := .returned (some err) d, remote := remote1,
            requests := [.update resourceID params] }) ∧
      (∀ (σ : Type) (client : Client σ Device WritableDeviceWithConfigContext) (remote remote1 : σ) (d : ResourceData)
        (page : Page Device) (id : Int) (err : Error),
        client.List remote d.Id = .ok page →
        (∃ x ∈ page.Results, FormatInt x.ID = d.Id) → ParseInt d.Id = some id →
        client.Delete remote id = (some err, remote1) →
        resourceNetboxDcimDeviceDelete client remote d =
          { outcome := .returned (some err) d, remote := remote1,
            requests := [.list d.Id, .delete id] })) ∧
    ((∀ (σ : Type) (client : Client σ Interface WritableInterface) (remote remote1 : σ) (d : ResourceData)
        (params : WritableInterface) (resourceID : Int) (err : Error),
        resourceNetboxDcimInterfaceUpdateData d = some params → ParseInt d.Id = some resourceID →
        client.PartialUpdate remote resourceID params = (some err, remote1) →
        resourceNetboxDcimInterfaceUpdate client remote d =
          { outcome := .returned (some err) d, remote := remote1,
            requests := [.update resourceID params] }) ∧
      (∀ (σ : Type) (client : Client σ Interface WritableInterface) (remote remote1 : σ) (d : ResourceData)
        (page : Page Interface) (id : Int) (err : Error),
        client.List remote d.Id = .ok page →
        (∃ x ∈ page.Results, FormatInt x.ID = d.Id) → ParseInt d.Id = some id →
        client.Delete remote id = (some err, remote1) →
        resourceNetboxDcimInterfaceDelete client remote d =
          { outcome := .returned (some err) d, remote := remote1,
            requests := [.list d.Id, .delete id] })) ∧
    ((∀ (σ : Type) (client : Client σ Rack WritableRack) (remote remote1 : σ) (d : ResourceData)
        (params : WritableRack) (resourceID : Int) (err : Error),
        resourceNetboxDcimRackUpdateData d = some params → ParseInt d.Id = some resourceID →
        client.PartialUpdate remote resourceID params = (some err, remote1) →
        resourceNetboxDcimRackUpdate client remote d =
          { outcome := .returned (some err) d, remote := remote1,
            requests := [.update resourceID params] }) ∧
      (∀ (σ : Type) (client : Client σ Rack WritableRack) (remote remote1 : σ) (d : ResourceData)
        (page : Page Rack) (id : Int) (err : Error),
        client.List remote d.Id = .ok page →
        (∃ x ∈ page.Results, FormatInt x.ID = d.Id) → ParseInt d.Id = some id →
        client.Delete remote id = (some err, remote1) →
        resourceNetboxDcimRackDelete client remote d =
          { outcome := .returned (some err) d, remote := remote1,
            requests := [.list d.Id, .delete id] })) ∧
    ((∀ (σ : Type) (client : Client σ Cluster WritableCluster) (remote remote1 : σ) (d : ResourceData)
        (params : WritableCluster) (resourceID : Int) (err : Error),
        resourceNetboxVirtualizationClusterUpdateData d = some params → ParseInt d.Id = some resourceID →
        client.PartialUpdate remote resourceID params = (some err, remote1) →
        resourceNetboxVirtualizationClusterUpdate client remote d =
          { outcome := .returned (some err) d, remote := remote1,
            requests := [.update resourceID params] }) ∧
      (∀ (σ : Type) (client : Client σ Cluster WritableCluster) (remote remote1 : σ) (d : ResourceData)
        (page : Page Cluster) (id : Int) (err : Error),
        client.List remote d.Id = .ok page →
        (∃ x ∈ page.Results, FormatInt x.ID = d.Id) → ParseInt d.Id = some id →
        client.Delete remote id = (some err, remote1) →
        resourceNetboxVirtualizationClusterDelete client remote d =
          { outcome := .returned (some err) d, remote := remote1,
            requests := [.list d.Id, .delete id] })) := by
  refine ⟨⟨?_, ?_⟩, ⟨?_, ?_⟩, ⟨?_, ?_⟩, ⟨?_, ?_⟩, ⟨?_, ?_⟩, ⟨?_, ?_⟩⟩
  all_goals first
    | exact fun σ client remote remote1 d params resourceID err hdata hid hupdate =>
        updateWith_error _ _ client remote remote1 d params resourceID err hdata hid hupdate
    | exact fun σ client remote remote1 d page id err hlist hmatch hid hdelete =>
        deleteWith_error _ client remote remote1 d page id err hlist hmatch hid hdelete

/-- Witness of C15: the remote rejects the partial update of the site 42. -/
theorem update_and_delete_failure_leave_state_witness :
    resourceNetboxDcimSiteUpdate exampleRejectingClient [exampleSite 42 "b"] exampleSiteData =
      { outcome := .returned (some (.api "400 Bad Request")) exampleSiteData,
        remote := [exampleSite 42 "b"],
        requests := [.update 42 { Name := some "old", Slug := some "old" }] } :=
  update_and_delete_failure_leave_state.1.1 (List Site) exampleRejectingClient
    [exampleSite 42 "b"] [exampleSite 42 "b"] exampleSiteData
    { Name := some "old", Slug := some "old" } 42 (.api "400 Bad Request") (by decide)
    (by decide) rfl

/-- C17: for every resource kind, Delete lists first and, when no record
listed matches the identity, returns nil after that single list request; and
when the resource is listed, its ID fits 64 bits, the delete request succeeds
and the remote then no longer lists a record with that ID, a first Delete
issues the list and the delete request and returns nil, a second Delete
returns nil after a list request alone: the two calls make exactly one delete
request. -/
theorem delete_rechecks_existence :
    ((∀ (σ : Type) (client : Client σ Site WritableSite) (remote : σ) (d : ResourceData)
        (page : Page Site),
        client.List remote d.Id = .ok page → NoMatch Site.ID d.Id page.Results →
        resourceNetboxDcimSiteDelete client remote d =
          { outcome := .returned none d, remote := remote, requests := [.list d.Id] }) ∧
      (∀ (σ : Type) (client : Client σ Site WritableSite) (remote remote1 : σ) (d : ResourceData)
        (page page1 : Page Site) (resource : Site),
        client.List remote d.Id = .ok page → resource ∈ page.Results →
        FormatInt resource.ID = d.Id →
        -(2 ^ 63) ≤ resource.ID → resource.ID < 2 ^ 63 →
        client.Delete remote resource.ID = (none, remote1) →
        client.List remote1 d.Id = .ok page1 →
        (∀ x ∈ page1.Results, x.ID ≠ resource.ID ∧ -(2 ^ 63) ≤ x.ID ∧ x.ID < 2 ^ 63) →
        resourceNetboxDcimSiteDelete client remote d =
            { outcome := .returned none d, remote := remote1,
              requests := [.list d.Id, .delete resource.ID] } ∧
          resourceNetboxDcimSiteDelete client remote1 d =
            { outcome := .returned none d, remote := remote1, requests := [.list d.Id] } ∧
          ((resourceNetboxDcimSiteDelete client remote d).requests ++
            (resourceNetboxDcimSiteDelete client remote1 d).requests).count (.delete resource.ID) = 1 ∧
          ∀ id, Request.delete id ∈ (resourceNetboxDcimSiteDelete client remote d).requests ++
            (resourceNetboxDcimSiteDelete client remote1 d).requests → id = resource.ID)) ∧
    ((∀ (σ : Type) (client : Client σ Cable WritableCable) (remote : σ) (d : ResourceData)
        (page : Page Cable),
        client.List remote d.Id = .ok page → NoMatch Cable.ID d.Id page.Results →
        resourceNetboxDcimCableDelete client remote d =
          { outcome := .returned none d, remote := remote, requests := [.list d.Id] }) ∧
      (∀ (σ : Type) (client : Client σ Cable WritableCable) (remote remote1 : σ) (d : ResourceData)
        (page page1 : Page Cable) (resource : Cable),
        client.List remote d.Id = .ok page → resource ∈ page.Results →
        FormatInt resource.ID = d.Id →
        -(2 ^ 63) ≤ resource.ID → resource.ID < 2 ^ 63 →
        client.Delete remote resource.ID = (none, remote1) →
        client.List remote1 d.Id = .ok page1 →
        (∀ x ∈ page1.Results, x.ID ≠ resource.ID ∧ -(2 ^ 63) ≤ x.ID ∧ x.ID < 2 ^ 63) →
        resourceNetboxDcimCableDelete client remote d =
            { outcome := .returned none d, remote := remote1,
              requests := [.list d.Id, .delete resource.ID] } ∧
          resourceNetboxDcimCableDelete client remote1 d =
            { outcome := .returned none d, remote := remote1, requests := [.list d.Id] } ∧
          ((resourceNetboxDcimCableDelete client remote d).requests ++
            (resourceNetboxDcimCableDelete client remote1 d).requests).count (.delete resource.ID) = 1 ∧
          ∀ id, Request.delete id ∈ (resourceNetboxDcimCableDelete client remote d).requests ++
            (resourceNetboxDcimCableDelete client remote1 d).requests → id = resource.ID)) ∧
    ((∀ (σ : Type) (client : Client σ Device WritableDeviceWithConfigContext) (remote : σ) (d : ResourceData)
        (page : Page Device),
        client.List remote d.Id = .ok page → NoMatch Device.ID d.Id page.Results →
        resourceNetboxDcimDeviceDelete client remote d =
          { outcome := .returned none d, remote := remote, requests := [.list d.Id] }) ∧
      (∀ (σ : Type) (client : Client σ Device WritableDeviceWithConfigContext) (remote remote1 : σ) (d : ResourceData)
        (page page1 : Page Device) (resource : Device),
        client.List remote d.Id = .ok page → resource ∈ page.Results →
        FormatInt resource.ID = d.Id →
        -(2 ^ 63) ≤ resource.ID → resource.ID < 2 ^ 63 →
        client.Delete remote resource.ID = (none, remote1) →
        client.List remote1 d.Id = .ok page1 →
        (∀ x ∈ page1.Results, x.ID ≠ resource.ID ∧ -(2 ^ 63) ≤ x.ID ∧ x.ID < 2 ^ 63) →
        resourceNetboxDcimDeviceDelete client remote d =
            { outcome := .returned none d, remote := remote1,
              requests := [.list d.Id, .delete resource.ID] } ∧
          resourceNetboxDcimDeviceDelete client remote1 d =
            { outcome := .returned none d, remote := remote1, requests := [.list d.Id] } ∧
          ((resourceNetboxDcimDeviceDelete client remote d).requests ++
            (resourceNetboxDcimDeviceDelete client remote1 d).requests).count (.delete resource.ID) = 1 ∧
          ∀ id, Request.delete id ∈ (resourceNetboxDcimDeviceDelete client remote d).requests ++
            (resourceNetboxDcimDeviceDelete client remote1 d).requests → id = resource.ID)) ∧
    ((∀ (σ : Type) (client : Client σ Interface WritableInterface) (remote : σ) (d : ResourceData)
        (page : Page Interface),
        client.List remote d.Id = .ok page → NoMatch Interface.ID d.Id page.Results →
        resourceNetboxDcimInterfaceDelete client remote d =
          { outcome := .returned none d, remote := remote, requests := [.list d.Id] }) ∧
      (∀ (σ : Type) (client : Client σ Interface WritableInterface) (remote remote1 : σ) (d : ResourceData)
        (page page1 : Page Interface) (resource : Interface),
        client.List remote d.Id = .ok page → resource ∈ page.Results →
        FormatInt resource.ID = d.Id →
        -(2 ^ 63) ≤ resource.ID → resource.ID < 2 ^ 63 →
        client.Delete remote resource.ID = (none, remote1) →
        client.List remote1 d.Id = .ok page1 →
        (∀ x ∈ page1.Results, x.ID ≠ resource.ID ∧ -(2 ^ 63) ≤ x.ID ∧ x.ID < 2 ^ 63) →
        resourceNetboxDcimInterfaceDelete client remote d =
            { outcome := .returned none d, remote := remote1,
              requests := [.list d.Id, .delete resource.ID] } ∧
          resourceNetboxDcimInterfaceDelete client remote1 d =
            { outcome := .returned none d, remote := remote1, requests := [.list d.Id] } ∧
          ((resourceNetboxDcimInterfaceDelete client remote d).requests ++
            (resourceNetboxDcimInterfaceDelete client remote1 d).requests).count (.delete resource.ID) = 1 ∧
          ∀ id, Request.delete id ∈ (resourceNetboxDcimInterfaceDelete client remote d).requests ++
            (resourceNetboxDcimInterfaceDelete client remote1 d).requests → id = resource.ID)) ∧
    ((∀ (σ : Type) (client : Client σ Rack WritableRack) (remote : σ) (d : ResourceData)
        (page : Page Rack),
        client.List remote d.Id = .ok page → NoMatch Rack.ID d.Id page.Results →
        resourceNetboxDcimRackDelete client remote d =
          { outcome := .returned none d, remote := remote, requests := [.list d.Id] }) ∧
      (∀ (σ : Type) (client : Client σ Rack WritableRack) (remote remote1 : σ) (d : ResourceData)
        (page page1 : Page Rack) (resource : Rack),
        client.List remote d.Id = .ok page → resource ∈ page.Results →
        FormatInt resource.ID = d.Id →
        -(2 ^ 63) ≤ resource.ID → resource.ID < 2 ^ 63 →
        client.Delete remote resource.ID = (none, remote1) →
        client.List remote1 d.Id = .ok page1 →
        (∀ x ∈ page1.Results, x.ID ≠ resource.ID ∧ -(2 ^ 63) ≤ x.ID ∧ x.ID < 2 ^ 63) →
        resourceNetboxDcimRackDelete client remote d =
            { outcome := .returned none d, remote := remote1,
              requests := [.list d.Id, .delete resource.ID] } ∧
          resourceNetboxDcimRackDelete client remote1 d =
            { outcome := .returned none d, remote := remote1, requests := [.list d.Id] } ∧
          ((resourceNetboxDcimRackDelete client remote d).requests ++
            (resourceNetboxDcimRackDelete client remote1 d).requests).count (.delete resource.ID) = 1 ∧
          ∀ id, Request.delete id ∈ (resourceNetboxDcimRackDelete client remote d).requests ++
            (resourceNetboxDcimRackDelete client remote1 d).requests → id = resource.ID)) ∧
    ((∀ (σ : Type) (client : Client σ Cluster WritableCluster) (remote : σ) (d : ResourceData)
        (page : Page Cluster),
        client.List remote d.Id = .ok page → NoMatch Cluster.ID d.Id page.Results →
        resourceNetboxVirtualizationClusterDelete client remote d =
          { outcome := .returned none d, remote := remote, requests := [.list d.Id] }) ∧
      (∀ (σ : Type) (client : Client σ Cluster WritableCluster) (remote remote1 : σ) (d : ResourceData)
        (page page1 : Page Cluster) (resource : Cluster),
        client.List remote d.Id = .ok page → resource ∈ page.Results →
        FormatInt resource.ID = d.Id →
        -(2 ^ 63) ≤ resource.ID → resource.ID < 2 ^ 63 →
        client.Delete remote resource.ID = (none, remote1) →
        client.List remote1 d.Id = .ok page1 →
        (∀ x ∈ page1.Results, x.ID ≠ resource.ID ∧ -(2 ^ 63) ≤ x.ID ∧ x.ID < 2 ^ 63) →
        resourceNetboxVirtualizationClusterDelete client remote d =
            { outcome := .returned none d, remote := remote1,
              requests := [.list d.Id, .delete resource.ID] } ∧
          resourceNetboxVirtualizationClusterDelete client remote1 d =
            { outcome := .returned none d, remote := remote1, requests := [.list d.Id] } ∧
          ((resourceNetboxVirtualizationClusterDelete client remote d).requests ++
            (resourceNetboxVirtualizationClusterDelete client remote1 d).requests).count (.delete resource.ID) = 1 ∧
          ∀ id, Request.delete id ∈ (resourceNetboxVirtualizationClusterDelete client remote d).requests ++
            (resourceNetboxVirtualizationClusterDelete client remote1 d).requests → id = resource.ID)) := by
  refine ⟨⟨?_, ?_⟩, ⟨?_, ?_⟩, ⟨?_, ?_⟩, ⟨?_, ?_⟩, ⟨?_, ?_⟩, ⟨?_, ?_⟩⟩
  all_goals first
    | exact fun σ client remote d page hlist hno =>
        deleteWith_absent _ client remote d page hlist hno
    | exact fun σ client remote remote1 d page page1 resource hlist hmem hmatch hlo hhi
          hdelete hlist1 hgone =>
        deleteWith_twice _ client remote remote1 d page page1 resource hlist hmem hmatch hlo
          hhi hdelete hlist1 hgone

/-- Witness of C17: the site 42 is deleted twice from the in-memory remote. -/
theorem delete_rechecks_existence_witness :
    resourceNetboxDcimSiteDelete exampleSiteClient [exampleSite 41 "a", exampleSite 42 "b"]
          exampleSiteData =
        { outcome := .returned none exampleSiteData, remote := [exampleSite 41 "a"],
          requests := [.list "42", .delete 42] } ∧
      resourceNetboxDcimSiteDelete exampleSiteClient [exampleSite 41 "a"] exampleSiteData =
        { outcome := .returned none exampleSiteData, remote := [exampleSite 41 "a"],
          requests := [.list "42"] } := by
  have h := delete_rechecks_existence.1.2 (List Site) exampleSiteClient
    [exampleSite 41 "a", exampleSite 42 "b"] [exampleSite 41 "a"] exampleSiteData
    { Results := [exampleSite 42 "b"] } { Results := [] } (exampleSite 42 "b")
    rfl (by simp) (by decide) (by decide) (by decide) rfl rfl
    (by simp)
  exact ⟨h.1, h.2.1⟩

/-- Counterexample to C18 as stated: the site 42 is present, the delete
request succeeds, and Delete returns with the identity still `"42"`. -/
theorem delete_returns_with_identity_in_place :
    resourceNetboxDcimSiteDelete exampleSiteClient [exampleSite 42 "b"] exampleSiteData =
        { outcome := .returned none exampleSiteData, remote := [],
          requests := [.list "42", .delete 42] } ∧
      exampleSiteData.Id = "42" := by
  decide

/-- C18, as amended: for every resource kind, when Delete finds the resource
listed and the delete request succeeds, Delete returns nil and leaves the
resource data, identity included, exactly as before: the function itself
never clears the identity. -/
theorem delete_success_keeps_identity :
    (∀ (σ : Type) (client : Client σ Site WritableSite) (remote remote1 : σ) (d : ResourceData)
        (page : Page Site) (id : Int),
        client.List remote d.Id = .ok page →
        (∃ x ∈ page.Results, FormatInt x.ID = d.Id) → ParseInt d.Id = some id →
        client.Delete remote id = (none, remote1) →
        resourceNetboxDcimSiteDelete client remote d =
          { outcome := .returned none d, remote := remote1,
            requests := [.list d.Id, .delete id] }) ∧
    (∀ (σ : Type) (client : Client σ Cable WritableCable) (remote remote1 : σ) (d : ResourceData)
        (page : Page Cable) (id : Int),
        client.List remote d.Id = .ok page →
        (∃ x ∈ page.Results, FormatInt x.ID = d.Id) → ParseInt d.Id = some id →
        client.Delete remote id = (none, remote1) →
        resourceNetboxDcimCableDelete client remote d =
          { outcome := .returned none d, remote := remote1,
            requests := [.list d.Id, .delete id] }) ∧
    (∀ (σ : Type) (client : Client σ Device WritableDeviceWithConfigContext) (remote remote1 : σ) (d : ResourceData)
        (page : Page Device) (id : Int),
        client.List remote d.Id = .ok page →
        (∃ x ∈ page.Results, FormatInt x.ID = d.Id) → ParseInt d.Id = some id →
        client.Delete remote id = (none, remote1) →
        resourceNetboxDcimDeviceDelete client remote d =
          { outcome := .returned none d, remote := remote1,
            requests := [.list d.Id, .delete id] }) ∧
    (∀ (σ : Type) (client : Client σ Interface WritableInterface) (remote remote1 : σ) (d : ResourceData)
        (page : Page Interface) (id : Int),
        client.List remote d.Id = .ok page →
        (∃ x ∈ page.Results, FormatInt x.ID = d.Id) → ParseInt d.Id = some id →
        client.Delete remote id = (none, remote1) →
        resourceNetboxDcimInterfaceDelete client remote d =
          { outcome := .returned none d, remote := remote1,
            requests := [.list d.Id, .delete id] }) ∧
    (∀ (σ : Type) (client : Client σ Rack WritableRack) (remote remote1 : σ) (d : ResourceData)
        (page : Page Rack) (id : Int),
        client.List remote d.Id = .ok page →
        (∃ x ∈ page.Results, FormatInt x.ID = d.Id) → ParseInt d.Id = some id →
        client.Delete remote id = (none, remote1) →
        resourceNetboxDcimRackDelete client remote d =
          { outcome := .returned none d, remote := remote1,
            requests := [.list d.Id, .delete id] }) ∧
    (∀ (σ : Type) (client : Client σ Cluster WritableCluster) (remote remote1 : σ) (d : ResourceData)
        (page : Page Cluster) (id : Int),
        client.List remote d.Id = .ok page →
        (∃ x ∈ page.Results, FormatInt x.ID = d.Id) → ParseInt d.Id = some id →
        client.Delete remote id = (none, remote1) →
        resourceNetboxVirtualizationClusterDelete client remote d =
          { outcome := .returned none d, remote := remote1,
            requests := [.list d.Id, .delete id] }) := by
  refine ⟨?_, ?_, ?_, ?_, ?_, ?_⟩ <;>
    exact fun σ client remote remote1 d page id hlist hmatch hid hdelete =>
      deleteWith_ok _ client remote remote1 d page id hlist hmatch hid hdelete

/-- Witness of C18 as amended: the site 42 deleted from the in-memory remote. -/
theorem delete_success_keeps_identity_witness :
    resourceNetboxDcimSiteDelete exampleSiteClient [exampleSite 42 "b"] exampleSiteData =
      { outcome := .returned none exampleSiteData, remote := [],
        requests := [.list exampleSiteData.Id, .delete 42] } :=
  delete_success_keeps_identity.1 (List Site) exampleSiteClient [exampleSite 42 "b"] []
    exampleSiteData { Results := [exampleSite 42 "b"] } 42 rfl
    ⟨exampleSite 42 "b", by simp, by decide⟩ (by decide) rfl

/-- Counterexample to C19 as stated: the listing filtered by `"42"` serves the
site 41 on its first page and the site 42 on the page its next pointer leads
to; Read clears the identity and Exists returns false. -/
theorem read_ignores_later_pages :
    Visits (exampleTwoPageListing "42") 0
        [(0, { Results := [exampleSite 41 "a"],
               Next := some (.parsed [("offset", ["1"])]) })] 1 ∧
      exampleTwoPageListing "42" 1 = .ok { Results := [exampleSite 42 "b"] } ∧
      FormatInt (exampleSite 42 "b").ID = exampleSiteData.Id ∧
      resourceNetboxDcimSiteRead (firstPageOf exampleTwoPageListing) exampleSiteData =
        .returned none { exampleSiteData with id := "" } ∧
      resourceNetboxDcimSiteExists (firstPageOf exampleTwoPageListing) exampleSiteData =
        { b := false, e := none, d := exampleSiteData } := by
  refine ⟨⟨rfl, rfl, 1, by decide, rfl⟩, rfl, by decide, by decide, by decide⟩

/-- C19, as amended: for every resource kind, Read and Exists resolve the
identity against the records of the one response to their list request, the
first page of the listing: when a record matching the identity is among them,
Read projects the first such record and Exists returns true; when none is,
Read clears the identity and Exists returns `(false, nil)`, whatever the next
pointer of that page leads to. -/
theorem read_and_exists_resolve_on_first_page :
    (∀ (listing : String → Int → Except Error (Page Site)) (d : ResourceData)
        (page : Page Site),
        listing d.Id 0 = .ok page →
        ((∀ resource, FirstMatch Site.ID d.Id page.Results resource →
            resourceNetboxDcimSiteRead (firstPageOf listing) d =
                setEach (resourceNetboxDcimSiteReadBody resource) d ∧
              (resourceNetboxDcimSiteExists (firstPageOf listing) d).b = true) ∧
          (NoMatch Site.ID d.Id page.Results →
            resourceNetboxDcimSiteRead (firstPageOf listing) d = .returned none (d.SetId "") ∧
              (resourceNetboxDcimSiteExists (firstPageOf listing) d).b = false ∧
              (resourceNetboxDcimSiteExists (firstPageOf listing) d).e = none))) ∧
    (∀ (listing : String → Int → Except Error (Page Cable)) (d : ResourceData)
        (page : Page Cable),
        listing d.Id 0 = .ok page →
        ((∀ resource, FirstMatch Cable.ID d.Id page.Results resource →
            resourceNetboxDcimCableRead (firstPageOf listing) d =
                setEach (resourceNetboxDcimCableReadBody resource) d ∧
              (resourceNetboxDcimCableExists (firstPageOf listing) d).b = true) ∧
          (NoMatch Cable.ID d.Id page.Results →
            resourceNetboxDcimCableRead (firstPageOf listing) d = .returned none (d.SetId "") ∧
              (resourceNetboxDcimCableExists (firstPageOf listing) d).b = false ∧
              (resourceNetboxDcimCableExists (firstPageOf listing) d).e = none))) ∧
    (∀ (listing : String → Int → Except Error (Page Device)) (d : ResourceData)
        (page : Page Device),
        listing d.Id 0 = .ok page →
        ((∀ resource, FirstMatch Device.ID d.Id page.Results resource →
            resourceNetboxDcimDeviceRead (firstPageOf listing) d =
                setEach (resourceNetboxDcimDeviceReadBody resource) d ∧
              (resourceNetboxDcimDeviceExists (firstPageOf listing) d).b = true) ∧
          (NoMatch Device.ID d.Id page.Results →
            resourceNetboxDcimDeviceRead (firstPageOf listing) d = .returned none (d.SetId "") ∧
              (resourceNetboxDcimDeviceExists (firstPageOf listing) d).b = false ∧
              (resourceNetboxDcimDeviceExists (firstPageOf listing) d).e = none))) ∧
    (∀ (listing : String → Int → Except Error (Page Interface)) (d : ResourceData)
        (page : Page Interface),
        listing d.Id 0 = .ok page →
        ((∀ resource, FirstMatch Interface.ID d.Id page.Results resource →
            resourceNetboxDcimInterfaceRead (firstPageOf listing) d =
                setEach (resourceNetboxDcimInterfaceReadBody resource) d ∧
              (resourceNetboxDcimInterfaceExists (firstPageOf listing) d).b = true) ∧
          (NoMatch Interface.ID d.Id page.Results →
            resourceNetboxDcimInterfaceRead (firstPageOf listing) d = .returned none (d.SetId "") ∧
              (resourceNetboxDcimInterfaceExists (firstPageOf listing) d).b = false ∧
              (resourceNetboxDcimInterfaceExists (firstPageOf listing) d).e = none))) ∧
    (∀ (listing : String → Int → Except Error (Page Rack)) (d : ResourceData)
        (page : Page Rack),
        listing d.Id 0 = .ok page →
        ((∀ resource, FirstMatch Rack.ID d.Id page.Results resource →
            resourceNetboxDcimRackRead (firstPageOf listing) d =
                setEach (resourceNetboxDcimRackReadBody resource) d ∧
              (resourceNetboxDcimRackExists (firstPageOf listing) d).b = true) ∧
          (NoMatch Rack.ID d.Id page.Results →
            resourceNetboxDcimRackRead (firstPageOf listing) d = .returned none (d.SetId "") ∧
              (resourceNetboxDcimRackExists (firstPageOf listing) d).b = false ∧
              (resourceNetboxDcimRackExists (firstPageOf listing) d).e = none))) ∧
    (∀ (listing : String → Int → Except Error (Page Cluster)) (d : ResourceData)
        (page : Page Cluster),
        listing d.Id 0 = .ok page →
        ((∀ resource, FirstMatch Cluster.ID d.Id page.Results resource →
            resourceNetboxVirtualizationClusterRead (firstPageOf listing) d =
                setEach (resourceNetboxVirtualizationClusterReadBody resource) d ∧
              (resourceNetboxVirtualizationClusterExists (firstPageOf listing) d).b = true) ∧
          (NoMatch Cluster.ID d.Id page.Results →
            resourceNetboxVirtualizationClusterRead (firstPageOf listing) d = .returned none (d.SetId "") ∧
              (resourceNetboxVirtualizationClusterExists (firstPageOf listing) d).b = false ∧
              (resourceNetboxVirtualizationClusterExists (firstPageOf listing) d).e = none))) := by
  refine ⟨?_, ?_, ?_, ?_, ?_, ?_⟩ <;>
    exact fun listing d page hlist => firstPage_resolution _ _ listing d page hlist

/-- Witness of C19 as amended: the first page of the two-page listing holds no
record matching `"42"`. -/
theorem read_and_exists_resolve_on_first_page_witness :
    resourceNetboxDcimSiteRead (firstPageOf exampleTwoPageListing) exampleSiteData =
      .returned none (exampleSiteData.SetId "") :=
  ((read_and_exists_resolve_on_first_page.1 exampleTwoPageListing exampleSiteData
    { Results := [exampleSite 41 "a"], Next := some (.parsed [("offset", ["1"])]) }
    rfl).2 (by unfold NoMatch; decide)).1

/-- C20: for every resource kind, when the list request fails, Read returns
the error of the request and leaves the resource data, identity included,
exactly as before; Exists returns `false` with the same error; and Delete
returns the same error after the list request alone. -/
theorem listing_failure_is_returned :
    (∀ (σ : Type) (client : Client σ Site WritableSite) (remote : σ) (d : ResourceData)
        (err : Error),
        client.List remote d.Id = .error err →
        resourceNetboxDcimSiteRead (client.List remote) d = .returned (some err) d ∧
          resourceNetboxDcimSiteExists (client.List remote) d = { b := false, e := some err, d := d } ∧
          resourceNetboxDcimSiteDelete client remote d =
            { outcome := .returned (some err) d, remote := remote,
              requests := [.list d.Id] }) ∧
    (∀ (σ : Type) (client : Client σ Cable WritableCable) (remote : σ) (d : ResourceData)
        (err : Error),
        client.List remote d.Id = .error err →
        resourceNetboxDcimCableRead (client.List remote) d = .returned (some err) d ∧
          resourceNetboxDcimCableExists (client.List remote) d = { b := false, e := some err, d := d } ∧
          resourceNetboxDcimCableDelete client remote d =
            { outcome := .returned (some err) d, remote := remote,
              requests := [.list d.Id] }) ∧
    (∀ (σ : Type) (client : Client σ Device WritableDeviceWithConfigContext) (remote : σ) (d : ResourceData)
        (err : Error),
        client.List remote d.Id = .error err →
        resourceNetboxDcimDeviceRead (client.List remote) d = .returned (some err) d ∧
          resourceNetboxDcimDeviceExists (client.List remote) d = { b := false, e := some err, d := d } ∧
          resourceNetboxDcimDeviceDelete client remote d =
            { outcome := .returned (some err) d, remote := remote,
              requests := [.list d.Id] }) ∧
    (∀ (σ : Type) (client : Client σ Interface WritableInterface) (remote : σ) (d : ResourceData)
        (err : Error),
        client.List remote d.Id = .error err →
        resourceNetboxDcimInterfaceRead (client.List remote) d = .returned (some err) d ∧
          resourceNetboxDcimInterfaceExists (client.List remote) d = { b := false, e := some err, d := d } ∧
          resourceNetboxDcimInterfaceDelete client remote d =
            { outcome := .returned (some err) d, remote := remote,
              requests := [.list d.Id] }) ∧
    (∀ (σ : Type) (client : Client σ Rack WritableRack) (remote : σ) (d : ResourceData)
        (err : Error),
        client.List remote d.Id = .error err →
        resourceNetboxDcimRackRead (client.List remote) d = .returned (some err) d ∧
          resourceNetboxDcimRackExists (client.List remote) d = { b := false, e := some err, d := d } ∧
          resourceNetboxDcimRackDelete client remote d =
            { outcome := .returned (some err) d, remote := remote,
              requests := [.list d.Id] }) ∧
    (∀ (σ : Type) (client : Client σ Cluster WritableCluster) (remote : σ) (d : ResourceData)
        (err : Error),
        client.List remote d.Id = .error err →
        resourceNetboxVirtualizationClusterRead (client.List remote) d = .returned (some err) d ∧
          resourceNetboxVirtualizationClusterExists (client.List remote) d = { b := false, e := some err, d := d } ∧
          resourceNetboxVirtualizationClusterDelete client remote d =
            { outcome := .returned (some err) d, remote := remote,
              requests := [.list d.Id] }) := by
  refine ⟨?_, ?_, ?_, ?_, ?_, ?_⟩ <;>
    exact fun σ client remote d err hlist =>
      ⟨readWith_list_error _ _ _ d err hlist, existsWith_error _ _ d err hlist,
        deleteWith_list_error _ client remote d err hlist⟩

/-- Witness of C20: the list requests of the remote fail. -/
theorem listing_failure_is_returned_witness :
    resourceNetboxDcimSiteRead (exampleUnreachableClient.List []) exampleSiteData =
      .returned (some (.api "connection refused")) exampleSiteData :=
  (listing_failure_is_returned.1 (List Site) exampleUnreachableClient [] exampleSiteData
    (.api "connection refused") rfl).1
theorem decodeValue_hasType (ty : ValueType) (v w : Value) (h : decodeValue ty v = some w) :
    w.hasType ty = true := by
  cases ty <;> cases v <;> try (simp [decodeValue, zeroValue] at h <;> subst h <;> rfl)
  rename_i xs
  cases xs <;> simp [decodeValue] at h
  subst h
  rfl

theorem Set_ok {d d1 : ResourceData} {key : String} {v : Value} (h : d.Set key v = .ok d1) :
    ∃ s w, d.schema.lookup key = some s ∧ decodeValue s.ty v = some w ∧
      d1 = { d with attrs := (key, w) :: d.attrs } := by
  unfold ResourceData.Set at h
  cases hs : d.schema.lookup key with
  | none => simp [hs] at h
  | some s =>
    cases hw : decodeValue s.ty v with
    | none => simp [hs, hw] at h
    | some w =>
      simp only [hs, hw, Except.ok.injEq] at h
      exact ⟨s, w, rfl, hw, h.symm⟩

theorem Get_Set_same {d d1 : ResourceData} {key : String} {v : Value} {s : Schema} {w : Value}
    (h : d.Set key v = .ok d1) (hs : d.schema.lookup key = some s)
    (hw : decodeValue s.ty v = some w) : d1.Get key = w := by
  obtain ⟨s1, w1, hs1, hw1, rfl⟩ := Set_ok h
  rw [hs] at hs1
  cases hs1
  rw [hw] at hw1
  cases hw1
  simp [ResourceData.Get, hs, List.lookup, decodeValue_hasType _ _ _ hw]

theorem Get_Set_other {d d1 : ResourceData} {key key1 : String} {v : Value}
    (h : d.Set key v = .ok d1) (hne : key ≠ key1) : d1.Get key1 = d.Get key1 := by
  obtain ⟨s1, w1, _, _, rfl⟩ := Set_ok h
  have hb : (key1 == key) = false := by simpa using fun h => hne h.symm
  simp [ResourceData.Get, List.lookup, hb]

theorem Set_schema {d d1 : ResourceData} {key : String} {v : Value} (h : d.Set key v = .ok d1) :
    d1.schema = d.schema := by
  obtain ⟨_, _, _, _, rfl⟩ := Set_ok h
  rfl

theorem setEach_get_other (key : String) : ∀ (body : List (String × Option Value))
    (d : ResourceData) (err : Option Error) (d1 : ResourceData),
    setEach body d = .returned err d1 → (∀ e ∈ body, e.1 ≠ key) → d1.Get key = d.Get key := by
  intro body
  induction body with
  | nil =>
    intro d err d1 h _
    simp only [setEach, Outcome.returned.injEq] at h
    rw [h.2]
  | cons e rest ih =>
    intro d err d1 h hne
    obtain ⟨k, ov⟩ := e
    cases ov with
    | none => simp [setEach] at h
    | some v =>
      cases hset : d.Set k v with
      | error e1 =>
        simp only [setEach, hset, Outcome.returned.injEq] at h
        rw [h.2]
      | ok d2 =>
        simp only [setEach, hset] at h
        rw [ih d2 err d1 h (fun e he => hne e (List.mem_cons_of_mem _ he))]
        exact Get_Set_other hset (hne (k, some v) (List.mem_cons_self _ _))

theorem setEach_get (key : String) (v : Value) : ∀ (body : List (String × Option Value))
    (d d1 : ResourceData) (s : Schema) (w : Value),
    setEach body d = .returned none d1 → (key, some v) ∈ body →
    (body.map Prod.fst).count key = 1 → d.schema.lookup key = some s →
    decodeValue s.ty v = some w → d1.Get key = w := by
  intro body
  induction body with
  | nil => intro d d1 s w _ hmem; simp at hmem
  | cons e rest ih =>
    intro d d1 s w h hmem hcount hs hw
    obtain ⟨k, ov⟩ := e
    cases ov with
    | none => simp [setEach] at h
    | some v1 =>
      cases hset : d.Set k v1 with
      | error e1 => simp [setEach, hset] at h
      | ok d2 =>
        simp only [setEach, hset] at h
        by_cases hk : k = key
        · subst hk
          have hrest : (rest.map Prod.fst).count k = 0 := by
            simpa [List.count_cons] using hcount
          have hnot : ∀ e ∈ rest, e.1 ≠ k := by
            intro e he hek
            have : k ∈ rest.map Prod.fst := hek ▸ List.mem_map_of_mem Prod.fst he
            exact (List.count_eq_zero.mp hrest) this
          have hv : v1 = v := by
            rcases List.mem_cons.mp hmem with heq | hin
            · cases heq; rfl
            · exact absurd rfl (hnot _ hin)
          subst hv
          rw [setEach_get_other k rest d2 none d1 h hnot]
          exact Get_Set_same hset hs hw
        · have hin : (key, some v) ∈ rest := by
            rcases List.mem_cons.mp hmem with heq | hin
            · cases heq; exact absurd rfl hk
            · exact hin
          have hc : (rest.map Prod.fst).count key = 1 := by
            simpa [List.count_cons, hk] using hcount
          exact ih d2 d1 s w h hin hc (by rw [Set_schema hset]; exact hs) hw

theorem setEach_succeeds : ∀ (body : List (String × Option Value)) (d : ResourceData),
    (∀ e ∈ body, ∃ v s, e.2 = some v ∧ d.schema.lookup e.1 = some s ∧
      (decodeValue s.ty v).isSome = true) →
    ∃ d1, setEach body d = .returned none d1 := by
  intro body
  induction body with
  | nil => intro d _; exact ⟨d, rfl⟩
  | cons e rest ih =>
    intro d hall
    obtain ⟨k, ov⟩ := e
    obtain ⟨v, s, hv, hs, hsome⟩ := hall (k, ov) (List.mem_cons_self _ _)
    obtain ⟨w, hw⟩ := Option.isSome_iff_exists.mp hsome
    simp only at hv hs
    subst hv
    have hset : d.Set k v = .ok { d with attrs := (k, w) :: d.attrs } := by
      simp [ResourceData.Set, hs, hw]
    simp only [setEach, hset]
    exact ih _ (fun e he => hall e (List.mem_cons_of_mem _ he))

theorem decodeValue_ofStringPtr (o : Option String) :
    (decodeValue .TypeString (.ofStringPtr o)).isSome = true := by
  cases o <;> rfl

theorem decodeValue_ofInt64Ptr (o : Option Int) :
    (decodeValue .TypeInt (.ofInt64Ptr o)).isSome = true := by
  cases o <;> rfl

/-- Read of a site: Read of a matched record returns nil, and every optional reference that is nil on the
record leaves 0 in its field and every choice wrapper that is nil leaves the
empty string in its field. -/
theorem site_read_nil_projections (list : String → Except Error (Page Site)) (d : ResourceData)
    (page : Page Site) (resource : Site) (hschema : d.schema = resourceNetboxDcimSite)
    (hlist : list d.Id = .ok page) (hfirst : FirstMatch Site.ID d.Id page.Results resource) :
    (∃ d1, resourceNetboxDcimSiteRead list d = .returned none d1) ∧
      ∀ d1, resourceNetboxDcimSiteRead list d = .returned none d1 →
        (resource.Tenant = none → d1.Get "tenant_id" = .int 0) ∧
        (resource.Status = none → d1.Get "status" = .str "") := by
  have hread : resourceNetboxDcimSiteRead list d = setEach (resourceNetboxDcimSiteReadBody resource) d :=
    (readWith_firstMatch Site.ID resourceNetboxDcimSiteReadBody list d page resource hlist hfirst).1
  rw [hread]
  refine ⟨?_, ?_⟩
  · apply setEach_succeeds
    intro e he
    simp only [resourceNetboxDcimSiteReadBody, List.mem_cons, List.mem_singleton, List.not_mem_nil,
      or_false] at he
    rcases he with rfl | rfl | rfl | rfl <;>
      refine ⟨_, _, rfl, (by rw [hschema]; rfl), ?_⟩ <;>
      first
        | rfl
        | exact decodeValue_ofStringPtr _
        | exact decodeValue_ofInt64Ptr _
        | (split <;> first | rfl | exact decodeValue_ofStringPtr _)
  · intro d1 h

    refine ⟨?_, ?_⟩
    · intro hnil
      refine setEach_get "tenant_id" (.int 0) _ d d1 _ _ h ?_ ?_ (by rw [hschema]; rfl) (by rfl)
      · simp [resourceNetboxDcimSiteReadBody, hnil]
      · simp only [resourceNetboxDcimSiteReadBody, List.map]
        decide
    · intro hnil
      refine setEach_get "status" (.str "") _ d d1 _ _ h ?_ ?_ (by rw [hschema]; rfl) (by rfl)
      · simp [resourceNetboxDcimSiteReadBody, hnil]
      · simp only [resourceNetboxDcimSiteReadBody, List.map]
        decide

/-- Read of a cable: Read of a matched record returns nil, and every optional reference that is nil on the
record leaves 0 in its field and every choice wrapper that is nil leaves the
empty string in its field. -/
theorem cable_read_nil_projections (list : String → Except Error (Page Cable)) (d : ResourceData)
    (page : Page Cable) (resource : Cable) (hschema : d.schema = resourceNetboxDcimCable)
    (hlist : list d.Id = .ok page) (hfirst : FirstMatch Cable.ID d.Id page.Results resource) :
    (∃ d1, resourceNetboxDcimCableRead list d = .returned none d1) ∧
      ∀ d1, resourceNetboxDcimCableRead list d = .returned none d1 →
        (resource.Status = none → d1.Get "status" = .str "") := by
  have hread : resourceNetboxDcimCableRead list d = setEach (resourceNetboxDcimCableReadBody resource) d :=
    (readWith_firstMatch Cable.ID resourceNetboxDcimCableReadBody list d page resource hlist hfirst).1
  rw [hread]
  refine ⟨?_, ?_⟩
  · apply setEach_succeeds
    intro e he
    simp only [resourceNetboxDcimCableReadBody, List.mem_cons, List.mem_singleton, List.not_mem_nil,
      or_false] at he
    rcases he with rfl | rfl | rfl | rfl | rfl <;>
      refine ⟨_, _, rfl, (by rw [hschema]; rfl), ?_⟩ <;>
      first
        | rfl
        | exact decodeValue_ofStringPtr _
        | exact decodeValue_ofInt64Ptr _
        | (split <;> first | rfl | exact decodeValue_ofStringPtr _)
  · intro d1 h

    · intro hnil
      refine setEach_get "status" (.str "") _ d d1 _ _ h ?_ ?_ (by rw [hschema]; rfl) (by rfl)
      · simp [resourceNetboxDcimCableReadBody, hnil]
      · simp only [resourceNetboxDcimCableReadBody, List.map]
        decide

/-- Read of a cluster: Read of a matched record returns nil, and every optional reference that is nil on the
record leaves 0 in its field and every choice wrapper that is nil leaves the
empty string in its field. -/
theorem cluster_read_nil_projections (list : String → Except Error (Page Cluster)) (d : ResourceData)
    (page : Page Cluster) (resource : Cluster) (hschema : d.schema = resourceNetboxVirtualizationCluster)
    (hlist : list d.Id = .ok page) (hfirst : FirstMatch Cluster.ID d.Id page.Results resource) :
    (∃ d1, resourceNetboxVirtualizationClusterRead list d = .returned none d1) ∧
      ∀ d1, resourceNetboxVirtualizationClusterRead list d = .returned none d1 →
        (resource.Site = none → d1.Get "site_id" = .int 0) ∧
        (resource.Tenant = none → d1.Get "tenant_id" = .int 0) := by
  have hread : resourceNetboxVirtualizationClusterRead list d = setEach (resourceNetboxVirtualizationClusterReadBody resource) d :=
    (readWith_firstMatch Cluster.ID resourceNetboxVirtualizationClusterReadBody list d page resource hlist hfirst).1
  rw [hread]
  refine ⟨?_, ?_⟩
  · apply setEach_succeeds
    intro e he
    simp only [resourceNetboxVirtualizationClusterReadBody, List.mem_cons, List.mem_singleton, List.not_mem_nil,
      or_false] at he
    rcases he with rfl | rfl | rfl | rfl <;>
      refine ⟨_, _, rfl, (by rw [hschema]; rfl), ?_⟩ <;>
      first
        | rfl
        | exact decodeValue_ofStringPtr _
        | exact decodeValue_ofInt64Ptr _
        | (split <;> rfl)
  · intro d1 h

    refine ⟨?_, ?_⟩
    · intro hnil
      refine setEach_get "site_id" (.int 0) _ d d1 _ _ h ?_ ?_ (by rw [hschema]; rfl) (by rfl)
      · simp [resourceNetboxVirtualizationClusterReadBody, hnil]
      · simp only [resourceNetboxVirtualizationClusterReadBody, List.map]
        decide
    · intro hnil
      refine setEach_get "tenant_id" (.int 0) _ d d1 _ _ h ?_ ?_ (by rw [hschema]; rfl) (by rfl)
      · simp [resourceNetboxVirtualizationClusterReadBody, hnil]
      · simp only [resourceNetboxVirtualizationClusterReadBody, List.map]
        decide

/-- Read of a rack: Read of a matched record returns nil, and every optional reference that is nil on the
record leaves 0 in its field and every choice wrapper that is nil leaves the
empty string in its field. -/
theorem rack_read_nil_projections (list : String → Except Error (Page Rack)) (d : ResourceData)
    (page : Page Rack) (resource : Rack) (hschema : d.schema = resourceNetboxDcimRack)
    (hlist : list d.Id = .ok page) (hfirst : FirstMatch Rack.ID d.Id page.Results resource) :
    (∃ d1, resourceNetboxDcimRackRead list d = .returned none d1) ∧
      ∀ d1, resourceNetboxDcimRackRead list d = .returned none d1 →
        (resource.Group = none → d1.Get "group_id" = .int 0) ∧
        (resource.Role = none → d1.Get "role_id" = .int 0) ∧
        (resource.Tenant = none → d1.Get "tenant_id" = .int 0) ∧
        (resource.Status = none → d1.Get "status" = .str "") := by
  have hread : resourceNetboxDcimRackRead list d = setEach (resourceNetboxDcimRackReadBody resource) d :=
    (readWith_firstMatch Rack.ID resourceNetboxDcimRackReadBody list d page resource hlist hfirst).1
  rw [hread]
  refine ⟨?_, ?_⟩
  · apply setEach_succeeds
    intro e he
    simp only [resourceNetboxDcimRackReadBody, List.mem_cons, List.mem_singleton, List.not_mem_nil,
      or_false] at he
    rcases he with rfl | rfl | rfl | rfl | rfl | rfl | rfl | rfl | rfl | rfl | rfl <;>
      refine ⟨_, _, rfl, (by rw [hschema]; rfl), ?_⟩ <;>
      first
        | rfl
        | exact decodeValue_ofStringPtr _
        | exact decodeValue_ofInt64Ptr _
        | (split <;> first | rfl | exact decodeValue_ofStringPtr _)
  · intro d1 h

    refine ⟨?_, ?_, ?_, ?_⟩
    · intro hnil
      refine setEach_get "group_id" (.int 0) _ d d1 _ _ h ?_ ?_ (by rw [hschema]; rfl) (by rfl)
      · simp [resourceNetboxDcimRackReadBody, hnil]
      · simp only [resourceNetboxDcimRackReadBody, List.map]
        decide
    · intro hnil
      refine setEach_get "role_id" (.int 0) _ d d1 _ _ h ?_ ?_ (by rw [hschema]; rfl) (by rfl)
      · simp [resourceNetboxDcimRackReadBody, hnil]
      · simp only [resourceNetboxDcimRackReadBody, List.map]
        decide
    · intro hnil
      refine setEach_get "tenant_id" (.int 0) _ d d1 _ _ h ?_ ?_ (by rw [hschema]; rfl) (by rfl)
      · simp [resourceNetboxDcimRackReadBody, hnil]
      · simp only [resourceNetboxDcimRackReadBody, List.map]
        decide
    · intro hnil
      refine setEach_get "status" (.str "") _ d d1 _ _ h ?_ ?_ (by rw [hschema]; rfl) (by rfl)
      · simp [resourceNetboxDcimRackReadBody, hnil]
      · simp only [resourceNetboxDcimRackReadBody, List.map]
        decide

/-- Read of a device: whenever Read of a matched record returns nil, every optional reference that is nil on the
record leaves 0 in its field and every choice wrapper that is nil leaves the
empty string in its field. -/
theorem device_read_nil_projections (list : String → Except Error (Page Device)) (d : ResourceData)
    (page : Page Device) (resource : Device) (hschema : d.schema = resourceNetboxDcimDevice)
    (hlist : list d.Id = .ok page) (hfirst : FirstMatch Device.ID d.Id page.Results resource) :
    ∀ d1, resourceNetboxDcimDeviceRead list d = .returned none d1 →
        (resource.Cluster = none → d1.Get "cluster_id" = .int 0) ∧
        (resource.Platform = none → d1.Get "platform_id" = .int 0) ∧
        (resource.PrimaryIp4 = none → d1.Get "primary_ip4_id" = .int 0) ∧
        (resource.PrimaryIp6 = none → d1.Get "primary_ip6_id" = .int 0) ∧
        (resource.Rack = none → d1.Get "rack_id" = .int 0) ∧
        (resource.VirtualChassis = none → d1.Get "virtual_chassis_id" = .int 0) ∧
        (resource.ParentDevice = none → d1.Get "parent_device_id" = .int 0) ∧
        (resource.Tenant = none → d1.Get "tenant_id" = .int 0) ∧
        (resource.Face = none → d1.Get "face" = .str "") ∧
        (resource.Status = none → d1.Get "status" = .str "") := by
  have hread : resourceNetboxDcimDeviceRead list d = setEach (resourceNetboxDcimDeviceReadBody resource) d :=
    (readWith_firstMatch Device.ID resourceNetboxDcimDeviceReadBody list d page resource hlist hfirst).1
  rw [hread]
  intro d1 h

  refine ⟨?_, ?_, ?_, ?_, ?_, ?_, ?_, ?_, ?_, ?_⟩
  · intro hnil
    refine setEach_get "cluster_id" (.int 0) _ d d1 _ _ h ?_ ?_ (by rw [hschema]; rfl) (by rfl)
    · simp [resourceNetboxDcimDeviceReadBody, hnil]
    · simp only [resourceNetboxDcimDeviceReadBody, List.map]
      decide
  · intro hnil
    refine setEach_get "platform_id" (.int 0) _ d d1 _ _ h ?_ ?_ (by rw [hschema]; rfl) (by rfl)
    · simp [resourceNetboxDcimDeviceReadBody, hnil]
    · simp only [resourceNetboxDcimDeviceReadBody, List.map]
      decide
  · intro hnil
    refine setEach_get "primary_ip4_id" (.int 0) _ d d1 _ _ h ?_ ?_ (by rw [hschema]; rfl) (by rfl)
    · simp [resourceNetboxDcimDeviceReadBody, hnil]
    · simp only [resourceNetboxDcimDeviceReadBody, List.map]
      decide
  · intro hnil
    refine setEach_get "primary_ip6_id" (.int 0) _ d d1 _ _ h ?_ ?_ (by rw [hschema]; rfl) (by rfl)
    · simp [resourceNetboxDcimDeviceReadBody, hnil]
    · simp only [resourceNetboxDcimDeviceReadBody, List.map]
      decide
  · intro hnil
    refine setEach_get "rack_id" (.int 0) _ d d1 _ _ h ?_ ?_ (by rw [hschema]; rfl) (by rfl)
    · simp [resourceNetboxDcimDeviceReadBody, hnil]
    · simp only [resourceNetboxDcimDeviceReadBody, List.map]
      decide
  · intro hnil
    refine setEach_get "virtual_chassis_id" (.int 0) _ d d1 _ _ h ?_ ?_ (by rw [hschema]; rfl) (by rfl)
    · simp [resourceNetboxDcimDeviceReadBody, hnil]
    · simp only [resourceNetboxDcimDeviceReadBody, List.map]
      decide
  · intro hnil
    refine setEach_get "parent_device_id" (.int 0) _ d d1 _ _ h ?_ ?_ (by rw [hschema]; rfl) (by rfl)
    · simp [resourceNetboxDcimDeviceReadBody, hnil]
    · simp only [resourceNetboxDcimDeviceReadBody, List.map]
      decide
  · intro hnil
    refine setEach_get "tenant_id" (.int 0) _ d d1 _ _ h ?_ ?_ (by rw [hschema]; rfl) (by rfl)
    · simp [resourceNetboxDcimDeviceReadBody, hnil]
    · simp only [resourceNetboxDcimDeviceReadBody, List.map]
      decide
  · intro hnil
    refine setEach_get "face" (.str "") _ d d1 _ _ h ?_ ?_ (by rw [hschema]; rfl) (by rfl)
    · simp [resourceNetboxDcimDeviceReadBody, hnil]
    · simp only [resourceNetboxDcimDeviceReadBody, List.map]
      decide
  · intro hnil
    refine setEach_get "status" (.str "") _ d d1 _ _ h ?_ ?_ (by rw [hschema]; rfl) (by rfl)
    · simp [resourceNetboxDcimDeviceReadBody, hnil]
    · simp only [resourceNetboxDcimDeviceReadBody, List.map]
      decide

/-- Read of an interface: whenever Read of a matched record returns nil, every optional reference that is nil on the
record leaves 0 in its field and every choice wrapper that is nil leaves the
empty string in its field. -/
theorem interface_read_nil_projections (list : String → Except Error (Page Interface)) (d : ResourceData)
    (page : Page Interface) (resource : Interface) (hschema : d.schema = resourceNetboxDcimInterface)
    (hlist : list d.Id = .ok page) (hfirst : FirstMatch Interface.ID d.Id page.Results resource) :
    ∀ d1, resourceNetboxDcimInterfaceRead list d = .returned none d1 →
        (resource.Lag = none → d1.Get "lag_id" = .int 0) ∧
        (resource.UntaggedVlan = none → d1.Get "untagged_vlan_id" = .int 0) ∧
        (resource.Mode = none → d1.Get "mode" = .str "") := by
  have hread : resourceNetboxDcimInterfaceRead list d = setEach (resourceNetboxDcimInterfaceReadBody resource) d :=
    (readWith_firstMatch Interface.ID resourceNetboxDcimInterfaceReadBody list d page resource hlist hfirst).1
  rw [hread]
  intro d1 h

  refine ⟨?_, ?_, ?_⟩
  · intro hnil
    refine setEach_get "lag_id" (.int 0) _ d d1 _ _ h ?_ ?_ (by rw [hschema]; rfl) (by rfl)
    · simp [resourceNetboxDcimInterfaceReadBody, hnil]
    · simp only [resourceNetboxDcimInterfaceReadBody, List.map, hnil]
      decide
  · intro hnil
    refine setEach_get "untagged_vlan_id" (.int 0) _ d d1 _ _ h ?_ ?_ (by rw [hschema]; rfl) (by rfl)
    · simp [resourceNetboxDcimInterfaceReadBody, hnil]
    · simp only [resourceNetboxDcimInterfaceReadBody, List.map]
      cases resource.Lag <;> dsimp only <;> decide
  · intro hnil
    refine setEach_get "mode" (.str "") _ d d1 _ _ h ?_ ?_ (by rw [hschema]; rfl) (by rfl)
    · simp [resourceNetboxDcimInterfaceReadBody, hnil]
    · simp only [resourceNetboxDcimInterfaceReadBody, List.map]
      cases resource.Lag <;> dsimp only <;> decide

/-- C11 fails at an interface that is member of a LAG: the record 7 matches
the identity, its untagged VLAN is nil and the declared `untagged_vlan_id` is
5; Read returns the error of the write to the undeclared key `lag` and
`untagged_vlan_id` is still 5. -/
theorem interface_read_keeps_vlan_reference_of_lag_member :
    exampleLagMember.UntaggedVlan = none ∧
      FirstMatch Interface.ID exampleStaleInterfaceData.Id [exampleLagMember]
        exampleLagMember ∧
      ∃ d1, resourceNetboxDcimInterfaceRead (fun _ => .ok { Results := [exampleLagMember] })
            exampleStaleInterfaceData = .returned (some (.invalidAddress "lag")) d1 ∧
        d1.Get "untagged_vlan_id" = .int 5 :=
  ⟨rfl, ⟨[], [], rfl, by simp, by decide⟩, _, rfl, by decide⟩

/-- C12 fails at the interface type: Read of the matching record 7, whose type
wrapper is nil, panics; and at the interface mode: Read of the matching LAG
member, whose mode wrapper is nil, returns an error and the declared mode is
still `"access"`. -/
theorem interface_read_panics_on_nil_type :
    (exampleTypelessInterface.Type_ = none ∧
      FirstMatch Interface.ID exampleInterfaceData.Id [exampleTypelessInterface]
        exampleTypelessInterface ∧
      resourceNetboxDcimInterfaceRead (fun _ => .ok { Results := [exampleTypelessInterface] })
        exampleInterfaceData = .panicked) ∧
    (exampleLagMember.Mode = none ∧
      ∃ d1, resourceNetboxDcimInterfaceRead (fun _ => .ok { Results := [exampleLagMember] })
            exampleStaleInterfaceData = .returned (some (.invalidAddress "lag")) d1 ∧
        d1.Get "mode" = .str "access") :=
  ⟨⟨rfl, ⟨[], [], rfl, by simp, by decide⟩, by decide⟩, rfl, _, rfl, by decide⟩

/-- Update of any resource kind with an identity that does not parse: once
the payload is built, Update returns the conversion error, issues no request
and leaves the resource data as they were. -/
theorem update_rejects_unparsable_identity :
    (∀ (σ : Type) (client : Client σ Site WritableSite) (remote : σ) (d : ResourceData)
        (params : WritableSite), resourceNetboxDcimSiteUpdateData d = some params →
        ParseInt d.Id = none →
        resourceNetboxDcimSiteUpdate client remote d =
          { outcome := .returned (some .convertID) d, remote := remote, requests := [] }) ∧
    (∀ (σ : Type) (client : Client σ Cable WritableCable) (remote : σ) (d : ResourceData)
        (params : WritableCable), resourceNetboxDcimCableUpdateData d = some params →
        ParseInt d.Id = none →
        resourceNetboxDcimCableUpdate client remote d =
          { outcome := .returned (some .convertID) d, remote := remote, requests := [] }) ∧
    (∀ (σ : Type) (client : Client σ Device WritableDeviceWithConfigContext) (remote : σ)
        (d : ResourceData) (params : WritableDeviceWithConfigContext),
        resourceNetboxDcimDeviceUpdateData d = some params →
        ParseInt d.Id = none →
        resourceNetboxDcimDeviceUpdate client remote d =
          { outcome := .returned (some .convertID) d, remote := remote, requests := [] }) ∧
    (∀ (σ : Type) (client : Client σ Interface WritableInterface) (remote : σ)
        (d : ResourceData) (params : WritableInterface),
        resourceNetboxDcimInterfaceUpdateData d = some params →
        ParseInt d.Id = none →
        resourceNetboxDcimInterfaceUpdate client remote d =
          { outcome := .returned (some .convertID) d, remote := remote, requests := [] }) ∧
    (∀ (σ : Type) (client : Client σ Rack WritableRack) (remote : σ) (d : ResourceData)
        (params : WritableRack), resourceNetboxDcimRackUpdateData d = some params →
        ParseInt d.Id = none →
        resourceNetboxDcimRackUpdate client remote d =
          { outcome := .returned (some .convertID) d, remote := remote, requests := [] }) ∧
    (∀ (σ : Type) (client : Client σ Cluster WritableCluster) (remote : σ) (d : ResourceData)
        (params : WritableCluster), resourceNetboxVirtualizationClusterUpdateData d = some params →
        ParseInt d.Id = none →
        resourceNetboxVirtualizationClusterUpdate client remote d =
          { outcome := .returned (some .convertID) d, remote := remote, requests := [] }) := by
  refine ⟨?_, ?_, ?_, ?_, ?_, ?_⟩ <;>
    exact fun σ client remote d params hdata hid =>
      updateWith_bad_identity _ _ client remote d params hdata hid

/-- C16 fails at a site whose `tenant_id` is flagged as changed: with the
empty identity, which does not parse, Update panics on the type assertion
made while the payload is built, before the identity is converted; no request
is issued. -/
theorem site_update_panics_before_identity_conversion :
    ParseInt exampleRetenantedSiteData.Id = none ∧
      exampleRetenantedSiteData.HasChange "tenant_id" = true ∧
      exampleRetenantedSiteData.Get "tenant_id" = .int 3 ∧
      resourceNetboxDcimSiteUpdate exampleSiteClient [] exampleRetenantedSiteData =
        { outcome := .panicked, remote := [], requests := [] } := by
  decide

/-! ## Termination of the collectors, and identities that are not canonical -/

theorem length_recordsOf {α : Type} (visited : List (Int × Page α)) :
    (recordsOf visited).length = (visited.map fun entry => entry.2.Results.length).sum := by
  induction visited with
  | nil => rfl
  | cons entry rest ih =>
    have h : recordsOf (entry :: rest) = entry.2.Results ++ recordsOf rest := by
      simp [recordsOf]
    rw [h, List.length_append, ih]
    simp

theorem length_offsetsOf {α : Type} (visited : List (Int × Page α)) :
    (offsetsOf visited).length = visited.length := by
  simp [offsetsOf]

theorem advance_end (offset : Int) (next : Option NextURL)
    (hend : next = none ∨
      ∃ query, next = some (.parsed query) ∧ query.lookup "offset" = none) :
    advance offset next = .stop := by
  rcases hend with h | ⟨query, h, hq⟩
  · rw [h]; rfl
  · rw [h]; exact advance_no_offset offset query hq

theorem deleteWith_present {σ α W : Type} (ID : α → Int)
    (client : Client σ α W) (remote : σ) (d : ResourceData) (page : Page α) (id : Int)
    (hlist : client.List remote d.Id = .ok page)
    (hmatch : ∃ x ∈ page.Results, FormatInt (ID x) = d.Id)
    (hid : ParseInt d.Id = some id) :
    deleteWith (W := W) (existsWith ID) client remote d =
      { outcome := .returned (client.Delete remote id).1 d,
        remote := (client.Delete remote id).2,
        requests := [.list d.Id, .delete id] } := by
  rcases hdelete : client.Delete remote id with ⟨_ | err, remote1⟩
  · exact deleteWith_ok ID client remote remote1 d page id hlist hmatch hid hdelete
  · exact deleteWith_error ID client remote remote1 d page id err hlist hmatch hid hdelete

theorem deleteWith_after_exists {σ α W : Type} (ID : α → Int)
    (client : Client σ α W) (remote : σ) (d : ResourceData) (page : Page α)
    (hlist : client.List remote d.Id = .ok page)
    (hrange : ∀ x ∈ page.Results, -(2 ^ 63) ≤ ID x ∧ ID x < 2 ^ 63)
    (hexists : (existsWith ID (client.List remote) d).b = true) :
    ∃ resource ∈ page.Results, FormatInt (ID resource) = d.Id ∧
      ParseInt d.Id = some (ID resource) ∧
      deleteWith (W := W) (existsWith ID) client remote d =
        { outcome := .returned (client.Delete remote (ID resource)).1 d,
          remote := (client.Delete remote (ID resource)).2,
          requests := [.list d.Id, .delete (ID resource)] } := by
  have hscan : existsScan ID d page.Results false = true := by
    simpa only [existsWith, hlist] using hexists
  rcases (existsScan_eq ID d page.Results false).1 hscan with hc | ⟨x, hx, hm⟩
  · exact absurd hc (by simp)
  · have hid : ParseInt d.Id = some (ID x) := by
      rw [← hm]; exact ParseInt_FormatInt _ (hrange x hx).1 (hrange x hx).2
    exact ⟨x, hx, hm, hid, deleteWith_present ID client remote d page (ID x) hlist
      ⟨x, hx, hm⟩ hid⟩

theorem noMatch_of_not_canonical {α : Type} (ID : α → Int) (s : String) (n : Int)
    (results : List α) (hparse : ParseInt s = some n) (hne : s ≠ FormatInt n)
    (hrange : ∀ x ∈ results, -(2 ^ 63) ≤ ID x ∧ ID x < 2 ^ 63) :
    NoMatch ID s results := by
  intro x hx hm
  have h := ParseInt_FormatInt (ID x) (hrange x hx).1 (hrange x hx).2
  rw [hm, hparse] at h
  have hn : n = ID x := Option.some.inj h
  exact hne (by rw [hn, hm])

theorem updateWith_ok {σ α W : Type} (data : ResourceData → Option W)
    (read : (String → Except Error (Page α)) → ResourceData → Outcome)
    (client : Client σ α W) (remote remote1 : σ) (d : ResourceData) (params : W)
    (resourceID : Int) (hdata : data d = some params)
    (hid : ParseInt d.Id = some resourceID)
    (hupdate : client.PartialUpdate remote resourceID params = (none, remote1)) :
    updateWith data read client remote d =
      { outcome := read (client.List remote1) d, remote := remote1,
        requests := [.update resourceID params, .list d.Id] } := by
  simp only [updateWith, hdata, hid, hupdate]

theorem not_canonical_identity {σ α W : Type} (ID : α → Int)
    (data : ResourceData → Option W) (body : α → List (String × Option Value))
    (client : Client σ α W) (remote remote1 : σ) (d : ResourceData) (n : Int)
    (hparse : ParseInt d.Id = some n) (hne : d.Id ≠ FormatInt n) :
    (∀ page, client.List remote d.Id = .ok page →
      (∀ x ∈ page.Results, -(2 ^ 63) ≤ ID x ∧ ID x < 2 ^ 63) →
      existsWith ID (client.List remote) d = { b := false, e := none, d := d } ∧
        readWith ID body (client.List remote) d = .returned none (d.SetId "")) ∧
    (∀ params page1, data d = some params →
      client.PartialUpdate remote n params = (none, remote1) →
      client.List remote1 d.Id = .ok page1 →
      (∀ x ∈ page1.Results, -(2 ^ 63) ≤ ID x ∧ ID x < 2 ^ 63) →
      updateWith data (readWith ID body) client remote d =
        { outcome := .returned none (d.SetId ""), remote := remote1,
          requests := [.update n params, .list d.Id] }) := by
  constructor
  · intro page hlist hrange
    have hno := noMatch_of_not_canonical ID d.Id n page.Results hparse hne hrange
    exact ⟨existsWith_absent ID _ d page hlist hno, readWith_noMatch ID body _ d page hlist hno⟩
  · intro params page1 hdata hupdate hlist hrange
    have hno := noMatch_of_not_canonical ID d.Id n page1.Results hparse hne hrange
    rw [updateWith_ok data _ client remote remote1 d params n hdata hparse hupdate,
      readWith_noMatch ID body _ d page1 hlist hno]

theorem chain_visits {α : Type} (list : Int → Except Error (Page α))
    (chain : List (Int × Page α)) :
    ∀ (offset upcoming : Int), Chain list offset chain upcoming →
      Visits list offset chain upcoming := by
  induction chain with
  | nil => intro offset upcoming h; exact h
  | cons entry rest ih =>
    intro offset upcoming h
    obtain ⟨requested, page⟩ := entry
    obtain ⟨hreq, hlist, newOffset, ⟨query, first, others, hnext, hquery, hparse⟩, hrest⟩ := h
    refine ⟨hreq, hlist, newOffset, ?_, ih newOffset upcoming hrest⟩
    rw [hnext]
    exact advance_parsed offset query first others newOffset hquery hparse

/-- C21: When the chain of next pointers followed from offset 0 reaches, after
the pages of `chain`, a page that has no next pointer or whose next pointer
has no `offset` parameter, each of the four collectors ends as soon as it is
given more turns than `chain` has pages: it returns nil and has requested the
offsets of the pages of the chain, one request per page and in order.  The
aggregate it publishes is the concatenation of the records of these pages, as
long as the pages are together: with `json` declared as a string attribute,
the returned data read the marshalled aggregate under `json` and carry the ID
of the data source. -/
theorem collectors_terminate_on_finite_chain {α : Type}
    (list : Int → Except Error (Page α)) (chain : List (Int × Page α)) (upcoming : Int)
    (page : Page α)
    (hchain : Chain list 0 chain upcoming) (hlist : list upcoming = .ok page)
    (hend : page.Next = none ∨
      ∃ query, page.Next = some (.parsed query) ∧ query.lookup "offset" = none)
    (marshal : List α → String) (d : ResourceData) :
    (∀ fuel, chain.length < fuel →
      dataNetboxJSONDcimConsolePortsListRead marshal list fuel d =
        some
          { outcome := .returned none
              (publish "NetboxJSONDcimConsolePortsList" marshal d
                (recordsOf chain ++ page.Results)),
            requests := offsetsOf chain ++ [upcoming] } ∧
      dataNetboxJSONDcimConsoleServerPortsListRead marshal list fuel d =
        some
          { outcome := .returned none
              (publish "NetboxJSONDcimConsoleServerPortsList" marshal d
                (recordsOf chain ++ page.Results)),
            requests := offsetsOf chain ++ [upcoming] } ∧
      dataNetboxJSONDcimInterfacesListRead marshal list fuel d =
        some
          { outcome := .returned none
              (publish "NetboxJSONDcimInterfacesList" marshal d
                (recordsOf chain ++ page.Results)),
            requests := offsetsOf chain ++ [upcoming] } ∧
      (∀ (listBySite : String → Int → Except Error (Page α)) (site : String),
        (d.Get "site").assertString = some site → listBySite site = list →
        dataNetboxJSONDcimPowerPortsListRead marshal listBySite fuel d =
          some
            { outcome := .returned none
                (publish "NetboxJSONDcimPowerPortsList" marshal d
                  (recordsOf chain ++ page.Results)),
              requests := offsetsOf chain ++ [upcoming] })) ∧
    (offsetsOf chain ++ [upcoming]).length = chain.length + 1 ∧
    (recordsOf chain ++ page.Results).length =
      (chain.map fun entry => entry.2.Results.length).sum + page.Results.length ∧
    (∀ (id : String) (sch : Schema),
      d.schema.lookup "json" = some sch → sch.ty = .TypeString →
      (publish id marshal d (recordsOf chain ++ page.Results)).Get "json" =
          .str (marshal (recordsOf chain ++ page.Results)) ∧
        (publish id marshal d (recordsOf chain ++ page.Results)).Id = id) := by
  have hvis := chain_visits list chain 0 upcoming hchain
  refine ⟨fun fuel hfuel => ?_, ?_, ?_, fun id sch h hty => publish_spec id marshal d _ sch h hty⟩
  · have hrun := paginate_stop list chain upcoming page hvis hlist
      (advance_end upcoming page.Next hend) fuel hfuel
    refine ⟨?_, ?_, ?_, ?_⟩
    · simp only [dataNetboxJSONDcimConsolePortsListRead, hrun, conclude]
    · simp only [dataNetboxJSONDcimConsoleServerPortsListRead, hrun, conclude]
    · simp only [dataNetboxJSONDcimInterfacesListRead, hrun, conclude]
    · intro listBySite site hsite hl
      simp only [dataNetboxJSONDcimPowerPortsListRead, hsite, hl, hrun, conclude]
  · rw [List.length_append, length_offsetsOf]
    rfl
  · rw [List.length_append, length_recordsOf]

/-- Witness of C21: two pages, the second without a next pointer; with two
turns, as with seven, the collector has made the requests for the offsets 0
and 2, and the returned data read the three records `1,2,3` under `json`. -/
theorem collectors_terminate_on_finite_chain_witness :
    dataNetboxJSONDcimConsolePortsListRead exampleMarshal
          (exampleList (.ok { Results := [3] })) 2 exampleListData =
        some
          { outcome := .returned none
              (publish "NetboxJSONDcimConsolePortsList" exampleMarshal exampleListData
                [1, 2, 3]),
            requests := [0, 2] } ∧
      dataNetboxJSONDcimConsolePortsListRead exampleMarshal
          (exampleList (.ok { Results := [3] })) 7 exampleListData =
        some
          { outcome := .returned none
              (publish "NetboxJSONDcimConsolePortsList" exampleMarshal exampleListData
                [1, 2, 3]),
            requests := [0, 2] } ∧
      (publish "NetboxJSONDcimConsolePortsList" exampleMarshal exampleListData [1, 2, 3]).Get
          "json" = .str "1,2,3" ∧
      (publish "NetboxJSONDcimConsolePortsList" exampleMarshal exampleListData [1, 2, 3]).Id =
        "NetboxJSONDcimConsolePortsList" :=
  have h := collectors_terminate_on_finite_chain (exampleList (.ok { Results := [3] }))
    [(0, { Results := [1, 2], Next := some (.parsed [("offset", ["2"])]) })] 2
    { Results := [3] }
    ⟨rfl, rfl, 2, ⟨[("offset", ["2"])], "2", [], rfl, rfl, by decide⟩, rfl⟩ rfl (Or.inl rfl)
    exampleMarshal exampleListData
  ⟨(h.1 2 (by decide)).1, (h.1 7 (by decide)).1,
    (h.2.2.2 "NetboxJSONDcimConsolePortsList"
      { ty := .TypeString, Computed := true } (by decide) rfl).1.trans (by decide),
    (h.2.2.2 "NetboxJSONDcimConsolePortsList"
      { ty := .TypeString, Computed := true } (by decide) rfl).2⟩

/-- C27: For every resource kind, when the IDs of the listed records fit 64
bits and Exists reports true, the identity is the base 10 rendering of the ID
of a listed record, it parses to exactly that ID, and Delete goes on to the
delete request for that ID and returns what the request returns: the branch
returning the conversion error is not taken. -/
theorem delete_conversion_branch_is_unreachable :
    (∀ (σ : Type) (client : Client σ Site WritableSite) (remote : σ) (d : ResourceData)
        (page : Page Site),
        client.List remote d.Id = .ok page →
        (∀ x ∈ page.Results, -(2 ^ 63) ≤ x.ID ∧ x.ID < 2 ^ 63) →
        (resourceNetboxDcimSiteExists (client.List remote) d).b = true →
        ∃ resource ∈ page.Results, FormatInt resource.ID = d.Id ∧
          ParseInt d.Id = some resource.ID ∧
          resourceNetboxDcimSiteDelete client remote d =
            { outcome := .returned (client.Delete remote resource.ID).1 d,
              remote := (client.Delete remote resource.ID).2,
              requests := [.list d.Id, .delete resource.ID] }) ∧
    (∀ (σ : Type) (client : Client σ Cable WritableCable) (remote : σ) (d : ResourceData)
        (page : Page Cable),
        client.List remote d.Id = .ok page →
        (∀ x ∈ page.Results, -(2 ^ 63) ≤ x.ID ∧ x.ID < 2 ^ 63) →
        (resourceNetboxDcimCableExists (client.List remote) d).b = true →
        ∃ resource ∈ page.Results, FormatInt resource.ID = d.Id ∧
          ParseInt d.Id = some resource.ID ∧
          resourceNetboxDcimCableDelete client remote d =
            { outcome := .returned (client.Delete remote resource.ID).1 d,
              remote := (client.Delete remote resource.ID).2,
              requests := [.list d.Id, .delete resource.ID] }) ∧
    (∀ (σ : Type) (client : Client σ Device WritableDeviceWithConfigContext) (remote : σ) (d : ResourceData)
        (page : Page Device),
        client.List remote d.Id = .ok page →
        (∀ x ∈ page.Results, -(2 ^ 63) ≤ x.ID ∧ x.ID < 2 ^ 63) →
        (resourceNetboxDcimDeviceExists (client.List remote) d).b = true →
        ∃ resource ∈ page.Results, FormatInt resource.ID = d.Id ∧
          ParseInt d.Id = some resource.ID ∧
          resourceNetboxDcimDeviceDelete client remote d =
            { outcome := .returned (client.Delete remote resource.ID).1 d,
              remote := (client.Delete remote resource.ID).2,
              requests := [.list d.Id, .delete resource.ID] }) ∧
    (∀ (σ : Type) (client : Client σ Interface WritableInterface) (remote : σ) (d : ResourceData)
        (page : Page Interface),
        client.List remote d.Id = .ok page →
        (∀ x ∈ page.Results, -(2 ^ 63) ≤ x.ID ∧ x.ID < 2 ^ 63) →
        (resourceNetboxDcimInterfaceExists (client.List remote) d).b = true →
        ∃ resource ∈ page.Results, FormatInt resource.ID = d.Id ∧
          ParseInt d.Id = some resource.ID ∧
          resourceNetboxDcimInterfaceDelete client remote d =
            { outcome := .returned (client.Delete remote resource.ID).1 d,
              remote := (client.Delete remote resource.ID).2,
              requests := [.list d.Id, .delete resource.ID] }) ∧
    (∀ (σ : Type) (client : Client σ Rack WritableRack) (remote : σ) (d : ResourceData)
        (page : Page Rack),
        client.List remote d.Id = .ok page →
        (∀ x ∈ page.Results, -(2 ^ 63) ≤ x.ID ∧ x.ID < 2 ^ 63) →
        (resourceNetboxDcimRackExists (client.List remote) d).b = true →
        ∃ resource ∈ page.Results, FormatInt resource.ID = d.Id ∧
          ParseInt d.Id = some resource.ID ∧
          resourceNetboxDcimRackDelete client remote d =
            { outcome := .returned (client.Delete remote resource.ID).1 d,
              remote := (client.Delete remote resource.ID).2,
              requests := [.list d.Id, .delete resource.ID] }) ∧
    (∀ (σ : Type) (client : Client σ Cluster WritableCluster) (remote : σ) (d : ResourceData)
        (page : Page Cluster),
        client.List remote d.Id = .ok page →
        (∀ x ∈ page.Results, -(2 ^ 63) ≤ x.ID ∧ x.ID < 2 ^ 63) →
        (resourceNetboxVirtualizationClusterExists (client.List remote) d).b = true →
        ∃ resource ∈ page.Results, FormatInt resource.ID = d.Id ∧
          ParseInt d.Id = some resource.ID ∧
          resourceNetboxVirtualizationClusterDelete client remote d =
            { outcome := .returned (client.Delete remote resource.ID).1 d,
              remote := (client.Delete remote resource.ID).2,
              requests := [.list d.Id, .delete resource.ID] }) := by
  refine ⟨?_, ?_, ?_, ?_, ?_, ?_⟩ <;>
    exact fun σ client remote d page hlist hrange hexists =>
      deleteWith_after_exists _ client remote d page hlist hrange hexists

/-- Witness of C27: the site 42 is listed, the identity `"42"` parses to 42
and Delete requests the deletion of the record 42. -/
theorem delete_conversion_branch_is_unreachable_witness :
    ParseInt exampleSiteData.Id = some 42 ∧
      resourceNetboxDcimSiteDelete exampleSiteClient [exampleSite 41 "a", exampleSite 42 "b"]
          exampleSiteData =
        { outcome := .returned none exampleSiteData, remote := [exampleSite 41 "a"],
          requests := [.list "42", .delete 42] } := by
  obtain ⟨resource, hmem, _, hid, hrun⟩ :=
    delete_conversion_branch_is_unreachable.1 (List Site) exampleSiteClient
      [exampleSite 41 "a", exampleSite 42 "b"] exampleSiteData
      { Results := [exampleSite 42 "b"] } rfl (by simp [exampleSite]) (by decide)
  have hres : resource = exampleSite 42 "b" := by simpa using hmem
  subst hres
  exact ⟨hid, hrun⟩

/-- C28: For every resource kind and an identity that parses to `n` without
being the base 10 rendering of `n`: whatever records (with IDs that fit 64
bits) the list request returns, the record with ID `n` possibly among them,
Exists returns `(false, nil)` and Read clears the identity; and Update, once
its payload is built and its partial-update request for the record `n` has
succeeded, runs that Read and returns nil with the identity cleared. -/
theorem identity_that_is_not_canonical_is_never_matched :
    (∀ (σ : Type) (client : Client σ Site WritableSite) (remote remote1 : σ) (d : ResourceData)
        (n : Int), ParseInt d.Id = some n → d.Id ≠ FormatInt n →
        (∀ page, client.List remote d.Id = .ok page →
          (∀ x ∈ page.Results, -(2 ^ 63) ≤ x.ID ∧ x.ID < 2 ^ 63) →
          resourceNetboxDcimSiteExists (client.List remote) d = { b := false, e := none, d := d } ∧
            resourceNetboxDcimSiteRead (client.List remote) d = .returned none (d.SetId "")) ∧
        (∀ params page1, resourceNetboxDcimSiteUpdateData d = some params →
          client.PartialUpdate remote n params = (none, remote1) →
          client.List remote1 d.Id = .ok page1 →
          (∀ x ∈ page1.Results, -(2 ^ 63) ≤ x.ID ∧ x.ID < 2 ^ 63) →
          resourceNetboxDcimSiteUpdate client remote d =
            { outcome := .returned none (d.SetId ""), remote := remote1,
              requests := [.update n params, .list d.Id] })) ∧
    (∀ (σ : Type) (client : Client σ Cable WritableCable) (remote remote1 : σ) (d : ResourceData)
        (n : Int), ParseInt d.Id = some n → d.Id ≠ FormatInt n →
        (∀ page, client.List remote d.Id = .ok page →
          (∀ x ∈ page.Results, -(2 ^ 63) ≤ x.ID ∧ x.ID < 2 ^ 63) →
          resourceNetboxDcimCableExists (client.List remote) d = { b := false, e := none, d := d } ∧
            resourceNetboxDcimCableRead (client.List remote) d = .returned none (d.SetId "")) ∧
        (∀ params page1, resourceNetboxDcimCableUpdateData d = some params →
          client.PartialUpdate remote n params = (none, remote1) →
          client.List remote1 d.Id = .ok page1 →
          (∀ x ∈ page1.Results, -(2 ^ 63) ≤ x.ID ∧ x.ID < 2 ^ 63) →
          resourceNetboxDcimCableUpdate client remote d =
            { outcome := .returned none (d.SetId ""), remote := remote1,
              requests := [.update n params, .list d.Id] })) ∧
    (∀ (σ : Type) (client : Client σ Device WritableDeviceWithConfigContext) (remote remote1 : σ) (d : ResourceData)
        (n : Int), ParseInt d.Id = some n → d.Id ≠ FormatInt n →
        (∀ page, client.List remote d.Id = .ok page →
          (∀ x ∈ page.Results, -(2 ^ 63) ≤ x.ID ∧ x.ID < 2 ^ 63) →
          resourceNetboxDcimDeviceExists (client.List remote) d = { b := false, e := none, d := d } ∧
            resourceNetboxDcimDeviceRead (client.List remote) d = .returned none (d.SetId "")) ∧
        (∀ params page1, resourceNetboxDcimDeviceUpdateData d = some params →
          client.PartialUpdate remote n params = (none, remote1) →
          client.List remote1 d.Id = .ok page1 →
          (∀ x ∈ page1.Results, -(2 ^ 63) ≤ x.ID ∧ x.ID < 2 ^ 63) →
          resourceNetboxDcimDeviceUpdate client remote d =
            { outcome := .returned none (d.SetId ""), remote := remote1,
              requests := [.update n params, .list d.Id] })) ∧
    (∀ (σ : Type) (client : Client σ Interface WritableInterface) (remote remote1 : σ) (d : ResourceData)
        (n : Int), ParseInt d.Id = some n → d.Id ≠ FormatInt n →
        (∀ page, client.List remote d.Id = .ok page →
          (∀ x ∈ page.Results, -(2 ^ 63) ≤ x.ID ∧ x.ID < 2 ^ 63) →
          resourceNetboxDcimInterfaceExists (client.List remote) d = { b := false, e := none, d := d } ∧
            resourceNetboxDcimInterfaceRead (client.List remote) d = .returned none (d.SetId "")) ∧
        (∀ params page1, resourceNetboxDcimInterfaceUpdateData d = some params →
          client.PartialUpdate remote n params = (none, remote1) →
          client.List remote1 d.Id = .ok page1 →
          (∀ x ∈ page1.Results, -(2 ^ 63) ≤ x.ID ∧ x.ID < 2 ^ 63) →
          resourceNetboxDcimInterfaceUpdate client remote d =
            { outcome := .returned none (d.SetId ""), remote := remote1,
              requests := [.update n params, .list d.Id] })) ∧
    (∀ (σ : Type) (client : Client σ Rack WritableRack) (remote remote1 : σ) (d : ResourceData)
        (n : Int), ParseInt d.Id = some n → d.Id ≠ FormatInt n →
        (∀ page, client.List remote d.Id = .ok page →
          (∀ x ∈ page.Results, -(2 ^ 63) ≤ x.ID ∧ x.ID < 2 ^ 63) →
          resourceNetboxDcimRackExists (client.List remote) d = { b := false, e := none, d := d } ∧
            resourceNetboxDcimRackRead (client.List remote) d = .returned none (d.SetId "")) ∧
        (∀ params page1, resourceNetboxDcimRackUpdateData d = some params →
          client.PartialUpdate remote n params = (none, remote1) →
          client.List remote1 d.Id = .ok page1 →
          (∀ x ∈ page1.Results, -(2 ^ 63) ≤ x.ID ∧ x.ID < 2 ^ 63) →
          resourceNetboxDcimRackUpdate client remote d =
            { outcome := .returned none (d.SetId ""), remote := remote1,
              requests := [.update n params, .list d.Id] })) ∧
    (∀ (σ : Type) (client : Client σ Cluster WritableCluster) (remote remote1 : σ) (d : ResourceData)
        (n : Int), ParseInt d.Id = some n → d.Id ≠ FormatInt n →
        (∀ page, client.List remote d.Id = .ok page →
          (∀ x ∈ page.Results, -(2 ^ 63) ≤ x.ID ∧ x.ID < 2 ^ 63) →
          resourceNetboxVirtualizationClusterExists (client.List remote) d = { b := false, e := none, d := d } ∧
            resourceNetboxVirtualizationClusterRead (client.List remote) d = .returned none (d.SetId "")) ∧
        (∀ params page1, resourceNetboxVirtualizationClusterUpdateData d = some params →
          client.PartialUpdate remote n params = (none, remote1) →
          client.List remote1 d.Id = .ok page1 →
          (∀ x ∈ page1.Results, -(2 ^ 63) ≤ x.ID ∧ x.ID < 2 ^ 63) →
          resourceNetboxVirtualizationClusterUpdate client remote d =
            { outcome := .returned none (d.SetId ""), remote := remote1,
              requests := [.update n params, .list d.Id] })) := by
  refine ⟨?_, ?_, ?_, ?_, ?_, ?_⟩ <;>
    exact fun σ client remote remote1 d n hparse hne =>
      not_canonical_identity _ _ _ client remote remote1 d n hparse hne

/-- Witness of C28: the identity `"042"` parses to 42; the list request
returns the site 42, Exists returns false and Read clears the identity, and
Update requests the partial update of the record 42 and returns nil with the
identity cleared. -/
theorem identity_that_is_not_canonical_is_never_matched_witness :
    ParseInt exampleZeroPaddedSiteData.Id = some 42 ∧
      exampleLenientSiteClient.List [exampleSite 42 "b"] exampleZeroPaddedSiteData.Id =
        .ok { Results := [exampleSite 42 "b"] } ∧
      resourceNetboxDcimSiteExists (exampleLenientSiteClient.List [exampleSite 42 "b"])
          exampleZeroPaddedSiteData =
        { b := false, e := none, d := exampleZeroPaddedSiteData } ∧
      resourceNetboxDcimSiteRead (exampleLenientSiteClient.List [exampleSite 42 "b"])
          exampleZeroPaddedSiteData =
        .returned none (exampleZeroPaddedSiteData.SetId "") ∧
      resourceNetboxDcimSiteUpdate exampleLenientSiteClient [exampleSite 42 "b"]
          exampleZeroPaddedSiteData =
        { outcome := .returned none (exampleZeroPaddedSiteData.SetId ""),
          remote := [exampleSite 42 "b"],
          requests := [.update 42 { Name := some "old", Slug := some "old" }, .list "042"] } := by
  have h := identity_that_is_not_canonical_is_never_matched.1 (List Site)
    exampleLenientSiteClient [exampleSite 42 "b"] [exampleSite 42 "b"]
    exampleZeroPaddedSiteData 42 (by decide) (by decide)
  have h1 := h.1 { Results := [exampleSite 42 "b"] } rfl (by simp [exampleSite])
  have h2 := h.2 { Name := some "old", Slug := some "old" } { Results := [exampleSite 42 "b"] }
    (by decide) rfl rfl (by simp [exampleSite])
  exact ⟨by decide, rfl, h1.1, h1.2, h2⟩

/-! ## Fields that Read does not write and payloads that Update does not build -/

theorem andThen_none {α β : Type} (f : α → Option β) : andThen none f = none := rfl

theorem setEach_returned_none : ∀ (body : List (String × Option Value)) (d d1 : ResourceData),
    setEach body d = .returned none d1 →
    ∀ e ∈ body, ∃ v s, e.2 = some v ∧ d.schema.lookup e.1 = some s ∧
      (decodeValue s.ty v).isSome = true := by
  intro body
  induction body with
  | nil => intro d d1 _ e he; simp at he
  | cons e0 rest ih =>
    intro d d1 h e he
    obtain ⟨k, ov⟩ := e0
    cases ov with
    | none => simp [setEach] at h
    | some v =>
      cases hset : d.Set k v with
      | error e1 => simp [setEach, hset] at h
      | ok d2 =>
        simp only [setEach, hset] at h
        obtain ⟨s, w, hs, hw, _⟩ := Set_ok hset
        rcases List.mem_cons.mp he with rfl | hin
        · exact ⟨v, s, rfl, hs, by rw [hw]; rfl⟩
        · obtain ⟨v1, s1, hv1, hs1, hd1⟩ := ih d2 d1 h e hin
          exact ⟨v1, s1, hv1, by rw [← Set_schema hset]; exact hs1, hd1⟩

/-- Read of an interface that is member of a LAG never returns nil, and
however it ends the declared `lag_id` is what it was. -/
theorem interface_read_of_lag_member (list : String → Except Error (Page Interface))
    (d : ResourceData) (page : Page Interface) (resource : Interface) (lag : Nested)
    (hschema : d.schema = resourceNetboxDcimInterface) (hlist : list d.Id = .ok page)
    (hfirst : FirstMatch Interface.ID d.Id page.Results resource)
    (hlag : resource.Lag = some lag) :
    (∀ d1, resourceNetboxDcimInterfaceRead list d ≠ .returned none d1) ∧
      ∀ err d1, resourceNetboxDcimInterfaceRead list d = .returned err d1 →
        d1.Get "lag_id" = d.Get "lag_id" := by
  have hread : resourceNetboxDcimInterfaceRead list d =
      setEach (resourceNetboxDcimInterfaceReadBody resource) d :=
    (readWith_firstMatch Interface.ID resourceNetboxDcimInterfaceReadBody list d page resource
      hlist hfirst).1
  rw [hread]
  constructor
  · intro d1 h
    obtain ⟨v, s, _, hs, _⟩ := setEach_returned_none _ d d1 h ("lag", some (.int64 lag.ID))
      (by simp [resourceNetboxDcimInterfaceReadBody, hlag])
    rw [hschema] at hs
    have hnone : resourceNetboxDcimInterface.lookup "lag" = none := by decide
    rw [show List.lookup ("lag", some (Value.int64 lag.ID)).1 resourceNetboxDcimInterface =
      none from hnone] at hs
    cases hs
  · intro err d1 h
    refine setEach_get_other "lag_id" _ d err d1 h ?_
    intro e he
    simp only [resourceNetboxDcimInterfaceReadBody, hlag, List.mem_cons, List.mem_singleton,
      List.not_mem_nil, or_false] at he
    rcases he with rfl | rfl | rfl | rfl | rfl | rfl | rfl | rfl | rfl | rfl | rfl | rfl | rfl |
      rfl <;> (dsimp only; decide)

/-- C22 fails at every LAG member, here the interface 7 in the LAG 9: Read of
the matching record returns the error of the write to the key `lag`, which
the schema does not declare, and the declared `lag_id` is 0 as before, not
9. -/
theorem interface_read_rejects_lag_reference :
    exampleLagMember.Lag = some { ID := 9 } ∧
      resourceNetboxDcimInterface.lookup "lag" = none ∧
      FirstMatch Interface.ID exampleInterfaceData.Id [exampleLagMember] exampleLagMember ∧
      exampleInterfaceData.Get "lag_id" = .int 0 ∧
      ∃ d1, resourceNetboxDcimInterfaceRead (fun _ => .ok { Results := [exampleLagMember] })
            exampleInterfaceData = .returned (some (.invalidAddress "lag")) d1 ∧
        d1.Get "lag_id" = .int 0 :=
  ⟨rfl, by decide, ⟨[], [], rfl, by simp, by decide⟩, by decide, _, rfl, by decide⟩

/-- Read of a device never writes `serial`: however Read of a matching record
ends, the declared serial is what it was. -/
theorem device_read_never_writes_serial (list : String → Except Error (Page Device))
    (d : ResourceData) (page : Page Device) (resource : Device)
    (hlist : list d.Id = .ok page)
    (hfirst : FirstMatch Device.ID d.Id page.Results resource) :
    ∀ err d1, resourceNetboxDcimDeviceRead list d = .returned err d1 →
      d1.Get "serial" = d.Get "serial" := by
  have hread : resourceNetboxDcimDeviceRead list d =
      setEach (resourceNetboxDcimDeviceReadBody resource) d :=
    (readWith_firstMatch Device.ID resourceNetboxDcimDeviceReadBody list d page resource
      hlist hfirst).1
  rw [hread]
  intro err d1 h
  refine setEach_get_other "serial" _ d err d1 h ?_
  intro e he
  simp only [resourceNetboxDcimDeviceReadBody, List.mem_cons, List.mem_singleton,
    List.not_mem_nil, or_false] at he
  rcases he with rfl | rfl | rfl | rfl | rfl | rfl | rfl | rfl | rfl | rfl | rfl | rfl | rfl |
    rfl | rfl | rfl <;> (dsimp only; decide)

/-- C23 fails at the serial: the device 3 is declared with the serial `"OLD"`
and the matching record has the serial `"NEW"`; Read returns nil and the
declared serial is still `"OLD"`. -/
theorem device_read_leaves_declared_serial :
    exampleSerialDevice.Serial = "NEW" ∧
      resourceNetboxDcimDevice.lookup "serial" = some { ty := .TypeString, Optional := true } ∧
      FirstMatch Device.ID exampleSerialDeviceData.Id [exampleSerialDevice]
        exampleSerialDevice ∧
      ∃ d1, resourceNetboxDcimDeviceRead (fun _ => .ok { Results := [exampleSerialDevice] })
            exampleSerialDeviceData = .returned none d1 ∧
        d1.Get "serial" = .str "OLD" :=
  ⟨rfl, by decide, ⟨[], [], rfl, by simp, by decide⟩, _, rfl, by decide⟩

/-- What the payload of a device Update carries for an optional field that is
flagged as changed: nothing when the declared value is the zero value of the
field, the declared value otherwise. -/
theorem resourceNetboxDcimDeviceUpdateData_changed (d : ResourceData)
    (p : WritableDeviceWithConfigContext)
    (h : resourceNetboxDcimDeviceUpdateData d = some p) :
    ∀ key sch, (key, sch) ∈ resourceNetboxDcimDevice → sch.Required = false →
      d.HasChange key = true →
      (d.Get key = zeroValue sch.ty → p.field key = none) ∧
        (d.Get key ≠ zeroValue sch.ty → p.field key = some (d.Get key)) := by
  simp only [resourceNetboxDcimDeviceUpdateData, andThen_eq_some, assertString_eq_some,
    assertInt_eq_some, assertInt64_eq_some, assertBool_eq_some, assertIntSet_eq_some,
    assertTagSet_eq_some] at h
  obtain ⟨a0, h0, a1, h1, a2, h2, a3, h3, a4, h4, a5, h5, a6, h6, a7, h7, a8, h8, a9, h9, a10, h10,
      a11, h11, a12, h12, a13, h13, a14, h14, a15, h15, a16, h16, hp⟩ := h
  injection hp with hp
  subst hp
  intro key sch hmem hreq hc
  simp only [resourceNetboxDcimDevice, List.mem_cons, Prod.mk.injEq, List.mem_singleton,
      List.not_mem_nil, or_false] at hmem
  rcases hmem with ⟨rfl, rfl⟩ | ⟨rfl, rfl⟩ | ⟨rfl, rfl⟩ | ⟨rfl, rfl⟩ | ⟨rfl, rfl⟩ | ⟨rfl, rfl⟩ |
      ⟨rfl, rfl⟩ | ⟨rfl, rfl⟩ | ⟨rfl, rfl⟩ | ⟨rfl, rfl⟩ | ⟨rfl, rfl⟩ | ⟨rfl, rfl⟩ | ⟨rfl, rfl⟩ |
      ⟨rfl, rfl⟩ | ⟨rfl, rfl⟩ | ⟨rfl, rfl⟩ | ⟨rfl, rfl⟩
  · rw [if_pos hc] at h4
    simp only [andThen_eq_some, assertString_eq_some, Option.some.injEq] at h4
    obtain ⟨x, hx, rfl⟩ := h4
    by_cases hz : x = "" <;>
      simp [WritableDeviceWithConfigContext.field, carriedString, zeroValue, hx, hz]
  · rw [if_pos hc] at h5
    simp only [andThen_eq_some, assertInt_eq_some, Option.some.injEq] at h5
    obtain ⟨x, hx, rfl⟩ := h5
    by_cases hz : x = 0 <;>
      simp [WritableDeviceWithConfigContext.field, carriedString, zeroValue, hx, hz]
  · exact absurd hreq (by decide)
  · exact absurd hreq (by decide)
  · rw [if_pos hc] at h6
    simp only [andThen_eq_some, assertString_eq_some, Option.some.injEq] at h6
    obtain ⟨x, hx, rfl⟩ := h6
    by_cases hz : x = "" <;>
      simp [WritableDeviceWithConfigContext.field, carriedString, zeroValue, hx, hz]
  · exact absurd hreq (by decide)
  · rw [if_pos hc] at h7
    simp only [andThen_eq_some, assertInt_eq_some, Option.some.injEq] at h7
    obtain ⟨x, hx, rfl⟩ := h7
    by_cases hz : x = 0 <;>
      simp [WritableDeviceWithConfigContext.field, carriedString, zeroValue, hx, hz]
  · rw [if_pos hc] at h8
    simp only [andThen_eq_some, assertInt_eq_some, Option.some.injEq] at h8
    obtain ⟨x, hx, rfl⟩ := h8
    by_cases hz : x = 0 <;>
      simp [WritableDeviceWithConfigContext.field, carriedString, zeroValue, hx, hz]
  · rw [if_pos hc] at h9
    simp only [andThen_eq_some, assertInt_eq_some, Option.some.injEq] at h9
    obtain ⟨x, hx, rfl⟩ := h9
    by_cases hz : x = 0 <;>
      simp [WritableDeviceWithConfigContext.field, carriedString, zeroValue, hx, hz]
  · rw [if_pos hc] at h10
    simp only [andThen_eq_some, assertInt_eq_some, Option.some.injEq] at h10
    obtain ⟨x, hx, rfl⟩ := h10
    by_cases hz : x = 0 <;>
      simp [WritableDeviceWithConfigContext.field, carriedString, zeroValue, hx, hz]
  · rw [if_pos hc] at h11
    simp only [andThen_eq_some, assertInt_eq_some, Option.some.injEq] at h11
    obtain ⟨x, hx, rfl⟩ := h11
    by_cases hz : x = 0 <;>
      simp [WritableDeviceWithConfigContext.field, carriedString, zeroValue, hx, hz]
  · rw [if_pos hc] at h12
    simp only [andThen_eq_some, assertInt_eq_some, Option.some.injEq] at h12
    obtain ⟨x, hx, rfl⟩ := h12
    by_cases hz : x = 0 <;>
      simp [WritableDeviceWithConfigContext.field, carriedString, zeroValue, hx, hz]
  · rw [if_pos hc] at h13
    simp only [andThen_eq_some, assertString_eq_some, Option.some.injEq] at h13
    obtain ⟨x, hx, rfl⟩ := h13
    by_cases hz : x = "" <;>
      simp [WritableDeviceWithConfigContext.field, carriedString, zeroValue, hx, hz]
  · exact absurd hreq (by decide)
  · rw [if_pos hc] at h14
    simp only [andThen_eq_some, assertString_eq_some, Option.some.injEq] at h14
    obtain ⟨x, hx, rfl⟩ := h14
    by_cases hz : x = "" <;>
      simp [WritableDeviceWithConfigContext.field, carriedString, zeroValue, hx, hz]
  · rw [if_pos hc] at h15
    simp only [andThen_eq_some, assertInt_eq_some, Option.some.injEq] at h15
    obtain ⟨x, hx, rfl⟩ := h15
    by_cases hz : x = 0 <;>
      simp [WritableDeviceWithConfigContext.field, carriedString, zeroValue, hx, hz]
  · rw [if_pos hc] at h16
    simp only [andThen_eq_some, assertInt_eq_some, Option.some.injEq] at h16
    obtain ⟨x, hx, rfl⟩ := h16
    by_cases hz : x = 0 <;>
      simp [WritableDeviceWithConfigContext.field, carriedString, zeroValue, hx, hz]

/-- C24 fails at a removed reference: `cluster_id` of the device 3 is flagged
as changed and its declared value is 0; the payload built by Update has no
cluster. -/
theorem device_update_drops_removed_cluster :
    exampleUnclusteredDeviceData.HasChange "cluster_id" = true ∧
      exampleUnclusteredDeviceData.Get "cluster_id" = .int 0 ∧
      resourceNetboxDcimDeviceUpdateData exampleUnclusteredDeviceData =
        some { DeviceRole := some 1, DeviceType := some 2, Site := some 3, Name := some "sw1" } ∧
      (resourceNetboxDcimDeviceUpdateData exampleUnclusteredDeviceData).map
          (fun p => p.field "cluster_id") = some none ∧
      resourceNetboxDcimDeviceUpdate
          (exampleSilentClient Device WritableDeviceWithConfigContext) ()
          exampleUnclusteredDeviceData =
        { outcome := .returned none (exampleUnclusteredDeviceData.SetId ""), remote := (),
          requests :=
            [.update 3 { DeviceRole := some 1, DeviceType := some 2, Site := some 3,
                         Name := some "sw1" },
             .list "3"] } := by
  decide

/-- The payload of a rack Update is never built when `desc_units` is flagged
as changed: the value asserted to be a `bool` is the one of `u_height`, an
integer. -/
theorem rack_update_payload_panics (d : ResourceData) (hs : d.schema = resourceNetboxDcimRack)
    (hc : d.HasChange "desc_units" = true) : resourceNetboxDcimRackUpdateData d = none := by
  obtain ⟨v_asset_tag, h_asset_tag⟩ := Get_str d "asset_tag" _ (by rw [hs]; rfl) rfl
  obtain ⟨v_facility_id, h_facility_id⟩ := Get_str d "facility_id" _ (by rw [hs]; rfl) rfl
  obtain ⟨v_group_id, h_group_id⟩ := Get_int d "group_id" _ (by rw [hs]; rfl) rfl
  obtain ⟨v_name, h_name⟩ := Get_str d "name" _ (by rw [hs]; rfl) rfl
  obtain ⟨v_role_id, h_role_id⟩ := Get_int d "role_id" _ (by rw [hs]; rfl) rfl
  obtain ⟨v_serial, h_serial⟩ := Get_str d "serial" _ (by rw [hs]; rfl) rfl
  obtain ⟨v_site_id, h_site_id⟩ := Get_int d "site_id" _ (by rw [hs]; rfl) rfl
  obtain ⟨v_status, h_status⟩ := Get_str d "status" _ (by rw [hs]; rfl) rfl
  obtain ⟨v_tenant_id, h_tenant_id⟩ := Get_int d "tenant_id" _ (by rw [hs]; rfl) rfl
  obtain ⟨v_u_height, h_u_height⟩ := Get_int d "u_height" _ (by rw [hs]; rfl) rfl
  simp [resourceNetboxDcimRackUpdateData, h_asset_tag, h_facility_id, h_group_id,
      h_name, h_role_id, h_serial, h_site_id, h_status, h_tenant_id, h_u_height,
    Value.assertString, Value.assertInt, Value.assertBool, andThen_some, andThen_none,
    ite_some_some, hc]

/-- C25 fails whenever `desc_units` is flagged as changed, here with
`desc_units = true` and `u_height = 42`: the payload is not built, Update
panics on the assertion `d.Get("u_height").(bool)` and issues no request. -/
theorem rack_update_panics_on_changed_desc_units :
    exampleRackData.HasChange "desc_units" = true ∧
      exampleRackData.Get "desc_units" = .bool true ∧
      exampleRackData.Get "u_height" = .int 42 ∧
      (exampleRackData.Get "u_height").assertBool = none ∧
      resourceNetboxDcimRackUpdateData exampleRackData = none ∧
      resourceNetboxDcimRackUpdate (exampleSilentClient Rack WritableRack) () exampleRackData =
        { outcome := .panicked, remote := (), requests := [] } := by
  decide

/-- The payload of a site Update is never built when `tenant_id` is flagged as
changed: the value of the integer field is asserted to be an `int64`. -/
theorem site_update_payload_panics (d : ResourceData) (hs : d.schema = resourceNetboxDcimSite)
    (hc : d.HasChange "tenant_id" = true) : resourceNetboxDcimSiteUpdateData d = none := by
  obtain ⟨v_name, h_name⟩ := Get_str d "name" _ (by rw [hs]; rfl) rfl
  obtain ⟨v_slug, h_slug⟩ := Get_str d "slug" _ (by rw [hs]; rfl) rfl
  obtain ⟨v_status, h_status⟩ := Get_str d "status" _ (by rw [hs]; rfl) rfl
  obtain ⟨v_tenant_id, h_tenant_id⟩ := Get_int d "tenant_id" _ (by rw [hs]; rfl) rfl
  simp [resourceNetboxDcimSiteUpdateData, h_name, h_slug, h_status, h_tenant_id,
    Value.assertString, Value.assertInt64, andThen_some, andThen_none, ite_some_some, hc]

/-- C26 fails whenever `tenant_id` is flagged as changed, here for the site 42
with the declared tenant 3: the store yields the Go `int` 3, the payload is
not built, Update panics on the assertion `.(int64)` and issues no
request. -/
theorem site_update_panics_on_changed_tenant :
    exampleMovedSiteData.HasChange "tenant_id" = true ∧
      exampleMovedSiteData.Get "tenant_id" = .int 3 ∧
      (exampleMovedSiteData.Get "tenant_id").assertInt64 = none ∧
      resourceNetboxDcimSiteUpdateData exampleMovedSiteData = none ∧
      resourceNetboxDcimSiteUpdate exampleSiteClient [exampleSite 42 "b"] exampleMovedSiteData =
        { outcome := .panicked, remote := [exampleSite 42 "b"], requests := [] } := by
  decide

/-! ## Read of a matching record: what the declared fields hold afterwards -/

theorem setEach_projects (body : List (String × Option Value)) (d d1 : ResourceData)
    (key : String) (h : setEach body d = .returned none d1)
    (hnodup : (body.map Prod.fst).Nodup) (v : Value) (hmem : (key, some v) ∈ body)
    (s : Schema) (hs : d.schema.lookup key = some s) (w : Value)
    (hw : decodeValue s.ty v = some w) : d1.Get key = w := by
  refine setEach_get key v body d d1 s w h hmem ?_ hs hw
  exact List.count_eq_one_of_mem hnodup (List.mem_map_of_mem Prod.fst hmem)

/-- Read of a site whose data follow the schema never fails on a matching
record, and afterwards every field that Read writes holds what the record
holds: strings and numbers as they are, a nil pointer as the zero value, a
reference as the ID it points to, a choice as its value. -/
theorem site_read_projection (list : String → Except Error (Page Site)) (d : ResourceData)
    (page : Page Site) (resource : Site) (hschema : d.schema = resourceNetboxDcimSite)
    (hlist : list d.Id = .ok page) (hfirst : FirstMatch Site.ID d.Id page.Results resource) :
    (∃ d1, resourceNetboxDcimSiteRead list d = .returned none d1) ∧
      ∀ d1, resourceNetboxDcimSiteRead list d = .returned none d1 →
        d1.Get "name" = .str (resource.Name.getD "") ∧
        d1.Get "slug" = .str (resource.Slug.getD "") ∧
        d1.Get "status" = .str ((resource.Status.bind Choice.Value).getD "") ∧
        d1.Get "tenant_id" = .int ((resource.Tenant.map Nested.ID).getD 0) := by
  refine ⟨(site_read_nil_projections list d page resource hschema hlist hfirst).1, ?_⟩
  have hread : resourceNetboxDcimSiteRead list d =
      setEach (resourceNetboxDcimSiteReadBody resource) d :=
    (readWith_firstMatch Site.ID resourceNetboxDcimSiteReadBody list d page resource hlist
      hfirst).1
  rw [hread]
  intro d1 h
  have hnodup : ((resourceNetboxDcimSiteReadBody resource).map Prod.fst).Nodup := by
    simp only [resourceNetboxDcimSiteReadBody, List.map]
    decide
  refine ⟨?_, ?_, ?_, ?_⟩
  · exact setEach_projects _ d d1 "name" h hnodup _
      (by repeat (first | exact List.mem_cons_self _ _ | apply List.mem_cons_of_mem))
      _ (by rw [hschema]; rfl) _ (by cases resource.Name <;> rfl)
  · exact setEach_projects _ d d1 "slug" h hnodup _
      (by repeat (first | exact List.mem_cons_self _ _ | apply List.mem_cons_of_mem))
      _ (by rw [hschema]; rfl) _ (by cases resource.Slug <;> rfl)
  · exact setEach_projects _ d d1 "status" h hnodup _
      (by repeat (first | exact List.mem_cons_self _ _ | apply List.mem_cons_of_mem))
      _ (by rw [hschema]; rfl) _ (by rcases resource.Status with _ | ⟨_ | _, _⟩ <;> rfl)
  · exact setEach_projects _ d d1 "tenant_id" h hnodup _
      (by repeat (first | exact List.mem_cons_self _ _ | apply List.mem_cons_of_mem))
      _ (by rw [hschema]; rfl) _ (by cases resource.Tenant <;> rfl)

/-- Read of a cable whose data follow the schema never fails on a matching
record, and afterwards every field that Read writes holds what the record
holds: strings and numbers as they are, a nil pointer as the zero value, a
reference as the ID it points to, a choice as its value. -/
theorem cable_read_projection (list : String → Except Error (Page Cable)) (d : ResourceData)
    (page : Page Cable) (resource : Cable) (hschema : d.schema = resourceNetboxDcimCable)
    (hlist : list d.Id = .ok page) (hfirst : FirstMatch Cable.ID d.Id page.Results resource) :
    (∃ d1, resourceNetboxDcimCableRead list d = .returned none d1) ∧
      ∀ d1, resourceNetboxDcimCableRead list d = .returned none d1 →
        d1.Get "status" = .str ((resource.Status.bind Choice.Value).getD "") ∧
        d1.Get "termination_a_id" = .int (resource.TerminationaID.getD 0) ∧
        d1.Get "termination_a_type" = .str (resource.TerminationaType.getD "") ∧
        d1.Get "termination_b_id" = .int (resource.TerminationbID.getD 0) ∧
        d1.Get "termination_b_type" = .str (resource.TerminationbType.getD "") := by
  refine ⟨(cable_read_nil_projections list d page resource hschema hlist hfirst).1, ?_⟩
  have hread : resourceNetboxDcimCableRead list d =
      setEach (resourceNetboxDcimCableReadBody resource) d :=
    (readWith_firstMatch Cable.ID resourceNetboxDcimCableReadBody list d page resource hlist
      hfirst).1
  rw [hread]
  intro d1 h
  have hnodup : ((resourceNetboxDcimCableReadBody resource).map Prod.fst).Nodup := by
    simp only [resourceNetboxDcimCableReadBody, List.map]
    decide
  refine ⟨?_, ?_, ?_, ?_, ?_⟩
  · exact setEach_projects _ d d1 "status" h hnodup _
      (by repeat (first | exact List.mem_cons_self _ _ | apply List.mem_cons_of_mem))
      _ (by rw [hschema]; rfl) _ (by rcases resource.Status with _ | ⟨_ | _, _⟩ <;> rfl)
  · exact setEach_projects _ d d1 "termination_a_id" h hnodup _
      (by repeat (first | exact List.mem_cons_self _ _ | apply List.mem_cons_of_mem))
      _ (by rw [hschema]; rfl) _ (by cases resource.TerminationaID <;> rfl)
  · exact setEach_projects _ d d1 "termination_a_type" h hnodup _
      (by repeat (first | exact List.mem_cons_self _ _ | apply List.mem_cons_of_mem))
      _ (by rw [hschema]; rfl) _ (by cases resource.TerminationaType <;> rfl)
  · exact setEach_projects _ d d1 "termination_b_id" h hnodup _
      (by repeat (first | exact List.mem_cons_self _ _ | apply List.mem_cons_of_mem))
      _ (by rw [hschema]; rfl) _ (by cases resource.TerminationbID <;> rfl)
  · exact setEach_projects _ d d1 "termination_b_type" h hnodup _
      (by repeat (first | exact List.mem_cons_self _ _ | apply List.mem_cons_of_mem))
      _ (by rw [hschema]; rfl) _ (by cases resource.TerminationbType <;> rfl)

/-- Read of a cluster whose data follow the schema never fails on a matching
record, and afterwards every field that Read writes holds what the record
holds: strings and numbers as they are, a nil pointer as the zero value, a
reference as the ID it points to, a choice as its value. -/
theorem cluster_read_projection (list : String → Except Error (Page Cluster)) (d : ResourceData)
    (page : Page Cluster) (resource : Cluster) (hschema : d.schema = resourceNetboxVirtualizationCluster)
    (hlist : list d.Id = .ok page) (hfirst : FirstMatch Cluster.ID d.Id page.Results resource) :
    (∃ d1, resourceNetboxVirtualizationClusterRead list d = .returned none d1) ∧
      ∀ d1, resourceNetboxVirtualizationClusterRead list d = .returned none d1 →
        d1.Get "name" = .str (resource.Name.getD "") ∧
        d1.Get "type_id" = .int ((resource.Type_.map Nested.ID).getD 0) ∧
        d1.Get "site_id" = .int ((resource.Site.map Nested.ID).getD 0) ∧
        d1.Get "tenant_id" = .int ((resource.Tenant.map Nested.ID).getD 0) := by
  refine ⟨(cluster_read_nil_projections list d page resource hschema hlist hfirst).1, ?_⟩
  have hread : resourceNetboxVirtualizationClusterRead list d =
      setEach (resourceNetboxVirtualizationClusterReadBody resource) d :=
    (readWith_firstMatch Cluster.ID resourceNetboxVirtualizationClusterReadBody list d page resource hlist
      hfirst).1
  rw [hread]
  intro d1 h
  have hnodup : ((resourceNetboxVirtualizationClusterReadBody resource).map Prod.fst).Nodup := by
    simp only [resourceNetboxVirtualizationClusterReadBody, List.map]
    decide
  refine ⟨?_, ?_, ?_, ?_⟩
  · exact setEach_projects _ d d1 "name" h hnodup _
      (by repeat (first | exact List.mem_cons_self _ _ | apply List.mem_cons_of_mem))
      _ (by rw [hschema]; rfl) _ (by cases resource.Name <;> rfl)
  · exact setEach_projects _ d d1 "type_id" h hnodup _
      (by repeat (first | exact List.mem_cons_self _ _ | apply List.mem_cons_of_mem))
      _ (by rw [hschema]; rfl) _ (by cases resource.Type_ <;> rfl)
  · exact setEach_projects _ d d1 "site_id" h hnodup _
      (by repeat (first | exact List.mem_cons_self _ _ | apply List.mem_cons_of_mem))
      _ (by rw [hschema]; rfl) _ (by cases resource.Site <;> rfl)
  · exact setEach_projects _ d d1 "tenant_id" h hnodup _
      (by repeat (first | exact List.mem_cons_self _ _ | apply List.mem_cons_of_mem))
      _ (by rw [hschema]; rfl) _ (by cases resource.Tenant <;> rfl)

/-- Read of a rack whose data follow the schema never fails on a matching
record, and afterwards every field that Read writes holds what the record
holds: strings and numbers as they are, a nil pointer as the zero value, a
reference as the ID it points to, a choice as its value. -/
theorem rack_read_projection (list : String → Except Error (Page Rack)) (d : ResourceData)
    (page : Page Rack) (resource : Rack) (hschema : d.schema = resourceNetboxDcimRack)
    (hlist : list d.Id = .ok page) (hfirst : FirstMatch Rack.ID d.Id page.Results resource) :
    (∃ d1, resourceNetboxDcimRackRead list d = .returned none d1) ∧
      ∀ d1, resourceNetboxDcimRackRead list d = .returned none d1 →
        d1.Get "name" = .str (resource.Name.getD "") ∧
        d1.Get "asset_tag" = .str (resource.AssetTag.getD "") ∧
        d1.Get "facility_id" = .str (resource.FacilityID.getD "") ∧
        d1.Get "serial" = .str resource.Serial ∧
        d1.Get "u_height" = .int resource.UHeight ∧
        d1.Get "desc_units" = .bool resource.DescUnits ∧
        d1.Get "group_id" = .int ((resource.Group.map Nested.ID).getD 0) ∧
        d1.Get "role_id" = .int ((resource.Role.map Nested.ID).getD 0) ∧
        d1.Get "status" = .str ((resource.Status.bind Choice.Value).getD "") ∧
        d1.Get "site_id" = .int ((resource.Site.map Nested.ID).getD 0) ∧
        d1.Get "tenant_id" = .int ((resource.Tenant.map Nested.ID).getD 0) := by
  refine ⟨(rack_read_nil_projections list d page resource hschema hlist hfirst).1, ?_⟩
  have hread : resourceNetboxDcimRackRead list d =
      setEach (resourceNetboxDcimRackReadBody resource) d :=
    (readWith_firstMatch Rack.ID resourceNetboxDcimRackReadBody list d page resource hlist
      hfirst).1
  rw [hread]
  intro d1 h
  have hnodup : ((resourceNetboxDcimRackReadBody resource).map Prod.fst).Nodup := by
    simp only [resourceNetboxDcimRackReadBody, List.map]
    decide
  refine ⟨?_, ?_, ?_, ?_, ?_, ?_, ?_, ?_, ?_, ?_, ?_⟩
  · exact setEach_projects _ d d1 "name" h hnodup _
      (by repeat (first | exact List.mem_cons_self _ _ | apply List.mem_cons_of_mem))
      _ (by rw [hschema]; rfl) _ (by cases resource.Name <;> rfl)
  · exact setEach_projects _ d d1 "asset_tag" h hnodup _
      (by repeat (first | exact List.mem_cons_self _ _ | apply List.mem_cons_of_mem))
      _ (by rw [hschema]; rfl) _ (by cases resource.AssetTag <;> rfl)
  · exact setEach_projects _ d d1 "facility_id" h hnodup _
      (by repeat (first | exact List.mem_cons_self _ _ | apply List.mem_cons_of_mem))
      _ (by rw [hschema]; rfl) _ (by cases resource.FacilityID <;> rfl)
  · exact setEach_projects _ d d1 "serial" h hnodup _
      (by repeat (first | exact List.mem_cons_self _ _ | apply List.mem_cons_of_mem))
      _ (by rw [hschema]; rfl) _ (by rfl)
  · exact setEach_projects _ d d1 "u_height" h hnodup _
      (by repeat (first | exact List.mem_cons_self _ _ | apply List.mem_cons_of_mem))
      _ (by rw [hschema]; rfl) _ (by rfl)
  · exact setEach_projects _ d d1 "desc_units" h hnodup _
      (by repeat (first | exact List.mem_cons_self _ _ | apply List.mem_cons_of_mem))
      _ (by rw [hschema]; rfl) _ (by rfl)
  · exact setEach_projects _ d d1 "group_id" h hnodup _
      (by repeat (first | exact List.mem_cons_self _ _ | apply List.mem_cons_of_mem))
      _ (by rw [hschema]; rfl) _ (by cases resource.Group <;> rfl)
  · exact setEach_projects _ d d1 "role_id" h hnodup _
      (by repeat (first | exact List.mem_cons_self _ _ | apply List.mem_cons_of_mem))
      _ (by rw [hschema]; rfl) _ (by cases resource.Role <;> rfl)
  · exact setEach_projects _ d d1 "status" h hnodup _
      (by repeat (first | exact List.mem_cons_self _ _ | apply List.mem_cons_of_mem))
      _ (by rw [hschema]; rfl) _ (by rcases resource.Status with _ | ⟨_ | _, _⟩ <;> rfl)
  · exact setEach_projects _ d d1 "site_id" h hnodup _
      (by repeat (first | exact List.mem_cons_self _ _ | apply List.mem_cons_of_mem))
      _ (by rw [hschema]; rfl) _ (by cases resource.Site <;> rfl)
  · exact setEach_projects _ d d1 "tenant_id" h hnodup _
      (by repeat (first | exact List.mem_cons_self _ _ | apply List.mem_cons_of_mem))
      _ (by rw [hschema]; rfl) _ (by cases resource.Tenant <;> rfl)

/-- Read of a device whose data follow the schema returns nil on a matching
record exactly when the record has a site, and afterwards every field that
Read writes holds what the record holds. -/
theorem device_read_projection (list : String → Except Error (Page Device)) (d : ResourceData)
    (page : Page Device) (resource : Device) (hschema : d.schema = resourceNetboxDcimDevice)
    (hlist : list d.Id = .ok page) (hfirst : FirstMatch Device.ID d.Id page.Results resource) :
    (resource.Site ≠ none → ∃ d1, resourceNetboxDcimDeviceRead list d = .returned none d1) ∧
      ∀ d1, resourceNetboxDcimDeviceRead list d = .returned none d1 →
        resource.Site ≠ none ∧
        d1.Get "asset_tag" = .str (resource.AssetTag.getD "") ∧
        d1.Get "cluster_id" = .int ((resource.Cluster.map Nested.ID).getD 0) ∧
        d1.Get "name" = .str (resource.Name.getD "") ∧
        d1.Get "position" = .int (resource.Position.getD 0) ∧
        d1.Get "platform_id" = .int ((resource.Platform.map Nested.ID).getD 0) ∧
        d1.Get "primary_ip4_id" = .int ((resource.PrimaryIp4.map Nested.ID).getD 0) ∧
        d1.Get "primary_ip6_id" = .int ((resource.PrimaryIp6.map Nested.ID).getD 0) ∧
        d1.Get "rack_id" = .int ((resource.Rack.map Nested.ID).getD 0) ∧
        d1.Get "virtual_chassis_id" = .int ((resource.VirtualChassis.map Nested.ID).getD 0) ∧
        d1.Get "device_role_id" = .int ((resource.DeviceRole.map Nested.ID).getD 0) ∧
        d1.Get "device_type_id" = .int ((resource.DeviceType.map Nested.ID).getD 0) ∧
        d1.Get "face" = .str ((resource.Face.bind Choice.Value).getD "") ∧
        d1.Get "parent_device_id" = .int ((resource.ParentDevice.map Nested.ID).getD 0) ∧
        d1.Get "tenant_id" = .int ((resource.Tenant.map Nested.ID).getD 0) ∧
        d1.Get "site_id" = .int ((resource.Site.map Nested.ID).getD 0) ∧
        d1.Get "status" = .str ((resource.Status.bind Choice.Value).getD "") := by
  have hread : resourceNetboxDcimDeviceRead list d =
      setEach (resourceNetboxDcimDeviceReadBody resource) d :=
    (readWith_firstMatch Device.ID resourceNetboxDcimDeviceReadBody list d page resource hlist
      hfirst).1
  rw [hread]
  constructor
  · intro hsite
    obtain ⟨site, hS⟩ := Option.ne_none_iff_exists'.mp hsite
    apply setEach_succeeds
    intro e he
    simp only [resourceNetboxDcimDeviceReadBody, hS, List.mem_cons, List.mem_singleton,
      List.not_mem_nil, or_false] at he
    rcases he with rfl | rfl | rfl | rfl | rfl | rfl | rfl | rfl | rfl | rfl | rfl | rfl | rfl | rfl | rfl | rfl <;>
      refine ⟨_, _, rfl, (by rw [hschema]; rfl), ?_⟩ <;>
      first
        | rfl
        | exact decodeValue_ofStringPtr _
        | exact decodeValue_ofInt64Ptr _
        | (split <;> first | rfl | exact decodeValue_ofStringPtr _)
  · intro d1 h
    have hnodup : ((resourceNetboxDcimDeviceReadBody resource).map Prod.fst).Nodup := by
      simp only [resourceNetboxDcimDeviceReadBody, List.map]
      decide
    have hsite : ∃ site, resource.Site = some site := by
      cases hS : resource.Site with
      | some site => exact ⟨site, rfl⟩
      | none =>
        obtain ⟨v, s, hv, hs, hdec⟩ := setEach_returned_none _ d d1 h
          ("site_id", some (.str "")) (by simp [resourceNetboxDcimDeviceReadBody, hS])
        rw [hschema] at hs
        have hty : resourceNetboxDcimDevice.lookup "site_id" =
            some { ty := .TypeInt, Required := true } := by decide
        rw [show List.lookup ("site_id", some (Value.str "")).1 resourceNetboxDcimDevice =
          some { ty := .TypeInt, Required := true } from hty] at hs
        cases hs
        cases hv
        simp [decodeValue] at hdec
    obtain ⟨site, hS⟩ := hsite
    refine ⟨by rw [hS]; simp, ?_, ?_, ?_, ?_, ?_, ?_, ?_, ?_, ?_, ?_, ?_, ?_, ?_, ?_, ?_, ?_⟩
    · exact setEach_projects _ d d1 "asset_tag" h hnodup _
        (by repeat (first | exact List.mem_cons_self _ _ | apply List.mem_cons_of_mem))
        _ (by rw [hschema]; rfl) _ (by cases resource.AssetTag <;> rfl)
    · exact setEach_projects _ d d1 "cluster_id" h hnodup _
        (by repeat (first | exact List.mem_cons_self _ _ | apply List.mem_cons_of_mem))
        _ (by rw [hschema]; rfl) _ (by cases resource.Cluster <;> rfl)
    · exact setEach_projects _ d d1 "name" h hnodup _
        (by repeat (first | exact List.mem_cons_self _ _ | apply List.mem_cons_of_mem))
        _ (by rw [hschema]; rfl) _ (by cases resource.Name <;> rfl)
    · exact setEach_projects _ d d1 "position" h hnodup _
        (by repeat (first | exact List.mem_cons_self _ _ | apply List.mem_cons_of_mem))
        _ (by rw [hschema]; rfl) _ (by cases resource.Position <;> rfl)
    · exact setEach_projects _ d d1 "platform_id" h hnodup _
        (by repeat (first | exact List.mem_cons_self _ _ | apply List.mem_cons_of_mem))
        _ (by rw [hschema]; rfl) _ (by cases resource.Platform <;> rfl)
    · exact setEach_projects _ d d1 "primary_ip4_id" h hnodup _
        (by repeat (first | exact List.mem_cons_self _ _ | apply List.mem_cons_of_mem))
        _ (by rw [hschema]; rfl) _ (by cases resource.PrimaryIp4 <;> rfl)
    · exact setEach_projects _ d d1 "primary_ip6_id" h hnodup _
        (by repeat (first | exact List.mem_cons_self _ _ | apply List.mem_cons_of_mem))
        _ (by rw [hschema]; rfl) _ (by cases resource.PrimaryIp6 <;> rfl)
    · exact setEach_projects _ d d1 "rack_id" h hnodup _
        (by repeat (first | exact List.mem_cons_self _ _ | apply List.mem_cons_of_mem))
        _ (by rw [hschema]; rfl) _ (by cases resource.Rack <;> rfl)
    · exact setEach_projects _ d d1 "virtual_chassis_id" h hnodup _
        (by repeat (first | exact List.mem_cons_self _ _ | apply List.mem_cons_of_mem))
        _ (by rw [hschema]; rfl) _ (by cases resource.VirtualChassis <;> rfl)
    · exact setEach_projects _ d d1 "device_role_id" h hnodup _
        (by repeat (first | exact List.mem_cons_self _ _ | apply List.mem_cons_of_mem))
        _ (by rw [hschema]; rfl) _ (by cases resource.DeviceRole <;> rfl)
    · exact setEach_projects _ d d1 "device_type_id" h hnodup _
        (by repeat (first | exact List.mem_cons_self _ _ | apply List.mem_cons_of_mem))
        _ (by rw [hschema]; rfl) _ (by cases resource.DeviceType <;> rfl)
    · exact setEach_projects _ d d1 "face" h hnodup _
        (by repeat (first | exact List.mem_cons_self _ _ | apply List.mem_cons_of_mem))
        _ (by rw [hschema]; rfl) _ (by rcases resource.Face with _ | ⟨_ | _, _⟩ <;> rfl)
    · exact setEach_projects _ d d1 "parent_device_id" h hnodup _
        (by repeat (first | exact List.mem_cons_self _ _ | apply List.mem_cons_of_mem))
        _ (by rw [hschema]; rfl) _ (by cases resource.ParentDevice <;> rfl)
    · exact setEach_projects _ d d1 "tenant_id" h hnodup _
        (by repeat (first | exact List.mem_cons_self _ _ | apply List.mem_cons_of_mem))
        _ (by rw [hschema]; rfl) _ (by cases resource.Tenant <;> rfl)
    · exact setEach_projects _ d d1 "site_id" h hnodup _
        (by repeat (first | exact List.mem_cons_self _ _ | apply List.mem_cons_of_mem))
        _ (by rw [hschema]; rfl) _ (by rw [hS]; rfl)
    · exact setEach_projects _ d d1 "status" h hnodup _
        (by repeat (first | exact List.mem_cons_self _ _ | apply List.mem_cons_of_mem))
        _ (by rw [hschema]; rfl) _ (by rcases resource.Status with _ | ⟨_ | _, _⟩ <;> rfl)

theorem decodeValue_ofBoolPtr (o : Option Bool) :
    (decodeValue .TypeBool (.ofBoolPtr o)).isSome = true := by
  cases o <;> rfl

/-- Read of an interface whose data follow the schema returns nil on a matching
record exactly when the record has a type, is no member of a LAG and lists no
tagged VLAN, and afterwards every field that Read writes holds what the
record holds. -/
theorem interface_read_projection (list : String → Except Error (Page Interface))
    (d : ResourceData) (page : Page Interface) (resource : Interface)
    (hschema : d.schema = resourceNetboxDcimInterface)
    (hlist : list d.Id = .ok page)
    (hfirst : FirstMatch Interface.ID d.Id page.Results resource) :
    (resource.Type_ ≠ none → resource.Lag = none → resource.TaggedVlans = [] →
        ∃ d1, resourceNetboxDcimInterfaceRead list d = .returned none d1) ∧
      ∀ d1, resourceNetboxDcimInterfaceRead list d = .returned none d1 →
        resource.Type_ ≠ none ∧ resource.Lag = none ∧ resource.TaggedVlans = [] ∧
        d1.Get "device_id" = .int ((resource.Device.map Nested.ID).getD 0) ∧
        d1.Get "name" = .str (resource.Name.getD "") ∧
        d1.Get "type" = .str ((resource.Type_.bind Choice.Value).getD "") ∧
        d1.Get "enabled" = .bool resource.Enabled ∧
        d1.Get "lag_id" = .int 0 ∧
        d1.Get "mtu" = .int (resource.Mtu.getD 0) ∧
        d1.Get "mac_address" = .str (resource.MacAddress.getD "") ∧
        d1.Get "mgmt_only" = .bool resource.MgmtOnly ∧
        d1.Get "description" =
          .str (if resource.Description = "" then " " else resource.Description) ∧
        d1.Get "connection_status" =
          .bool ((resource.ConnectionStatus.bind BoolChoice.Value).getD false) ∧
        d1.Get "mode" = .str ((resource.Mode.bind Choice.Value).getD "") ∧
        d1.Get "untagged_vlan_id" = .int ((resource.UntaggedVlan.map Nested.ID).getD 0) ∧
        d1.Get "tagged_vlans" = .ints [] ∧
        some (d1.Get "tag") =
          decodeValue .TypeSetOfTag (convertNestedTagsToTags resource.Tags) := by
  have hread : resourceNetboxDcimInterfaceRead list d =
      setEach (resourceNetboxDcimInterfaceReadBody resource) d :=
    (readWith_firstMatch Interface.ID resourceNetboxDcimInterfaceReadBody list d page resource
      hlist hfirst).1
  rw [hread]
  constructor
  · intro htype hlag hvlans
    obtain ⟨type, hT⟩ := Option.ne_none_iff_exists'.mp htype
    apply setEach_succeeds
    intro e he
    simp only [resourceNetboxDcimInterfaceReadBody, hT, hlag, hvlans, List.mem_cons,
      List.mem_singleton, List.not_mem_nil, or_false] at he
    rcases he with rfl | rfl | rfl | rfl | rfl | rfl | rfl | rfl | rfl | rfl | rfl | rfl | rfl |
        rfl <;>
      refine ⟨_, _, rfl, (by rw [hschema]; rfl), ?_⟩ <;>
      first
        | rfl
        | exact decodeValue_ofStringPtr _
        | exact decodeValue_ofInt64Ptr _
        | (split <;> first | rfl | exact decodeValue_ofStringPtr _ |
            exact decodeValue_ofBoolPtr _)
  · intro d1 h
    have hall := setEach_returned_none _ d d1 h
    have htype : ∃ type, resource.Type_ = some type := by
      cases hT : resource.Type_ with
      | some type => exact ⟨type, rfl⟩
      | none =>
        obtain ⟨v, _, hv, _, _⟩ := hall ("type", none)
          (by simp [resourceNetboxDcimInterfaceReadBody, hT])
        cases hv
    have hlag : resource.Lag = none := by
      cases hL : resource.Lag with
      | none => rfl
      | some lag =>
        exact absurd h
          ((interface_read_of_lag_member list d page resource lag hschema hlist hfirst hL).1 d1
            |> fun hne => by rw [hread] at hne; exact hne)
    have hvlans : resource.TaggedVlans = [] := by
      cases hV : resource.TaggedVlans with
      | nil => rfl
      | cons x xs =>
        obtain ⟨v, s, hv, hs, hdec⟩ := hall ("tagged_vlans", some (.vlans (x :: xs)))
          (by simp [resourceNetboxDcimInterfaceReadBody, hV])
        rw [hschema] at hs
        have hty : resourceNetboxDcimInterface.lookup "tagged_vlans" =
            some { ty := .TypeSetOfInt, Optional := true } := by decide
        rw [show List.lookup ("tagged_vlans", some (Value.vlans (x :: xs))).1
          resourceNetboxDcimInterface = some { ty := .TypeSetOfInt, Optional := true }
          from hty] at hs
        cases hs
        cases hv
        simp [decodeValue] at hdec
    obtain ⟨type, hT⟩ := htype
    have hnodup : ((resourceNetboxDcimInterfaceReadBody resource).map Prod.fst).Nodup := by
      simp only [resourceNetboxDcimInterfaceReadBody, List.map, hlag]
      decide
    have hbody : resourceNetboxDcimInterfaceReadBody resource =
        resourceNetboxDcimInterfaceReadBody
          { resource with Type_ := some type, Lag := none, TaggedVlans := [] } := by
      rw [← hT, ← hlag, ← hvlans]
    rw [hbody] at h hnodup
    refine ⟨by rw [hT]; simp, hlag, hvlans, ?_, ?_, ?_, ?_, ?_, ?_, ?_, ?_, ?_, ?_, ?_, ?_, ?_,
      ?_⟩
    · exact setEach_projects _ d d1 "device_id" h hnodup _
        (by repeat (first | exact List.mem_cons_self _ _ | apply List.mem_cons_of_mem))
        _ (by rw [hschema]; rfl) _ (by cases resource.Device <;> rfl)
    · exact setEach_projects _ d d1 "name" h hnodup _
        (by repeat (first | exact List.mem_cons_self _ _ | apply List.mem_cons_of_mem))
        _ (by rw [hschema]; rfl) _ (by cases resource.Name <;> rfl)
    · exact setEach_projects _ d d1 "type" h hnodup _
        (by repeat (first | exact List.mem_cons_self _ _ | apply List.mem_cons_of_mem))
        _ (by rw [hschema]; rfl) _ (by rw [hT]; rcases type with ⟨_ | _, _⟩ <;> rfl)
    · exact setEach_projects _ d d1 "enabled" h hnodup _
        (by repeat (first | exact List.mem_cons_self _ _ | apply List.mem_cons_of_mem))
        _ (by rw [hschema]; rfl) _ (by rfl)
    · exact setEach_projects _ d d1 "lag_id" h hnodup _
        (by repeat (first | exact List.mem_cons_self _ _ | apply List.mem_cons_of_mem))
        _ (by rw [hschema]; rfl) _ (by rfl)
    · exact setEach_projects _ d d1 "mtu" h hnodup _
        (by repeat (first | exact List.mem_cons_self _ _ | apply List.mem_cons_of_mem))
        _ (by rw [hschema]; rfl) _ (by cases resource.Mtu <;> rfl)
    · exact setEach_projects _ d d1 "mac_address" h hnodup _
        (by repeat (first | exact List.mem_cons_self _ _ | apply List.mem_cons_of_mem))
        _ (by rw [hschema]; rfl) _ (by cases resource.MacAddress <;> rfl)
    · exact setEach_projects _ d d1 "mgmt_only" h hnodup _
        (by repeat (first | exact List.mem_cons_self _ _ | apply List.mem_cons_of_mem))
        _ (by rw [hschema]; rfl) _ (by rfl)
    · exact setEach_projects _ d d1 "description" h hnodup _
        (by repeat (first | exact List.mem_cons_self _ _ | apply List.mem_cons_of_mem))
        _ (by rw [hschema]; rfl) _ (by rfl)
    · exact setEach_projects _ d d1 "connection_status" h hnodup _
        (by repeat (first | exact List.mem_cons_self _ _ | apply List.mem_cons_of_mem))
        _ (by rw [hschema]; rfl) _
        (by rcases resource.ConnectionStatus with _ | ⟨_ | _, _⟩ <;> rfl)
    · exact setEach_projects _ d d1 "mode" h hnodup _
        (by repeat (first | exact List.mem_cons_self _ _ | apply List.mem_cons_of_mem))
        _ (by rw [hschema]; rfl) _ (by rcases resource.Mode with _ | ⟨_ | _, _⟩ <;> rfl)
    · exact setEach_projects _ d d1 "untagged_vlan_id" h hnodup _
        (by repeat (first | exact List.mem_cons_self _ _ | apply List.mem_cons_of_mem))
        _ (by rw [hschema]; rfl) _ (by cases resource.UntaggedVlan <;> rfl)
    · exact setEach_projects _ d d1 "tagged_vlans" h hnodup _
        (by repeat (first | exact List.mem_cons_self _ _ | apply List.mem_cons_of_mem))
        _ (by rw [hschema]; rfl) _ (by rfl)
    · obtain ⟨w, hw⟩ : ∃ w, decodeValue .TypeSetOfTag (convertNestedTagsToTags resource.Tags) =
          some w := ⟨_, rfl⟩
      rw [hw]
      exact congrArg some (setEach_projects _ d d1 "tag" h hnodup _
        (by repeat (first | exact List.mem_cons_self _ _ | apply List.mem_cons_of_mem))
        _ (by rw [hschema]; rfl) _ hw)

/-- C1: For every resource kind, when the list request succeeds and `resource`
is the first fetched record, in list order, whose ID in base 10 equals the
identity, Read does exactly what its loop body does for that record (the
`Set` calls of the body applied to the data as it was) whatever the other
records are, and the identity is the same afterwards.  On data that follow
the schema of the kind, a Read that returns nil has overwritten every field
it writes from that record: strings and numbers as the record holds them, a
nil pointer as the zero value, a reference as the ID it points to, a choice
as its value.  Read of a site, a cable, a rack or a cluster always returns
nil; Read of a device does when the record has a site, Read of an interface
when the record has a type, no LAG and no tagged VLAN. -/
theorem read_projects_first_match :
    (∀ (list : String → Except Error (Page Site)) (d : ResourceData) (page : Page Site)
        (resource : Site),
        list d.Id = .ok page → FirstMatch Site.ID d.Id page.Results resource →
        resourceNetboxDcimSiteRead list d =
            setEach (resourceNetboxDcimSiteReadBody resource) d ∧
          (∀ err d1, resourceNetboxDcimSiteRead list d = .returned err d1 → d1.Id = d.Id) ∧
          (d.schema = resourceNetboxDcimSite →
            (∃ d1, resourceNetboxDcimSiteRead list d = .returned none d1) ∧
            ∀ d1, resourceNetboxDcimSiteRead list d = .returned none d1 →
              d1.Get "name" = .str (resource.Name.getD "") ∧
              d1.Get "slug" = .str (resource.Slug.getD "") ∧
              d1.Get "status" = .str ((resource.Status.bind Choice.Value).getD "") ∧
              d1.Get "tenant_id" = .int ((resource.Tenant.map Nested.ID).getD 0))) ∧
    (∀ (list : String → Except Error (Page Cable)) (d : ResourceData) (page : Page Cable)
        (resource : Cable),
        list d.Id = .ok page → FirstMatch Cable.ID d.Id page.Results resource →
        resourceNetboxDcimCableRead list d =
            setEach (resourceNetboxDcimCableReadBody resource) d ∧
          (∀ err d1, resourceNetboxDcimCableRead list d = .returned err d1 → d1.Id = d.Id) ∧
          (d.schema = resourceNetboxDcimCable →
            (∃ d1, resourceNetboxDcimCableRead list d = .returned none d1) ∧
            ∀ d1, resourceNetboxDcimCableRead list d = .returned none d1 →
              d1.Get "status" = .str ((resource.Status.bind Choice.Value).getD "") ∧
              d1.Get "termination_a_id" = .int (resource.TerminationaID.getD 0) ∧
              d1.Get "termination_a_type" = .str (resource.TerminationaType.getD "") ∧
              d1.Get "termination_b_id" = .int (resource.TerminationbID.getD 0) ∧
              d1.Get "termination_b_type" = .str (resource.TerminationbType.getD ""))) ∧
    (∀ (list : String → Except Error (Page Device)) (d : ResourceData) (page : Page Device)
        (resource : Device),
        list d.Id = .ok page → FirstMatch Device.ID d.Id page.Results resource →
        resourceNetboxDcimDeviceRead list d =
            setEach (resourceNetboxDcimDeviceReadBody resource) d ∧
          (∀ err d1, resourceNetboxDcimDeviceRead list d = .returned err d1 → d1.Id = d.Id) ∧
          (d.schema = resourceNetboxDcimDevice →
            (resource.Site ≠ none →
              ∃ d1, resourceNetboxDcimDeviceRead list d = .returned none d1) ∧
            ∀ d1, resourceNetboxDcimDeviceRead list d = .returned none d1 →
              resource.Site ≠ none ∧
              d1.Get "asset_tag" = .str (resource.AssetTag.getD "") ∧
              d1.Get "cluster_id" = .int ((resource.Cluster.map Nested.ID).getD 0) ∧
              d1.Get "name" = .str (resource.Name.getD "") ∧
              d1.Get "position" = .int (resource.Position.getD 0) ∧
              d1.Get "platform_id" = .int ((resource.Platform.map Nested.ID).getD 0) ∧
              d1.Get "primary_ip4_id" = .int ((resource.PrimaryIp4.map Nested.ID).getD 0) ∧
              d1.Get "primary_ip6_id" = .int ((resource.PrimaryIp6.map Nested.ID).getD 0) ∧
              d1.Get "rack_id" = .int ((resource.Rack.map Nested.ID).getD 0) ∧
              d1.Get "virtual_chassis_id" = .int ((resource.VirtualChassis.map Nested.ID).getD 0) ∧
              d1.Get "device_role_id" = .int ((resource.DeviceRole.map Nested.ID).getD 0) ∧
              d1.Get "device_type_id" = .int ((resource.DeviceType.map Nested.ID).getD 0) ∧
              d1.Get "face" = .str ((resource.Face.bind Choice.Value).getD "") ∧
              d1.Get "parent_device_id" = .int ((resource.ParentDevice.map Nested.ID).getD 0) ∧
              d1.Get "tenant_id" = .int ((resource.Tenant.map Nested.ID).getD 0) ∧
              d1.Get "site_id" = .int ((resource.Site.map Nested.ID).getD 0) ∧
              d1.Get "status" = .str ((resource.Status.bind Choice.Value).getD ""))) ∧
    (∀ (list : String → Except Error (Page Interface)) (d : ResourceData) (page : Page Interface)
        (resource : Interface),
        list d.Id = .ok page → FirstMatch Interface.ID d.Id page.Results resource →
        resourceNetboxDcimInterfaceRead list d =
            setEach (resourceNetboxDcimInterfaceReadBody resource) d ∧
          (∀ err d1, resourceNetboxDcimInterfaceRead list d = .returned err d1 → d1.Id = d.Id) ∧
          (d.schema = resourceNetboxDcimInterface →
            (resource.Type_ ≠ none → resource.Lag = none → resource.TaggedVlans = [] →
              ∃ d1, resourceNetboxDcimInterfaceRead list d = .returned none d1) ∧
            ∀ d1, resourceNetboxDcimInterfaceRead list d = .returned none d1 →
              resource.Type_ ≠ none ∧ resource.Lag = none ∧ resource.TaggedVlans = [] ∧
              d1.Get "device_id" = .int ((resource.Device.map Nested.ID).getD 0) ∧
              d1.Get "name" = .str (resource.Name.getD "") ∧
              d1.Get "type" = .str ((resource.Type_.bind Choice.Value).getD "") ∧
              d1.Get "enabled" = .bool resource.Enabled ∧
              d1.Get "lag_id" = .int 0 ∧
              d1.Get "mtu" = .int (resource.Mtu.getD 0) ∧
              d1.Get "mac_address" = .str (resource.MacAddress.getD "") ∧
              d1.Get "mgmt_only" = .bool resource.MgmtOnly ∧
              d1.Get "description" =
                .str (if resource.Description = "" then " " else resource.Description) ∧
              d1.Get "connection_status" =
                .bool ((resource.ConnectionStatus.bind BoolChoice.Value).getD false) ∧
              d1.Get "mode" = .str ((resource.Mode.bind Choice.Value).getD "") ∧
              d1.Get "untagged_vlan_id" =
                .int ((resource.UntaggedVlan.map Nested.ID).getD 0) ∧
              d1.Get "tagged_vlans" = .ints [] ∧
              some (d1.Get "tag") =
                decodeValue .TypeSetOfTag (convertNestedTagsToTags resource.Tags))) ∧
    (∀ (list : String → Except Error (Page Rack)) (d : ResourceData) (page : Page Rack)
        (resource : Rack),
        list d.Id = .ok page → FirstMatch Rack.ID d.Id page.Results resource →
        resourceNetboxDcimRackRead list d =
            setEach (resourceNetboxDcimRackReadBody resource) d ∧
          (∀ err d1, resourceNetboxDcimRackRead list d = .returned err d1 → d1.Id = d.Id) ∧
          (d.schema = resourceNetboxDcimRack →
            (∃ d1, resourceNetboxDcimRackRead list d = .returned none d1) ∧
            ∀ d1, resourceNetboxDcimRackRead list d = .returned none d1 →
              d1.Get "name" = .str (resource.Name.getD "") ∧
              d1.Get "asset_tag" = .str (resource.AssetTag.getD "") ∧
              d1.Get "facility_id" = .str (resource.FacilityID.getD "") ∧
              d1.Get "serial" = .str resource.Serial ∧
              d1.Get "u_height" = .int resource.UHeight ∧
              d1.Get "desc_units" = .bool resource.DescUnits ∧
              d1.Get "group_id" = .int ((resource.Group.map Nested.ID).getD 0) ∧
              d1.Get "role_id" = .int ((resource.Role.map Nested.ID).getD 0) ∧
              d1.Get "status" = .str ((resource.Status.bind Choice.Value).getD "") ∧
              d1.Get "site_id" = .int ((resource.Site.map Nested.ID).getD 0) ∧
              d1.Get "tenant_id" = .int ((resource.Tenant.map Nested.ID).getD 0))) ∧
    (∀ (list : String → Except Error (Page Cluster)) (d : ResourceData) (page : Page Cluster)
        (resource : Cluster),
        list d.Id = .ok page → FirstMatch Cluster.ID d.Id page.Results resource →
        resourceNetboxVirtualizationClusterRead list d =
            setEach (resourceNetboxVirtualizationClusterReadBody resource) d ∧
          (∀ err d1, resourceNetboxVirtualizationClusterRead list d = .returned err d1 → d1.Id = d.Id) ∧
          (d.schema = resourceNetboxVirtualizationCluster →
            (∃ d1, resourceNetboxVirtualizationClusterRead list d = .returned none d1) ∧
            ∀ d1, resourceNetboxVirtualizationClusterRead list d = .returned none d1 →
              d1.Get "name" = .str (resource.Name.getD "") ∧
              d1.Get "type_id" = .int ((resource.Type_.map Nested.ID).getD 0) ∧
              d1.Get "site_id" = .int ((resource.Site.map Nested.ID).getD 0) ∧
              d1.Get "tenant_id" = .int ((resource.Tenant.map Nested.ID).getD 0))) := by
  refine ⟨?_, ?_, ?_, ?_, ?_, ?_⟩
  · exact fun list d page resource hlist h =>
      ⟨(readWith_firstMatch _ _ list d page resource hlist h).1,
        (readWith_firstMatch _ _ list d page resource hlist h).2,
        fun hschema => site_read_projection list d page resource hschema hlist h⟩
  · exact fun list d page resource hlist h =>
      ⟨(readWith_firstMatch _ _ list d page resource hlist h).1,
        (readWith_firstMatch _ _ list d page resource hlist h).2,
        fun hschema => cable_read_projection list d page resource hschema hlist h⟩
  · exact fun list d page resource hlist h =>
      ⟨(readWith_firstMatch _ _ list d page resource hlist h).1,
        (readWith_firstMatch _ _ list d page resource hlist h).2,
        fun hschema => device_read_projection list d page resource hschema hlist h⟩
  · exact fun list d page resource hlist h =>
      ⟨(readWith_firstMatch _ _ list d page resource hlist h).1,
        (readWith_firstMatch _ _ list d page resource hlist h).2,
        fun hschema => interface_read_projection list d page resource hschema hlist h⟩
  · exact fun list d page resource hlist h =>
      ⟨(readWith_firstMatch _ _ list d page resource hlist h).1,
        (readWith_firstMatch _ _ list d page resource hlist h).2,
        fun hschema => rack_read_projection list d page resource hschema hlist h⟩
  · exact fun list d page resource hlist h =>
      ⟨(readWith_firstMatch _ _ list d page resource hlist h).1,
        (readWith_firstMatch _ _ list d page resource hlist h).2,
        fun hschema => cluster_read_projection list d page resource hschema hlist h⟩

/-- Witness of C1: the identity against three candidates of which the second
matches: the declared state is overwritten from that record alone and the
identity is kept, for a site (`"42"` against 41, 42, 43), a cable, a device,
an interface, a rack and a cluster. -/
theorem read_projects_first_match_witness :
    (FirstMatch Site.ID exampleSiteData.Id
        [exampleSite 41 "a", exampleSite 42 "b", exampleSite 43 "c"] (exampleSite 42 "b") ∧
      resourceNetboxDcimSiteRead
          (fun _ => .ok { Results := [exampleSite 41 "a", exampleSite 42 "b", exampleSite 43 "c"] })
          exampleSiteData =
        .returned none
          { exampleSiteData with
            attrs := [("tenant_id", .int 7), ("status", .str "active"), ("slug", .str "b"),
              ("name", .str "b"), ("name", .str "old"), ("slug", .str "old")] } ∧
      ({ exampleSiteData with
          attrs := [("tenant_id", .int 7), ("status", .str "active"), ("slug", .str "b"),
            ("name", .str "b"), ("name", .str "old"), ("slug", .str "old")] } :
        ResourceData).Get "name" = .str "b") ∧
    resourceNetboxDcimCableRead
        (fun _ => .ok { Results := [exampleCable 41, exampleCable 42, exampleCable 43] })
        exampleCableData =
      .returned none
        { exampleCableData with
          attrs := [("termination_b_type", .str "dcim.interface"), ("termination_b_id", .int 2),
            ("termination_a_type", .str "dcim.interface"), ("termination_a_id", .int 1),
            ("status", .str "connected")] } ∧
    resourceNetboxDcimDeviceRead
        (fun _ => .ok { Results := [{ exampleSerialDevice with ID := 2 }, exampleSerialDevice,
          { exampleSerialDevice with ID := 4 }] })
        exampleSerialDeviceData =
      .returned none
        { exampleSerialDeviceData with
          attrs := [("status", .str "active"), ("site_id", .int 3), ("tenant_id", .int 0),
            ("parent_device_id", .int 0), ("face", .str ""), ("device_type_id", .int 2),
            ("device_role_id", .int 1), ("virtual_chassis_id", .int 0), ("rack_id", .int 0),
            ("primary_ip6_id", .int 0), ("primary_ip4_id", .int 0), ("platform_id", .int 0),
            ("position", .int 0), ("name", .str "sw1"), ("cluster_id", .int 0),
            ("asset_tag", .str "")] ++ exampleSerialDeviceData.attrs } ∧
    resourceNetboxDcimInterfaceRead
        (fun _ => .ok { Results := [{ exampleAccessPort with ID := 6 }, exampleAccessPort,
          exampleLagMember] })
        exampleInterfaceData =
      .returned none
        { exampleInterfaceData with
          attrs := [("tag", .tags [{ name := "core", slug := "core" }]),
            ("tagged_vlans", .ints []), ("untagged_vlan_id", .int 5), ("mode", .str "access"),
            ("connection_status", .bool false), ("description", .str " "),
            ("mgmt_only", .bool false), ("mac_address", .str ""), ("mtu", .int 0),
            ("lag_id", .int 0), ("enabled", .bool true), ("type", .str "virtual"),
            ("name", .str "eth0"), ("device_id", .int 1)] ++ exampleInterfaceData.attrs } ∧
    resourceNetboxDcimRackRead
        (fun _ => .ok { Results := [exampleRack 4 "S4", exampleRack 5 "S5", exampleRack 6 "S6"] })
        exampleRackData =
      .returned none
        { exampleRackData with
          attrs := [("tenant_id", .int 0), ("site_id", .int 3), ("status", .str "active"),
            ("role_id", .int 2), ("group_id", .int 0), ("desc_units", .bool true),
            ("u_height", .int 42), ("serial", .str "S5"), ("facility_id", .str ""),
            ("asset_tag", .str ""), ("name", .str "r1")] ++ exampleRackData.attrs } ∧
    resourceNetboxVirtualizationClusterRead
        (fun _ => .ok { Results := [exampleCluster 41 "a", exampleCluster 42 "b",
          exampleCluster 43 "c"] })
        exampleClusterData =
      .returned none
        { exampleClusterData with
          attrs := [("tenant_id", .int 7), ("site_id", .int 0), ("type_id", .int 1),
            ("name", .str "b"), ("name", .str "old")] } := by
  have hsite := read_projects_first_match.1
    (fun _ => .ok { Results := [exampleSite 41 "a", exampleSite 42 "b", exampleSite 43 "c"] })
    exampleSiteData _ (exampleSite 42 "b") rfl
    ⟨[exampleSite 41 "a"], [exampleSite 43 "c"], rfl, by decide, by decide⟩
  have hcable := read_projects_first_match.2.1
    (fun _ => .ok { Results := [exampleCable 41, exampleCable 42, exampleCable 43] })
    exampleCableData _ (exampleCable 42) rfl
    ⟨[exampleCable 41], [exampleCable 43], rfl, by decide, by decide⟩
  have hdevice := read_projects_first_match.2.2.1
    (fun _ => .ok { Results := [{ exampleSerialDevice with ID := 2 }, exampleSerialDevice,
      { exampleSerialDevice with ID := 4 }] })
    exampleSerialDeviceData _ exampleSerialDevice rfl
    ⟨[{ exampleSerialDevice with ID := 2 }], [{ exampleSerialDevice with ID := 4 }], rfl,
      by decide, by decide⟩
  have hinterface := read_projects_first_match.2.2.2.1
    (fun _ => .ok { Results := [{ exampleAccessPort with ID := 6 }, exampleAccessPort,
      exampleLagMember] })
    exampleInterfaceData _ exampleAccessPort rfl
    ⟨[{ exampleAccessPort with ID := 6 }], [exampleLagMember], rfl, by decide, by decide⟩
  have hrack := read_projects_first_match.2.2.2.2.1
    (fun _ => .ok { Results := [exampleRack 4 "S4", exampleRack 5 "S5", exampleRack 6 "S6"] })
    exampleRackData _ (exampleRack 5 "S5") rfl
    ⟨[exampleRack 4 "S4"], [exampleRack 6 "S6"], rfl, by decide, by decide⟩
  have hcluster := read_projects_first_match.2.2.2.2.2
    (fun _ => .ok { Results := [exampleCluster 41 "a", exampleCluster 42 "b",
      exampleCluster 43 "c"] })
    exampleClusterData _ (exampleCluster 42 "b") rfl
    ⟨[exampleCluster 41 "a"], [exampleCluster 43 "c"], rfl, by decide, by decide⟩
  have hs : resourceNetboxDcimSiteRead
      (fun _ => .ok { Results := [exampleSite 41 "a", exampleSite 42 "b", exampleSite 43 "c"] })
      exampleSiteData =
        .returned none
          { exampleSiteData with
            attrs := [("tenant_id", .int 7), ("status", .str "active"), ("slug", .str "b"),
              ("name", .str "b"), ("name", .str "old"), ("slug", .str "old")] } :=
    hsite.1.trans (by decide)
  exact ⟨⟨⟨[exampleSite 41 "a"], [exampleSite 43 "c"], rfl, by decide, by decide⟩, hs,
      ((hsite.2.2 rfl).2 _ hs).1⟩,
    hcable.1.trans (by decide), hdevice.1.trans (by decide), hinterface.1.trans (by decide),
    hrack.1.trans (by decide), hcluster.1.trans (by decide)⟩

end Netbox
